import Mathlib

/-! go-dbModeler: type mappers, script transform stage, template renderer, connectors,
storage

A shallow embedding of `internal/generator` (`mapper.go`, `javascript_processor.go`,
`template.go`, `template_manager.go`), of `internal/db/connector` (`connector.go`,
`mysql.go`, `postgres.go`, `sqlite.go`), of `internal/db/metadata/metadata.go`, of
`internal/config` (`storage.go`, `encrypt.go`), of `pkg/validator/validator.go` and of the
code-producing part of `internal/ui/pages/generator_page.go`.

Go strings are embedded as Lean strings.  A `for i, c := range s` loop visits the
runes of `s` together with their byte offsets, so `s[:i]` at the first rune equal to
an ASCII character is exactly the sequence of runes that precede it.
-/

namespace DBModeler

/-! ## `mapper.go` -/

/-- A Go `map[string]string`, kept as a list of entries with pairwise distinct keys. -/
abbrev TypeMap := List (String × String)

/-- The assignment `m[k] = v`: an older entry for `k` is replaced. -/
def TypeMap.assign (m : TypeMap) (k v : String) : TypeMap :=
  (k, v) :: m.filter (fun e => e.1 != k)

/-- The lookup `v, ok := m[k]`. -/
def TypeMap.get (m : TypeMap) (k : String) : Option String :=
  m.lookup k

/-- The keys of a map. -/
def TypeMap.keys (m : TypeMap) : List String :=
  m.map Prod.fst

/-- A map built by `make` followed by the listed assignments, in order. -/
def TypeMap.make (assignments : List (String × String)) : TypeMap :=
  assignments.foldl (fun m e => m.assign e.1 e.2) []

/-- The loop `for i, c := range dbType { if c == '(' || c == ' ' { baseType = dbType[:i]; break } }`
on the runes of `dbType`: the runes before the first `(` or space, all of them when there is
none. -/
def baseTypeRunes : List Char → List Char
  | [] => []
  | c :: cs => if c = '(' ∨ c = ' ' then [] else c :: baseTypeRunes cs

/-- The value of `baseType` after the extraction loop of `MySQLMapper.Map` and
`SQLiteMapper.Map`. -/
def baseTypeOf (dbType : String) : String :=
  ⟨baseTypeRunes dbType.data⟩

/-- The struct `MySQLMapper`. -/
structure MySQLMapper where
  typeMap : TypeMap

/-- The struct `PostgreSQLMapper`. -/
structure PostgreSQLMapper where
  typeMap : TypeMap

/-- The struct `SQLiteMapper`. -/
structure SQLiteMapper where
  typeMap : TypeMap

/-- The constructor `NewMySQLMapper`. -/
def NewMySQLMapper : MySQLMapper :=
  { typeMap := TypeMap.make
      [ ("int", "number"), ("tinyint", "number"), ("smallint", "number"),
        ("mediumint", "number"), ("bigint", "number"), ("float", "number"),
        ("double", "number"), ("decimal", "number"),
        ("char", "string"), ("varchar", "string"), ("tinytext", "string"),
        ("text", "string"), ("mediumtext", "string"), ("longtext", "string"),
        ("date", "Date"), ("datetime", "Date"), ("timestamp", "Date"),
        ("time", "string"), ("year", "number"),
        ("tinyint(1)", "boolean"), ("bit", "boolean"),
        ("json", "any"), ("enum", "string"), ("set", "string[]"),
        ("binary", "Buffer"), ("varbinary", "Buffer"), ("blob", "Buffer") ] }

/-- The method `MySQLMapper.Map`. -/
def MySQLMapper.Map (m : MySQLMapper) (dbType : String) : String :=
  if dbType = "tinyint(1)" then "boolean"
  else
    match m.typeMap.get (baseTypeOf dbType) with
    | some tsType => tsType
    | none => "any"

/-- The constructor `NewPostgreSQLMapper`. -/
def NewPostgreSQLMapper : PostgreSQLMapper :=
  { typeMap := TypeMap.make
      [ ("smallint", "number"), ("integer", "number"), ("bigint", "number"),
        ("decimal", "number"), ("numeric", "number"), ("real", "number"),
        ("double precision", "number"), ("serial", "number"), ("bigserial", "number"),
        ("varchar", "string"), ("character varying", "string"), ("character", "string"),
        ("text", "string"),
        ("timestamp", "Date"), ("timestamp with time zone", "Date"),
        ("timestamp without time zone", "Date"), ("date", "Date"), ("time", "string"),
        ("time with time zone", "string"), ("time without time zone", "string"),
        ("interval", "string"),
        ("boolean", "boolean"),
        ("json", "any"), ("jsonb", "any"), ("uuid", "string"), ("inet", "string"),
        ("cidr", "string"), ("macaddr", "string"),
        ("bytea", "Buffer") ] }

/-- The method `PostgreSQLMapper.Map`. -/
def PostgreSQLMapper.Map (m : PostgreSQLMapper) (dbType : String) : String :=
  match m.typeMap.get dbType with
  | some tsType => tsType
  | none => "any"

/-- The constructor `NewSQLiteMapper`. -/
def NewSQLiteMapper : SQLiteMapper :=
  { typeMap := TypeMap.make
      [ ("integer", "number"), ("int", "number"), ("tinyint", "number"),
        ("smallint", "number"), ("mediumint", "number"), ("bigint", "number"),
        ("real", "number"), ("double", "number"), ("float", "number"),
        ("numeric", "number"),
        ("text", "string"), ("char", "string"), ("varchar", "string"),
        ("varying character", "string"), ("nchar", "string"),
        ("native character", "string"), ("nvarchar", "string"),
        ("date", "Date"), ("datetime", "Date"), ("timestamp", "Date"),
        ("boolean", "boolean"),
        ("blob", "Buffer") ] }

/-- The method `SQLiteMapper.Map`. -/
def SQLiteMapper.Map (m : SQLiteMapper) (dbType : String) : String :=
  let baseType := baseTypeOf dbType
  if baseType = "tinyint" ∧ dbType = "tinyint(1)" then "boolean"
  else
    match m.typeMap.get baseType with
    | some tsType => tsType
    | none => "any"

/-- The interface `TypeMapper`, as the sum of its three implementations. -/
inductive TypeMapper where
  | mysql (m : MySQLMapper)
  | postgres (m : PostgreSQLMapper)
  | sqlite (m : SQLiteMapper)

/-- Dynamic dispatch of `TypeMapper.Map`. -/
def TypeMapper.Map : TypeMapper → String → String
  | .mysql m, dbType => m.Map dbType
  | .postgres m, dbType => m.Map dbType
  | .sqlite m, dbType => m.Map dbType

/-- The factory `NewTypeMapper`. -/
def NewTypeMapper (dbType : String) : TypeMapper :=
  if dbType = "MySQL" then .mysql NewMySQLMapper
  else if dbType = "PostgreSQL" then .postgres NewPostgreSQLMapper
  else if dbType = "SQLite" then .sqlite NewSQLiteMapper
  else .mysql NewMySQLMapper

/-! ## `javascript_processor.go` -/

/-- Go's `unicode.IsSpace`: the white space characters of Unicode. -/
def isSpace (c : Char) : Bool :=
  let n := c.toNat
  (9 ≤ n && n ≤ 13) || n = 32 || n = 0x85 || n = 0xA0 || n = 0x1680 ||
  (0x2000 ≤ n && n ≤ 0x200A) || n = 0x2028 || n = 0x2029 || n = 0x202F ||
  n = 0x205F || n = 0x3000

/-- Go's `strings.TrimSpace`: leading and trailing white space removed. -/
def TrimSpace (s : String) : String :=
  ⟨((s.data.dropWhile isSpace).reverse.dropWhile isSpace).reverse⟩

/-- A script that is empty or holds white space only. -/
def isBlank (script : String) : Bool :=
  script.data.all isSpace

/-- The Go values that `Process` hands to `vm.Set`. -/
inductive HostValue (P : Type) where
  /-- A Go string. -/
  | str (s : String)
  /-- The value `json.Unmarshal` stored in `parsedInput`. -/
  | parsed (v : P)
  /-- The replacement `map[string]interface{}{}` used when parsing failed. -/
  | emptyMap
  /-- The map with the three closures `log`, `warn` and `error`. -/
  | console

/-- How a call of `vm.RunString` ends. -/
inductive RunOutcome (VM : Type) where
  /-- The script ran to its end; `vm` is the interpreter state afterwards. -/
  | completed (vm : VM)
  /-- The script did not compile or threw; `err` is the text of the error. -/
  | raised (vm : VM) (err : String)
  /-- The script never returns (no time limit is set on the interpreter). -/
  | diverges

/-- The part of the `goja` library that `Process` uses, over the interpreter states `VM`
and the script values `Val`.  The library is not part of the repository: every theorem
about `Process` holds for all its behaviours.  `ToString` is `Value.String`, taken to
return. -/
structure Goja (VM Val P : Type) where
  /-- The state of `goja.New()`. -/
  New : VM
  /-- The call `vm.Set(name, value)`; the error it returns is dropped by `Process`. -/
  Set : VM → String → HostValue P → VM
  /-- The call `vm.RunString(script)`. -/
  RunString : VM → String → RunOutcome VM
  /-- The call `vm.Get(name)`: `none` is the nil value of an absent binding. -/
  Get : VM → String → Option Val
  /-- The test `goja.IsUndefined`. -/
  IsUndefined : Val → Bool
  /-- The method `Value.String`. -/
  ToString : Val → String

/-- The two calls into `encoding/json`, for models of type `M` and parsed values of
type `P`. -/
structure Json (M P : Type) where
  /-- The call `json.Marshal(metadata)`: the JSON text or the text of the error. -/
  Marshal : M → Except String String
  /-- The call `json.Unmarshal` into an `interface{}`. -/
  Unmarshal : String → Except String P

/-- The struct `JavaScriptProcessor`.  The logger writes to an outside sink and returns
nothing to the code, so the field `log` and the calls on it are left out. -/
structure JavaScriptProcessor (VM : Type) where
  vm : VM

/-- The constructor `NewJavaScriptProcessor`. -/
def NewJavaScriptProcessor {VM Val P : Type} (G : Goja VM Val P) : JavaScriptProcessor VM :=
  { vm := G.New }

/-- What a returning call of `Process` leaves behind: the two results and the processor,
whose interpreter the call mutated in place. -/
structure Returned (VM : Type) where
  text : String
  err : Option String
  proc : JavaScriptProcessor VM

/-- The value of `inputJSON` in `Process`: the encoding of a non-nil `metadata`, the text
of two braces for a nil one. -/
def inputJSONOf {M P : Type} (J : Json M P) : Option M → Except String String
  | some metadata => J.Marshal metadata
  | none => .ok "\x7b\x7d"

/-- The interpreter state on which `Process` runs the script: the four `vm.Set` calls. -/
def bindInputs {VM Val P M : Type} (G : Goja VM Val P) (J : Json M P) (vm : VM)
    (tsCode inputJSON : String) : VM :=
  let vm := G.Set vm "inputJSON" (.str inputJSON)
  let vm := G.Set vm "tsCode" (.str tsCode)
  let parsedInput : HostValue P :=
    match J.Unmarshal inputJSON with
    | .ok v => .parsed v
    | .error _ => .emptyMap
  let vm := G.Set vm "input" parsedInput
  G.Set vm "console" .console

/-- The tail of `Process` after a script that ran to its end: reading `output`. -/
def readOutput {VM Val P : Type} (G : Goja VM Val P) (vm : VM) (tsCode : String) : String :=
  match G.Get vm "output" with
  | none => tsCode
  | some outputVal =>
    if G.IsUndefined outputVal then tsCode
    else
      let output := G.ToString outputVal
      if output = "" then tsCode else output

/-- The method `JavaScriptProcessor.Process`.  `none` is a call that never returns. -/
def JavaScriptProcessor.Process {VM Val P M : Type} (G : Goja VM Val P) (J : Json M P)
    (p : JavaScriptProcessor VM) (tsCode script : String) (metadata : Option M) :
    Option (Returned VM) :=
  if TrimSpace script = "" then some ⟨tsCode, none, p⟩
  else
    match inputJSONOf J metadata with
    | .error err => some ⟨"", some ("JSON序列化错误: " ++ err), p⟩
    | .ok inputJSON =>
      match G.RunString (bindInputs G J p.vm tsCode inputJSON) script with
      | .diverges => none
      | .raised vm err => some ⟨"", some ("JavaScript执行错误: " ++ err), ⟨vm⟩⟩
      | .completed vm => some ⟨readOutput G vm tsCode, none, ⟨vm⟩⟩

/-! ## `connector.go`: the schema model -/

/-- The struct `FieldInfo`; `Typ` is its field `Type`. -/
structure FieldInfo where
  Name : String
  Typ : String
  Length : Int
  IsNullable : Bool
  IsPrimary : Bool
  IsUnique : Bool
  Default : String
  Comment : String

/-- The struct `IndexInfo`; `Typ` is its field `Type`. -/
structure IndexInfo where
  Name : String
  Typ : String
  Columns : List String

/-- The struct `TableMetadata`. -/
structure TableMetadata where
  Name : String
  Fields : List FieldInfo
  Indexes : List IndexInfo

/-! ## `template.go` -/

/-- The struct `FieldData`. -/
structure FieldData where
  Name : String
  TsType : String
  Comment : String
deriving DecidableEq

/-- The struct `TemplateData`. -/
structure TemplateData where
  TableName : String
  Fields : List FieldData
deriving DecidableEq

/-- A parsed `*template.Template`, by what its `Execute` writes for a `TemplateData`: the
full text, or the text of the error.  Every behaviour of the library is such a function. -/
structure Template where
  Execute : TemplateData → Except String String

/-! ### The fragment of `text/template` of the default template

Text, the field actions written with a dot and a name, and one level of `range ... end`
over a field.  A template with anything else is outside the fragment and `ParseTemplate`
does not accept it. -/

/-- An element of the body of a `range`. -/
inductive Item where
  | text (s : String)
  | field (name : String)
deriving DecidableEq

/-- An element of a template. -/
inductive Node where
  | text (s : String)
  | field (name : String)
  | range (name : String) (body : List Item)
deriving DecidableEq

/-- A lexical piece of a template: text, or the inside of an action. -/
inductive Piece where
  | text (cs : List Char)
  | action (cs : List Char)
deriving DecidableEq

/-- Where the scan of a template stands: in text, in text after one opening brace, in an
action, in an action after one closing brace. -/
inductive ScanState where
  | inText
  | inTextBrace
  | inAction
  | inActionBrace

/-- Closes the text piece `acc` (newest character first); an empty text gives no piece. -/
def pushText (acc : List Char) (pieces : List Piece) : List Piece :=
  if acc = [] then pieces else .text acc.reverse :: pieces

/-- Cuts a template at its action delimiters, the leftmost pair of opening braces first.
`acc` holds the characters of the current piece and `pieces` the finished pieces, both newest
first. -/
def splitActions : ScanState → List Char → List Piece → List Char → Except String (List Piece)
  | .inText, acc, pieces, [] => .ok (pushText acc pieces).reverse
  | .inTextBrace, acc, pieces, [] => .ok (pushText (Char.ofNat 123 :: acc) pieces).reverse
  | .inAction, _, _, [] => .error "unclosed action"
  | .inActionBrace, _, _, [] => .error "unclosed action"
  | .inText, acc, pieces, c :: cs =>
    if c = Char.ofNat 123 then splitActions .inTextBrace acc pieces cs
    else splitActions .inText (c :: acc) pieces cs
  | .inTextBrace, acc, pieces, c :: cs =>
    if c = Char.ofNat 123 then splitActions .inAction [] (pushText acc pieces) cs
    else splitActions .inText (c :: Char.ofNat 123 :: acc) pieces cs
  | .inAction, acc, pieces, c :: cs =>
    if c = Char.ofNat 125 then splitActions .inActionBrace acc pieces cs
    else splitActions .inAction (c :: acc) pieces cs
  | .inActionBrace, acc, pieces, c :: cs =>
    if c = Char.ofNat 125 then splitActions .inText [] (.action acc.reverse :: pieces) cs
    else splitActions .inAction (c :: Char.ofNat 125 :: acc) pieces cs

/-- The words of an action, separated by spaces. -/
def actionWords (cs : List Char) : List (List Char) :=
  (cs.splitOn ' ').filter (fun w => w ≠ [])

/-- A Go identifier: letters, digits and underscores, not starting with a digit. -/
def isIdentifier (cs : List Char) : Bool :=
  match cs with
  | [] => false
  | c :: _ => !c.isDigit && cs.all (fun x => x.isAlphanum || x = '_')

/-- The name of a field reference `.Name`. -/
def fieldRef : List Char → Option String
  | c :: cs => if c = '.' ∧ isIdentifier cs then some ⟨cs⟩ else none
  | [] => none

/-- The actions of the fragment. -/
inductive Action where
  | field (name : String)
  | rangeOver (name : String)
  | endRange
  | unsupported

/-- Reads the inside of an action. -/
def readAction (cs : List Char) : Action :=
  match actionWords cs with
  | [w] =>
    if w = "end".data then .endRange
    else match fieldRef w with
      | some name => .field name
      | none => .unsupported
  | [r, w] =>
    if r = "range".data then
      match fieldRef w with
      | some name => .rangeOver name
      | none => .unsupported
    else .unsupported
  | _ => .unsupported

/-- Builds the tree from the pieces.  `done` are the finished nodes, newest first, and `openRange`
the name and the body so far, newest first, of a `range` waiting for its `end`. -/
def buildNodes : List Piece → List Node → Option (String × List Item) →
    Except String (List Node)
  | [], done, none => .ok done.reverse
  | [], _, some _ => .error "unexpected EOF"
  | .text cs :: ps, done, none => buildNodes ps (.text ⟨cs⟩ :: done) none
  | .text cs :: ps, done, some (name, body) =>
    buildNodes ps done (some (name, .text ⟨cs⟩ :: body))
  | .action cs :: ps, done, none =>
    match readAction cs with
    | .field name => buildNodes ps (.field name :: done) none
    | .rangeOver name => buildNodes ps done (some (name, []))
    | .endRange => .error "unexpected end action"
    | .unsupported => .error "action outside the fragment"
  | .action cs :: ps, done, some (name, body) =>
    match readAction cs with
    | .field f => buildNodes ps done (some (name, .field f :: body))
    | .rangeOver _ => .error "nested range outside the fragment"
    | .endRange => buildNodes ps (.range name body.reverse :: done) none
    | .unsupported => .error "action outside the fragment"

/-- The tree of a template text of the fragment. -/
def parseNodes (templateStr : String) : Except String (List Node) :=
  match splitActions .inText [] [] templateStr.data with
  | .error e => .error e
  | .ok ps => buildNodes ps [] none

/-- Executes an element of a `range` body with the dot on a `FieldData`. -/
def execItem (f : FieldData) : Item → Except String String
  | .text s => .ok s
  | .field name =>
    if name = "Name" then .ok f.Name
    else if name = "TsType" then .ok f.TsType
    else if name = "Comment" then .ok f.Comment
    else .error ("can't evaluate field " ++ name ++ " in type generator.FieldData")

/-- Executes a sequence and concatenates what it writes; the first error stops it. -/
def execAll {α : Type} (exec : α → Except String String) : List α → Except String String
  | [] => .ok ""
  | x :: xs =>
    match exec x with
    | .error e => .error e
    | .ok s =>
      match execAll exec xs with
      | .error e => .error e
      | .ok rest => .ok (s ++ rest)

/-- How `fmt` prints a `FieldData` and a slice of them. -/
def formatFields (fs : List FieldData) : String :=
  "[" ++ " ".intercalate
    (fs.map (fun f => "\x7b" ++ f.Name ++ " " ++ f.TsType ++ " " ++ f.Comment ++ "\x7d")) ++ "]"

/-- Executes a node with the dot on the `TemplateData`. -/
def execNode (data : TemplateData) : Node → Except String String
  | .text s => .ok s
  | .field name =>
    if name = "TableName" then .ok data.TableName
    else if name = "Fields" then .ok (formatFields data.Fields)
    else .error ("can't evaluate field " ++ name ++ " in type generator.TemplateData")
  | .range name body =>
    if name = "Fields" then execAll (fun f => execAll (execItem f) body) data.Fields
    else if name = "TableName" then .error "range can't iterate over a string"
    else .error ("can't evaluate field " ++ name ++ " in type generator.TemplateData")

/-- The call `template.New("tsmodel").Parse(templateStr)` on the fragment. -/
def ParseTemplate (templateStr : String) : Except String Template :=
  match parseNodes templateStr with
  | .error e => .error e
  | .ok nodes => .ok { Execute := fun data => execAll (execNode data) nodes }

/-- The struct `Generator`; the logger and the script manager, which `Generate` does not
read, are left out. -/
structure Generator where
  mapper : TypeMapper
  template : Template
  script : String

/-- The constructor `NewGenerator`. -/
def NewGenerator (dbType templateStr : String) : Except String Generator :=
  match ParseTemplate templateStr with
  | .error err => .error err
  | .ok tmpl => .ok { mapper := NewTypeMapper dbType, template := tmpl, script := "" }

/-- The method `SetScript`. -/
def Generator.SetScript (g : Generator) (script : String) : Generator :=
  { g with script := script }

/-- The render model `Generate` builds: the loop appending one `FieldData` per field. -/
def templateDataOf (mapper : TypeMapper) (metadata : TableMetadata) : TemplateData :=
  { TableName := metadata.Name
    Fields := metadata.Fields.foldl
      (fun fields field =>
        fields ++ [{ Name := field.Name, TsType := mapper.Map field.Typ,
                     Comment := field.Comment }]) [] }

/-- The method `Generator.Generate`: the text and the error it returns; `none` is a call
that never returns. -/
def Generator.Generate {VM Val P : Type} (G : Goja VM Val P) (J : Json TemplateData P)
    (g : Generator) (metadata : TableMetadata) : Option (String × Option String) :=
  let data := templateDataOf g.mapper metadata
  match g.template.Execute data with
  | .error err => some ("", some err)
  | .ok tsCode =>
    if g.script ≠ "" then
      let processor := NewJavaScriptProcessor G
      match processor.Process G J tsCode g.script (some data) with
      | none => none
      | some r =>
        match r.err with
        | some err => some (tsCode, some err)
        | none => some (r.text, none)
    else some (tsCode, none)

/-- The function `DefaultTemplate`. -/
def DefaultTemplate : String :=
  "export interface \x7b\x7b.TableName\x7d\x7d \x7b\n" ++
  "\x7b\x7brange .Fields\x7d\x7d  \x2f** \x7b\x7b.Comment\x7d\x7d *\x2f\n" ++
  "  \x7b\x7b.Name\x7d\x7d: \x7b\x7b.TsType\x7d\x7d;\n" ++
  "\x7b\x7bend\x7d\x7d\n" ++
  "\x7d\n"

/-! ## A small interpreter for concrete runs

An instance of `Goja` for a fragment of JavaScript: a script is a sequence of statements
separated by semicolons, each one `x = "text"`, `x = typeof y` or `throw "text"`, where the
names are written in lower-case letters and are neither reserved words nor names that the
interpreter or `Process` binds, and the texts hold no quote, backslash or line end.  In this
fragment an assignment to an undeclared name creates a global binding and `typeof` of an
absent binding is the string `undefined`.  Scripts outside the fragment are not modelled:
the instance reports them as raising and no theorem runs it on one. -/

/-- The values of the global bindings: a string, or an object handed over by the host. -/
inductive MiniVal where
  | str (s : String)
  | host
deriving DecidableEq

/-- The global bindings, each name once. -/
abbrev MiniVM := List (String × MiniVal)

/-- Write to a global binding. -/
def miniSet (vm : MiniVM) (name : String) (v : MiniVal) : MiniVM :=
  (name, v) :: vm.filter (fun e => e.1 != name)

/-- The tokens of the fragment. -/
inductive JTok where
  | ident (cs : List Char)
  | assign
  | strLit (cs : List Char)
  | semi
deriving DecidableEq

/-- Where the scan of a script stands. -/
inductive JScan where
  | start
  | inIdent (acc : List Char)
  | inStr (acc : List Char)

/-- The character `c` read between two tokens. -/
def startChar (toks : List JTok) (c : Char) : Option (JScan × List JTok) :=
  if c.isLower then some (.inIdent [c], toks)
  else if c = Char.ofNat 34 then some (.inStr [], toks)
  else if c = '=' then some (.start, .assign :: toks)
  else if c = ';' then some (.start, .semi :: toks)
  else if c = ' ' ∨ c.toNat = 9 ∨ c.toNat = 10 ∨ c.toNat = 13 then some (.start, toks)
  else none

/-- The tokens of a script, `none` outside the fragment; `toks` holds them newest first. -/
def jsTokens : JScan → List JTok → List Char → Option (List JTok)
  | .start, toks, [] => some toks.reverse
  | .inIdent acc, toks, [] => some (.ident acc.reverse :: toks).reverse
  | .inStr _, _, [] => none
  | .start, toks, c :: cs =>
    match startChar toks c with
    | none => none
    | some (st, toks1) => jsTokens st toks1 cs
  | .inIdent acc, toks, c :: cs =>
    if c.isLower then jsTokens (.inIdent (c :: acc)) toks cs
    else
      match startChar (.ident acc.reverse :: toks) c with
      | none => none
      | some (st, toks1) => jsTokens st toks1 cs
  | .inStr acc, toks, c :: cs =>
    if c = Char.ofNat 34 then jsTokens .start (.strLit acc.reverse :: toks) cs
    else if c.toNat = 92 ∨ c.toNat = 10 ∨ c.toNat = 13 ∨ c.toNat = 0x2028 ∨ c.toNat = 0x2029 then
      none
    else jsTokens (.inStr (c :: acc)) toks cs

/-- The lower-case words that are not names of the fragment: the reserved words, the
lower-case globals of a fresh interpreter and the lower-case names `Process` binds. -/
def jsExcluded : List String :=
  [ "break", "case", "catch", "class", "const", "continue", "debugger", "default", "delete",
    "do", "else", "enum", "export", "extends", "false", "finally", "for", "function", "if",
    "import", "in", "instanceof", "new", "null", "return", "super", "switch", "this", "throw",
    "true", "try", "typeof", "var", "void", "while", "with", "yield", "let", "static",
    "implements", "interface", "package", "private", "protected", "public", "await", "async",
    "arguments", "undefined", "eval", "escape", "unescape", "input", "console" ]

/-- A name of the fragment. -/
def isName (cs : List Char) : Bool :=
  !jsExcluded.contains ⟨cs⟩

/-- The statements of the fragment. -/
inductive Stmt where
  | assignLit (x v : String)
  | assignTypeof (x y : String)
  | throwLit (v : String)
  | empty

/-- The statement written by the tokens between two semicolons. -/
def parseStmt : List JTok → Option Stmt
  | [] => some .empty
  | [.ident x, .assign, .strLit v] => if isName x then some (.assignLit ⟨x⟩ ⟨v⟩) else none
  | [.ident x, .assign, .ident t, .ident y] =>
    if isName x ∧ t = "typeof".data ∧ isName y then some (.assignTypeof ⟨x⟩ ⟨y⟩) else none
  | [.ident t, .strLit v] => if t = "throw".data then some (.throwLit ⟨v⟩) else none
  | _ => none

/-- The statements of a script; one statement outside the fragment rejects the script. -/
def parseStmts : List (List JTok) → Option (List Stmt)
  | [] => some []
  | g :: gs =>
    match parseStmt g, parseStmts gs with
    | some st, some sts => some (st :: sts)
    | _, _ => none

/-- The result of `typeof` on a name. -/
def typeofName (vm : MiniVM) (y : String) : String :=
  match vm.lookup y with
  | some (.str _) => "string"
  | some .host => "object"
  | none => "undefined"

/-- Runs the statements in order; a `throw` stops the script and keeps what ran before. -/
def execStmts : MiniVM → List Stmt → RunOutcome MiniVM
  | vm, [] => .completed vm
  | vm, .assignLit x v :: sts => execStmts (miniSet vm x (.str v)) sts
  | vm, .assignTypeof x y :: sts => execStmts (miniSet vm x (.str (typeofName vm y))) sts
  | vm, .throwLit v :: _ => .raised vm v
  | vm, .empty :: sts => execStmts vm sts

/-- Compiles and runs a script: nothing runs when the script does not compile. -/
def miniRun (vm : MiniVM) (script : String) : RunOutcome MiniVM :=
  match jsTokens .start [] script.data with
  | none => .raised vm "SyntaxError"
  | some toks =>
    match parseStmts (toks.splitOn .semi) with
    | none => .raised vm "SyntaxError"
    | some sts => execStmts vm sts

/-- The interpreter of the fragment as an instance of `Goja`. -/
def miniGoja (P : Type) : Goja MiniVM MiniVal P where
  New := []
  Set := fun vm name value =>
    miniSet vm name (match value with
      | .str s => .str s
      | _ => .host)
  RunString := miniRun
  Get := fun vm name => vm.lookup name
  IsUndefined := fun _ => false
  ToString := fun v =>
    match v with
    | .str s => s
    | .host => "[object Object]"

/-! ## The encoding of the render model by `encoding/json` -/

/-- A hexadecimal digit in lower case. -/
def hexDigit (n : Nat) : Char :=
  if n < 10 then Char.ofNat (48 + n) else Char.ofNat (87 + n)

/-- The escape of the form `u` followed by four hexadecimal digits. -/
def unicodeEscape (n : Nat) : List Char :=
  [Char.ofNat 92, 'u', hexDigit (n / 4096 % 16), hexDigit (n / 256 % 16),
    hexDigit (n / 16 % 16), hexDigit (n % 16)]

/-- One rune inside a JSON string, as `json.Marshal` writes it. -/
def jsonRune (c : Char) : List Char :=
  let n := c.toNat
  if n = 34 ∨ n = 92 then [Char.ofNat 92, c]
  else if n = 8 then [Char.ofNat 92, 'b']
  else if n = 12 then [Char.ofNat 92, 'f']
  else if n = 10 then [Char.ofNat 92, 'n']
  else if n = 13 then [Char.ofNat 92, 'r']
  else if n = 9 then [Char.ofNat 92, 't']
  else if n < 32 ∨ c = '<' ∨ c = '>' ∨ c = '&' ∨ n = 0x2028 ∨ n = 0x2029 then unicodeEscape n
  else [c]

/-- A Go string as a JSON string. -/
def jsonString (s : String) : String :=
  ⟨Char.ofNat 34 :: (s.data.flatMap jsonRune ++ [Char.ofNat 34])⟩

/-- A JSON member with a string value, under the key of the struct tag. -/
def jsonMember (key value : String) : String :=
  jsonString key ++ ":" ++ jsonString value

/-- The encoding of a `FieldData`. -/
def marshalFieldData (f : FieldData) : String :=
  "\x7b" ++ jsonMember "name" f.Name ++ "," ++ jsonMember "tsType" f.TsType ++ "," ++
    jsonMember "comment" f.Comment ++ "\x7d"

/-- The encoding of a `TemplateData` whose slice is not nil, as `Generate` builds it. -/
def marshalTemplateData (data : TemplateData) : String :=
  "\x7b" ++ jsonMember "tableName" data.TableName ++ "," ++ jsonString "fields" ++ ":[" ++
    ",".intercalate (data.Fields.map marshalFieldData) ++ "]\x7d"

/-- The `encoding/json` calls on the render model.  A parsed value is kept as the JSON text
it was read from. -/
def goJson : Json TemplateData String where
  Marshal := fun data => .ok (marshalTemplateData data)
  Unmarshal := fun text => .ok text

/-- A call of `Process` with the small interpreter and no model. -/
def miniProcess (p : JavaScriptProcessor MiniVM) (tsCode script : String) :
    Option (Returned MiniVM) :=
  p.Process (miniGoja String) goJson tsCode script none

/-- A processor fresh from `NewJavaScriptProcessor`, with the small interpreter. -/
def miniFresh : JavaScriptProcessor MiniVM :=
  NewJavaScriptProcessor (miniGoja String)

/-- The tree of the default template. -/
def defaultNodes : List Node :=
  [ .text "export interface ", .field "TableName", .text " \x7b\n",
    .range "Fields"
      [ .text "  \x2f** ", .field "Comment", .text " *\x2f\n  ", .field "Name", .text ": ",
        .field "TsType", .text ";\n" ],
    .text "\n\x7d\n" ]

/-- The table of the first example: `user_id int` (primary key) and `created_at datetime`
(nullable), without comments. -/
def eventsTable : TableMetadata :=
  { Name := "events"
    Fields :=
      [ { Name := "user_id", Typ := "int", Length := 0, IsNullable := false, IsPrimary := true,
          IsUnique := false, Default := "", Comment := "" },
        { Name := "created_at", Typ := "datetime", Length := 0, IsNullable := true,
          IsPrimary := false, IsUnique := false, Default := "", Comment := "" } ]
    Indexes := [] }

/-- The table of the second example: `users(id int primary key, name varchar(100) not null,
email varchar(255))`. -/
def usersTable : TableMetadata :=
  { Name := "users"
    Fields :=
      [ { Name := "id", Typ := "int", Length := 0, IsNullable := false, IsPrimary := true,
          IsUnique := false, Default := "", Comment := "" },
        { Name := "name", Typ := "varchar(100)", Length := 100, IsNullable := false,
          IsPrimary := false, IsUnique := false, Default := "", Comment := "" },
        { Name := "email", Typ := "varchar(255)", Length := 255, IsNullable := true,
          IsPrimary := false, IsUnique := false, Default := "", Comment := "" } ]
    Indexes := [] }

/-- What the default template renders for `usersTable` with the MySQL mapper. -/
def usersText : String :=
  "export interface users \x7b\n" ++
  "  \x2f**  *\x2f\n  id: number;\n" ++
  "  \x2f**  *\x2f\n  name: string;\n" ++
  "  \x2f**  *\x2f\n  email: string;\n" ++
  "\n\x7d\n"

/-- The generator of `NewGenerator "MySQL" DefaultTemplate` after `SetScript` with a script
that assigns `output`. -/
def scriptedGenerator : Generator :=
  { mapper := NewTypeMapper "MySQL"
    template := { Execute := fun data => execAll (execNode data) defaultNodes }
    script := "output = \"x\";" }

/-! ## `connector.go`, `mysql.go`, `postgres.go`, `sqlite.go`

The package `database/sql` and the drivers are not part of the repository.  A handle
`*sql.DB` is a value of a type `DB` of handle states; the calls on it are the fields of
`Sql`, which return the handle state afterwards.  A query gives the rows that the loop
`for rows.Next()` visits, and a `rows.Scan` into the variables of a loop is one scan
function, which gives the scanned values or the error.  Errors are their messages. -/

/-- The struct `ConnectionConfig` of the connectors; `Typ` is its field `Type`. -/
structure ConnectionConfig where
  Typ : String
  Host : String
  Port : String
  Username : String
  Password : String
  Database : String
deriving DecidableEq

/-- The type `sql.NullString`. -/
structure NullString where
  String : String
  Valid : Bool
deriving DecidableEq

/-- The variables scanned from a row of the column query of MySQL. -/
structure MySQLColumnRow where
  Name : String
  Typ : String
  Length : Int
  isNullable : NullString
  columnKey : NullString
  columnDefault : NullString
  Comment : String

/-- The variables scanned from a row of the index query of MySQL. -/
structure MySQLIndexRow where
  indexName : String
  indexType : String
  columnName : String
deriving DecidableEq

/-- The variables scanned from a row of the column query of PostgreSQL. -/
structure PostgresColumnRow where
  Name : String
  Typ : String
  Length : Int
  isNullable : NullString
  columnDefault : NullString
  columnComment : NullString
  isPrimary : Bool
  isUnique : Bool

/-- The variables scanned from a row of the index query of PostgreSQL. -/
structure PostgresIndexRow where
  Name : String
  Typ : String
  columnNames : List String

/-- The variables scanned from a row of `PRAGMA table_info`. -/
structure SQLiteColumnRow where
  cid : Int
  Name : String
  Typ : String
  notNull : Int
  Default : String
  pk : Int

/-- The variables scanned from a row of `PRAGMA index_list`; `isPartial` is the variable
named after the last column. -/
structure SQLiteIndexListRow where
  seq : Int
  indexName : String
  unique : Int
  origin : String
  isPartial : String

/-- The variables scanned from a row of `PRAGMA index_info`. -/
structure SQLiteIndexInfoRow where
  seqno : Int
  cid : Int
  columnName : String

/-- The calls into `database/sql`, over the handle states `DB` and the rows `Raw`. -/
structure Sql (DB Raw : Type) where
  /-- The call `sql.Open(driverName, dataSourceName)`. -/
  Open : String → String → Except String DB
  /-- The call `db.Ping()`. -/
  Ping : DB → DB × Option String
  /-- The call `db.Exec(query)`; the result value is dropped by the callers. -/
  Exec : DB → String → DB × Option String
  /-- The call `db.Query(query, args...)`: the rows that the loop over them visits. -/
  Query : DB → String → List String → DB × Except String (List Raw)
  /-- The call `db.Close()`; the handle stays where it is, closed. -/
  Close : DB → DB × Option String
  /-- The call `rows.Scan` into one string. -/
  ScanName : Raw → Except String String
  ScanMySQLColumn : Raw → Except String MySQLColumnRow
  ScanMySQLIndex : Raw → Except String MySQLIndexRow
  ScanPostgresColumn : Raw → Except String PostgresColumnRow
  ScanPostgresIndex : Raw → Except String PostgresIndexRow
  ScanSQLiteColumn : Raw → Except String SQLiteColumnRow
  ScanSQLiteIndexList : Raw → Except String SQLiteIndexListRow
  ScanSQLiteIndexInfo : Raw → Except String SQLiteIndexInfoRow

/-- The calls into `os` and `path/filepath`. -/
structure Os where
  /-- Whether `os.IsNotExist` holds of the error of `os.Stat(path)`. -/
  IsNotExist : String → Bool
  /-- The function `filepath.Base`. -/
  Base : String → String

/-- The order in which a `for ... range` loop visits the values of a map: the language
leaves it open, it is some arrangement of the values. -/
structure MapRange where
  order : List IndexInfo → List IndexInfo
  perm : ∀ l, (order l).Perm l

/-- A loop `for rows.Next()` whose body scans the row, returns the error of a failed scan and
otherwise updates the variable `acc` of the loop. -/
def scanRows {Raw α β : Type} (scan : Raw → Except String α) (step : β → α → β) :
    List Raw → β → Except String β
  | [], acc => .ok acc
  | row :: rows, acc =>
    match scan row with
    | .error err => .error err
    | .ok v => scanRows scan step rows (step acc v)

/-! ### `mysql.go` -/

/-- The struct `MySQLConnector`; `db = none` is the nil handle. -/
structure MySQLConnector (DB : Type) where
  config : ConnectionConfig
  db : Option DB

/-- The constructor `NewMySQLConnector`. -/
def NewMySQLConnector {DB : Type} (config : ConnectionConfig) : MySQLConnector DB :=
  { config := config, db := none }

/-- The method `MySQLConnector.Connect`. -/
def MySQLConnector.Connect {DB Raw : Type} (S : Sql DB Raw) (c : MySQLConnector DB) :
    MySQLConnector DB × Except String DB :=
  let dsn := c.config.Username ++ ":" ++ c.config.Password ++ "@tcp(" ++ c.config.Host ++ ":" ++
    c.config.Port ++ ")/" ++ c.config.Database
  match S.Open "mysql" dsn with
  | .error err => (c, .error ("连接MySQL失败: " ++ err))
  | .ok db =>
    match S.Ping db with
    | (_, some err) => (c, .error ("MySQL连接测试失败: " ++ err))
    | (db, none) => ({ c with db := some db }, .ok db)

/-- The test of `GetDatabases` that keeps a database name: it is none of the four system
databases. -/
def isUserDatabase (dbName : String) : Bool :=
  dbName != "information_schema" && dbName != "mysql" && dbName != "performance_schema" &&
    dbName != "sys"

/-- The method `MySQLConnector.GetDatabases`. -/
def MySQLConnector.GetDatabases {DB Raw : Type} (S : Sql DB Raw) (c : MySQLConnector DB) :
    MySQLConnector DB × Except String (List String) :=
  match c.db with
  | none => (c, .error "数据库未连接")
  | some db =>
    match S.Query db "SHOW DATABASES" [] with
    | (db, .error err) => ({ c with db := some db }, .error err)
    | (db, .ok rows) =>
      ({ c with db := some db },
        scanRows S.ScanName
          (fun databases dbName =>
            if isUserDatabase dbName then databases ++ [dbName] else databases)
          rows [])

/-- The method `MySQLConnector.GetTables`. -/
def MySQLConnector.GetTables {DB Raw : Type} (S : Sql DB Raw) (c : MySQLConnector DB)
    (database : String) : MySQLConnector DB × Except String (List String) :=
  match c.db with
  | none => (c, .error "数据库未连接")
  | some db =>
    match S.Exec db ("USE " ++ database) with
    | (db, some err) => ({ c with db := some db }, .error err)
    | (db, none) =>
      match S.Query db "SHOW TABLES" [] with
      | (db, .error err) => ({ c with db := some db }, .error err)
      | (db, .ok rows) =>
        ({ c with db := some db },
          scanRows S.ScanName (fun tables tableName => tables ++ [tableName]) rows [])

/-- The column query of `MySQLConnector.GetTableMetadata`. -/
def mysqlColumnQuery : String :=
  "\n" ++
  "\t\tSELECT \n" ++
  "\t\t\tCOLUMN_NAME, \n" ++
  "\t\t\tDATA_TYPE, \n" ++
  "\t\t\tIFNULL(CHARACTER_MAXIMUM_LENGTH, 0) as LENGTH,\n" ++
  "\t\t\tIS_NULLABLE, \n" ++
  "\t\t\tCOLUMN_KEY, \n" ++
  "\t\t\tCOLUMN_DEFAULT, \n" ++
  "\t\t\tCOLUMN_COMMENT\n" ++
  "\t\tFROM \n" ++
  "\t\t\tINFORMATION_SCHEMA.COLUMNS\n" ++
  "\t\tWHERE \n" ++
  "\t\t\tTABLE_SCHEMA = ? AND TABLE_NAME = ?\n" ++
  "\t\tORDER BY \n" ++
  "\t\t\tORDINAL_POSITION\n" ++
  "\t"

/-- The index query of `MySQLConnector.GetTableMetadata`. -/
def mysqlIndexQuery : String :=
  "\n" ++
  "\t\tSELECT \n" ++
  "\t\t\tINDEX_NAME,\n" ++
  "\t\t\tINDEX_TYPE,\n" ++
  "\t\t\tCOLUMN_NAME\n" ++
  "\t\tFROM \n" ++
  "\t\t\tINFORMATION_SCHEMA.STATISTICS\n" ++
  "\t\tWHERE \n" ++
  "\t\t\tTABLE_SCHEMA = ? AND TABLE_NAME = ?\n" ++
  "\t\tORDER BY \n" ++
  "\t\t\tINDEX_NAME, SEQ_IN_INDEX\n" ++
  "\t"

/-- The `FieldInfo` that the column loop of MySQL builds from a scanned row. -/
def mysqlField (r : MySQLColumnRow) : FieldInfo :=
  { Name := r.Name
    Typ := r.Typ
    Length := r.Length
    IsNullable := r.isNullable.String == "YES"
    IsPrimary := r.columnKey.Valid && r.columnKey.String == "PRI"
    IsUnique := r.columnKey.Valid && r.columnKey.String == "UNI"
    Default := if r.columnDefault.Valid then r.columnDefault.String else ""
    Comment := r.Comment }

/-- The map `indexMap` of `MySQLConnector.GetTableMetadata`, a `map[string]*IndexInfo`: its
entries, each key once, in the order in which the keys were entered. -/
abbrev IndexMap := List (String × IndexInfo)

/-- The body of the index loop of MySQL after the scan: an index not yet in the map is
entered with the name and the type of the row and no columns, then the column of the row is
appended to the columns of the index of that name. -/
def indexMapAdd (indexMap : IndexMap) (r : MySQLIndexRow) : IndexMap :=
  let indexMap :=
    if (indexMap.lookup r.indexName).isSome then indexMap
    else indexMap ++ [(r.indexName, { Name := r.indexName, Typ := r.indexType, Columns := [] })]
  indexMap.map (fun e =>
    if e.1 = r.indexName then (e.1, { e.2 with Columns := e.2.Columns ++ [r.columnName] })
    else e)

/-- The method `MySQLConnector.GetTableMetadata`; `R` is the order of the last loop, over
the map of the indexes. -/
def MySQLConnector.GetTableMetadata {DB Raw : Type} (S : Sql DB Raw) (R : MapRange)
    (c : MySQLConnector DB) (database table : String) :
    MySQLConnector DB × Except String TableMetadata :=
  match c.db with
  | none => (c, .error "数据库未连接")
  | some db =>
    match S.Exec db ("USE " ++ database) with
    | (db, some err) => ({ c with db := some db }, .error err)
    | (db, none) =>
      match S.Query db mysqlColumnQuery [database, table] with
      | (db, .error err) => ({ c with db := some db }, .error err)
      | (db, .ok rows) =>
        match scanRows S.ScanMySQLColumn (fun fields r => fields ++ [mysqlField r]) rows [] with
        | .error err => ({ c with db := some db }, .error err)
        | .ok fields =>
          match S.Query db mysqlIndexQuery [database, table] with
          | (db, .error err) => ({ c with db := some db }, .error err)
          | (db, .ok indexRows) =>
            match scanRows S.ScanMySQLIndex indexMapAdd indexRows [] with
            | .error err => ({ c with db := some db }, .error err)
            | .ok indexMap =>
              ({ c with db := some db },
                .ok { Name := table, Fields := fields,
                      Indexes := R.order (indexMap.map Prod.snd) })

/-- The method `MySQLConnector.Close`. -/
def MySQLConnector.Close {DB Raw : Type} (S : Sql DB Raw) (c : MySQLConnector DB) :
    MySQLConnector DB × Option String :=
  match c.db with
  | some db =>
    match S.Close db with
    | (db, err) => ({ c with db := some db }, err)
  | none => (c, none)

/-! ### `postgres.go` -/

/-- The struct `PostgreSQLConnector`; `db = none` is the nil handle. -/
structure PostgreSQLConnector (DB : Type) where
  config : ConnectionConfig
  db : Option DB

/-- The constructor `NewPostgreSQLConnector`. -/
def NewPostgreSQLConnector {DB : Type} (config : ConnectionConfig) : PostgreSQLConnector DB :=
  { config := config, db := none }

/-- The connection string of `PostgreSQLConnector.Connect`: the database `postgres` stands
in for an empty database name. -/
def postgresConnStr (config : ConnectionConfig) : String :=
  if config.Database = "" then
    "host=" ++ config.Host ++ " port=" ++ config.Port ++ " user=" ++ config.Username ++
      " password=" ++ config.Password ++ " dbname=postgres sslmode=disable"
  else
    "host=" ++ config.Host ++ " port=" ++ config.Port ++ " user=" ++ config.Username ++
      " password=" ++ config.Password ++ " dbname=" ++ config.Database ++ " sslmode=disable"

/-- The method `PostgreSQLConnector.Connect`. -/
def PostgreSQLConnector.Connect {DB Raw : Type} (S : Sql DB Raw) (c : PostgreSQLConnector DB) :
    PostgreSQLConnector DB × Except String DB :=
  match S.Open "postgres" (postgresConnStr c.config) with
  | .error err => (c, .error ("连接PostgreSQL失败: " ++ err))
  | .ok db =>
    match S.Ping db with
    | (_, some err) => (c, .error ("PostgreSQL连接测试失败: " ++ err))
    | (db, none) => ({ c with db := some db }, .ok db)

/-- The method `PostgreSQLConnector.Close`. -/
def PostgreSQLConnector.Close {DB Raw : Type} (S : Sql DB Raw) (c : PostgreSQLConnector DB) :
    PostgreSQLConnector DB × Option String :=
  match c.db with
  | some db =>
    match S.Close db with
    | (db, err) => ({ c with db := some db }, err)
  | none => (c, none)

/-- The block that `GetTables` and `GetTableMetadata` of PostgreSQL both start with, once the
handle is known not to be nil: for another database than the one of the configuration, the
connection is closed, the configuration is replaced by a copy with the new database name and
the connector connects again.  The result is the handle to query, or the error of
`Connect`. -/
def PostgreSQLConnector.switchDatabase {DB Raw : Type} (S : Sql DB Raw)
    (c : PostgreSQLConnector DB) (db : DB) (database : String) :
    PostgreSQLConnector DB × Except String DB :=
  if c.config.Database ≠ database then
    let c := (c.Close S).1
    let newConfig := { c.config with Database := database }
    let c := { c with config := newConfig }
    c.Connect S
  else (c, .ok db)

/-- The database query of `PostgreSQLConnector.GetDatabases`. -/
def postgresDatabaseQuery : String :=
  "\n" ++
  "\t\tSELECT datname \n" ++
  "\t\tFROM pg_database \n" ++
  "\t\tWHERE datistemplate = false AND datname != 'postgres'\n" ++
  "\t\tORDER BY datname\n" ++
  "\t"

/-- The table query of `PostgreSQLConnector.GetTables`. -/
def postgresTableQuery : String :=
  "\n" ++
  "\t\tSELECT table_name \n" ++
  "\t\tFROM information_schema.tables \n" ++
  "\t\tWHERE table_schema = 'public' \n" ++
  "\t\tORDER BY table_name\n" ++
  "\t"

/-- The column query of `PostgreSQLConnector.GetTableMetadata`. -/
def postgresColumnQuery : String :=
  "\n" ++
  "\t\tSELECT \n" ++
  "\t\t\tc.column_name, \n" ++
  "\t\t\tc.data_type, \n" ++
  "\t\t\tCOALESCE(c.character_maximum_length, 0) as length,\n" ++
  "\t\t\tc.is_nullable, \n" ++
  "\t\t\tc.column_default,\n" ++
  "\t\t\tpgd.description as column_comment,\n" ++
  "\t\t\t(\n" ++
  "\t\t\t\tSELECT \n" ++
  "\t\t\t\t\tCOUNT(*) \n" ++
  "\t\t\t\tFROM \n" ++
  "\t\t\t\t\tinformation_schema.table_constraints tc\n" ++
  "\t\t\t\t\tJOIN information_schema.constraint_column_usage ccu \n" ++
  "\t\t\t\t\tON tc.constraint_name = ccu.constraint_name\n" ++
  "\t\t\t\tWHERE \n" ++
  "\t\t\t\t\ttc.constraint_type = 'PRIMARY KEY' \n" ++
  "\t\t\t\t\tAND tc.table_name = c.table_name \n" ++
  "\t\t\t\t\tAND ccu.column_name = c.column_name\n" ++
  "\t\t\t) > 0 as is_primary,\n" ++
  "\t\t\t(\n" ++
  "\t\t\t\tSELECT \n" ++
  "\t\t\t\t\tCOUNT(*) \n" ++
  "\t\t\t\tFROM \n" ++
  "\t\t\t\t\tinformation_schema.table_constraints tc\n" ++
  "\t\t\t\t\tJOIN information_schema.constraint_column_usage ccu \n" ++
  "\t\t\t\t\tON tc.constraint_name = ccu.constraint_name\n" ++
  "\t\t\t\tWHERE \n" ++
  "\t\t\t\t\ttc.constraint_type = 'UNIQUE' \n" ++
  "\t\t\t\t\tAND tc.table_name = c.table_name \n" ++
  "\t\t\t\t\tAND ccu.column_name = c.column_name\n" ++
  "\t\t\t) > 0 as is_unique\n" ++
  "\t\tFROM \n" ++
  "\t\t\tinformation_schema.columns c\n" ++
  "\t\t\tLEFT JOIN pg_catalog.pg_statio_all_tables st ON (c.table_schema = st.schemaname AND c.table_name = st.relname)\n" ++
  "\t\t\tLEFT JOIN pg_catalog.pg_description pgd ON (pgd.objoid = st.relid AND pgd.objsubid = c.ordinal_position)\n" ++
  "\t\tWHERE \n" ++
  "\t\t\tc.table_name = $1\n" ++
  "\t\t\tAND c.table_schema = 'public'\n" ++
  "\t\tORDER BY \n" ++
  "\t\t\tc.ordinal_position\n" ++
  "\t"

/-- The index query of `PostgreSQLConnector.GetTableMetadata`. -/
def postgresIndexQuery : String :=
  "\n" ++
  "\t\tSELECT\n" ++
  "\t\t\ti.relname as index_name,\n" ++
  "\t\t\tam.amname as index_type,\n" ++
  "\t\t\tarray_agg(a.attname) as column_names\n" ++
  "\t\tFROM\n" ++
  "\t\t\tpg_index x\n" ++
  "\t\t\tJOIN pg_class c ON c.oid = x.indrelid\n" ++
  "\t\t\tJOIN pg_class i ON i.oid = x.indexrelid\n" ++
  "\t\t\tJOIN pg_am am ON i.relam = am.oid\n" ++
  "\t\t\tJOIN pg_attribute a ON a.attrelid = c.oid AND a.attnum = ANY(x.indkey)\n" ++
  "\t\tWHERE\n" ++
  "\t\t\tc.relkind = 'r' AND\n" ++
  "\t\t\tc.relname = $1\n" ++
  "\t\tGROUP BY\n" ++
  "\t\t\ti.relname,\n" ++
  "\t\t\tam.amname\n" ++
  "\t"

/-- The method `PostgreSQLConnector.GetDatabases`. -/
def PostgreSQLConnector.GetDatabases {DB Raw : Type} (S : Sql DB Raw)
    (c : PostgreSQLConnector DB) : PostgreSQLConnector DB × Except String (List String) :=
  match c.db with
  | none => (c, .error "数据库未连接")
  | some db =>
    match S.Query db postgresDatabaseQuery [] with
    | (db, .error err) => ({ c with db := some db }, .error err)
    | (db, .ok rows) =>
      ({ c with db := some db },
        scanRows S.ScanName (fun databases dbName => databases ++ [dbName]) rows [])

/-- The method `PostgreSQLConnector.GetTables`. -/
def PostgreSQLConnector.GetTables {DB Raw : Type} (S : Sql DB Raw)
    (c : PostgreSQLConnector DB) (database : String) :
    PostgreSQLConnector DB × Except String (List String) :=
  match c.db with
  | none => (c, .error "数据库未连接")
  | some db =>
    match c.switchDatabase S db database with
    | (c, .error err) => (c, .error err)
    | (c, .ok db) =>
      match S.Query db postgresTableQuery [] with
      | (db, .error err) => ({ c with db := some db }, .error err)
      | (db, .ok rows) =>
        ({ c with db := some db },
          scanRows S.ScanName (fun tables tableName => tables ++ [tableName]) rows [])

/-- The `FieldInfo` that the column loop of PostgreSQL builds from a scanned row. -/
def postgresField (r : PostgresColumnRow) : FieldInfo :=
  { Name := r.Name
    Typ := r.Typ
    Length := r.Length
    IsNullable := r.isNullable.String == "YES"
    IsPrimary := r.isPrimary
    IsUnique := r.isUnique
    Default := if r.columnDefault.Valid then r.columnDefault.String else ""
    Comment := if r.columnComment.Valid then r.columnComment.String else "" }

/-- The method `PostgreSQLConnector.GetTableMetadata`. -/
def PostgreSQLConnector.GetTableMetadata {DB Raw : Type} (S : Sql DB Raw)
    (c : PostgreSQLConnector DB) (database table : String) :
    PostgreSQLConnector DB × Except String TableMetadata :=
  match c.db with
  | none => (c, .error "数据库未连接")
  | some db =>
    match c.switchDatabase S db database with
    | (c, .error err) => (c, .error err)
    | (c, .ok db) =>
      match S.Query db postgresColumnQuery [table] with
      | (db, .error err) => ({ c with db := some db }, .error err)
      | (db, .ok rows) =>
        match scanRows S.ScanPostgresColumn (fun fields r => fields ++ [postgresField r])
            rows [] with
        | .error err => ({ c with db := some db }, .error err)
        | .ok fields =>
          match S.Query db postgresIndexQuery [table] with
          | (db, .error err) => ({ c with db := some db }, .error err)
          | (db, .ok indexRows) =>
            match scanRows S.ScanPostgresIndex
                (fun indexes r =>
                  indexes ++ [{ Name := r.Name, Typ := r.Typ, Columns := r.columnNames }])
                indexRows [] with
            | .error err => ({ c with db := some db }, .error err)
            | .ok indexes =>
              ({ c with db := some db },
                .ok { Name := table, Fields := fields, Indexes := indexes })

/-! ### `sqlite.go` -/

/-- The struct `SQLiteConnector`; `db = none` is the nil handle. -/
structure SQLiteConnector (DB : Type) where
  config : ConnectionConfig
  db : Option DB

/-- The constructor `NewSQLiteConnector`. -/
def NewSQLiteConnector {DB : Type} (config : ConnectionConfig) : SQLiteConnector DB :=
  { config := config, db := none }

/-- The method `SQLiteConnector.Connect`; the field `Host` holds the path of the file. -/
def SQLiteConnector.Connect {DB Raw : Type} (S : Sql DB Raw) (O : Os) (c : SQLiteConnector DB) :
    SQLiteConnector DB × Except String DB :=
  let dbPath := c.config.Host
  if O.IsNotExist dbPath then (c, .error ("SQLite数据库文件不存在: " ++ dbPath))
  else
    match S.Open "sqlite3" dbPath with
    | .error err => (c, .error ("连接SQLite失败: " ++ err))
    | .ok db =>
      match S.Ping db with
      | (_, some err) => (c, .error ("SQLite连接测试失败: " ++ err))
      | (db, none) => ({ c with db := some db }, .ok db)

/-- The method `SQLiteConnector.GetDatabases`. -/
def SQLiteConnector.GetDatabases {DB : Type} (O : Os) (c : SQLiteConnector DB) :
    SQLiteConnector DB × Except String (List String) :=
  match c.db with
  | none => (c, .error "数据库未连接")
  | some _ =>
    let dbName := O.Base c.config.Host
    (c, .ok [dbName])

/-- The table query of `SQLiteConnector.GetTables`. -/
def sqliteTableQuery : String :=
  "\n" ++
  "\t\tSELECT name \n" ++
  "\t\tFROM sqlite_master \n" ++
  "\t\tWHERE type='table' AND name NOT LIKE 'sqlite_%'\n" ++
  "\t\tORDER BY name\n" ++
  "\t"

/-- The method `SQLiteConnector.GetTables`; the parameter `database` is not read. -/
def SQLiteConnector.GetTables {DB Raw : Type} (S : Sql DB Raw) (c : SQLiteConnector DB)
    (_database : String) : SQLiteConnector DB × Except String (List String) :=
  match c.db with
  | none => (c, .error "数据库未连接")
  | some db =>
    match S.Query db sqliteTableQuery [] with
    | (db, .error err) => ({ c with db := some db }, .error err)
    | (db, .ok rows) =>
      ({ c with db := some db },
        scanRows S.ScanName (fun tables tableName => tables ++ [tableName]) rows [])

/-- The `FieldInfo` that the column loop of SQLite builds from a scanned row. -/
def sqliteField (r : SQLiteColumnRow) : FieldInfo :=
  { Name := r.Name
    Typ := r.Typ
    Length := 0
    IsNullable := r.notNull == 0
    IsPrimary := decide (r.pk > 0)
    IsUnique := false
    Default := r.Default
    Comment := "" }

/-- The index loop of `SQLiteConnector.GetTableMetadata`: for each row of `PRAGMA index_list`
one query `PRAGMA index_info` for the columns of the index, and one `IndexInfo` appended. -/
def sqliteIndexLoop {DB Raw : Type} (S : Sql DB Raw) :
    DB → List Raw → List IndexInfo → DB × Except String (List IndexInfo)
  | db, [], indexes => (db, .ok indexes)
  | db, row :: rows, indexes =>
    match S.ScanSQLiteIndexList row with
    | .error err => (db, .error err)
    | .ok r =>
      match S.Query db ("PRAGMA index_info(" ++ r.indexName ++ ")") [] with
      | (db, .error err) => (db, .error err)
      | (db, .ok infoRows) =>
        match scanRows S.ScanSQLiteIndexInfo (fun columns i => columns ++ [i.columnName])
            infoRows [] with
        | .error err => (db, .error err)
        | .ok columns =>
          let indexType := if r.unique = 1 then "UNIQUE" else "INDEX"
          sqliteIndexLoop S db rows
            (indexes ++ [{ Name := r.indexName, Typ := indexType, Columns := columns }])

/-- The method `SQLiteConnector.GetTableMetadata`; the parameter `database` is not read. -/
def SQLiteConnector.GetTableMetadata {DB Raw : Type} (S : Sql DB Raw) (c : SQLiteConnector DB)
    (_database table : String) : SQLiteConnector DB × Except String TableMetadata :=
  match c.db with
  | none => (c, .error "数据库未连接")
  | some db =>
    match S.Query db ("PRAGMA table_info(" ++ table ++ ")") [] with
    | (db, .error err) => ({ c with db := some db }, .error err)
    | (db, .ok rows) =>
      match scanRows S.ScanSQLiteColumn (fun fields r => fields ++ [sqliteField r]) rows [] with
      | .error err => ({ c with db := some db }, .error err)
      | .ok fields =>
        match S.Query db ("PRAGMA index_list(" ++ table ++ ")") [] with
        | (db, .error err) => ({ c with db := some db }, .error err)
        | (db, .ok indexRows) =>
          match sqliteIndexLoop S db indexRows [] with
          | (db, .error err) => ({ c with db := some db }, .error err)
          | (db, .ok indexes) =>
            ({ c with db := some db },
              .ok { Name := table, Fields := fields, Indexes := indexes })

/-- The method `SQLiteConnector.Close`. -/
def SQLiteConnector.Close {DB Raw : Type} (S : Sql DB Raw) (c : SQLiteConnector DB) :
    SQLiteConnector DB × Option String :=
  match c.db with
  | some db =>
    match S.Close db with
    | (db, err) => ({ c with db := some db }, err)
  | none => (c, none)

/-! ### `connector.go`: the interface and the factory -/

/-- The interface `Connector`: the five methods of an implementation whose instances have
the states `σ`.  Each method gives the state of the instance after the call and what the
call returns. -/
structure ConnectorMethods (σ DB : Type) where
  Connect : σ → σ × Except String DB
  GetDatabases : σ → σ × Except String (List String)
  GetTables : σ → String → σ × Except String (List String)
  GetTableMetadata : σ → String → String → σ × Except String TableMetadata
  Close : σ → σ × Option String

/-- The values of the interface `Connector` that the repository makes: a connector of one of
the three engines. -/
inductive Connector (DB : Type) where
  | mysql (c : MySQLConnector DB)
  | postgres (c : PostgreSQLConnector DB)
  | sqlite (c : SQLiteConnector DB)

/-- The factory `NewConnector`: the connector and the error; both are nil for a `Type` that
is none of the three. -/
def NewConnector {DB : Type} (config : ConnectionConfig) :
    Option (Connector DB) × Option String :=
  if config.Typ = "MySQL" then (some (.mysql (NewMySQLConnector config)), none)
  else if config.Typ = "PostgreSQL" then (some (.postgres (NewPostgreSQLConnector config)), none)
  else if config.Typ = "SQLite" then (some (.sqlite (NewSQLiteConnector config)), none)
  else (none, none)

/-- The method calls on a value of the interface, dispatched to the engine. -/
def connectorMethods {DB Raw : Type} (S : Sql DB Raw) (O : Os) (R : MapRange) :
    ConnectorMethods (Connector DB) DB where
  Connect := fun c =>
    match c with
    | .mysql m => (.mysql (m.Connect S).1, (m.Connect S).2)
    | .postgres m => (.postgres (m.Connect S).1, (m.Connect S).2)
    | .sqlite m => (.sqlite (m.Connect S O).1, (m.Connect S O).2)
  GetDatabases := fun c =>
    match c with
    | .mysql m => (.mysql (m.GetDatabases S).1, (m.GetDatabases S).2)
    | .postgres m => (.postgres (m.GetDatabases S).1, (m.GetDatabases S).2)
    | .sqlite m => (.sqlite (m.GetDatabases O).1, (m.GetDatabases O).2)
  GetTables := fun c database =>
    match c with
    | .mysql m => (.mysql (m.GetTables S database).1, (m.GetTables S database).2)
    | .postgres m => (.postgres (m.GetTables S database).1, (m.GetTables S database).2)
    | .sqlite m => (.sqlite (m.GetTables S database).1, (m.GetTables S database).2)
  GetTableMetadata := fun c database table =>
    match c with
    | .mysql m =>
      (.mysql (m.GetTableMetadata S R database table).1,
        (m.GetTableMetadata S R database table).2)
    | .postgres m =>
      (.postgres (m.GetTableMetadata S database table).1,
        (m.GetTableMetadata S database table).2)
    | .sqlite m =>
      (.sqlite (m.GetTableMetadata S database table).1,
        (m.GetTableMetadata S database table).2)
  Close := fun c =>
    match c with
    | .mysql m => (.mysql (m.Close S).1, (m.Close S).2)
    | .postgres m => (.postgres (m.Close S).1, (m.Close S).2)
    | .sqlite m => (.sqlite (m.Close S).1, (m.Close S).2)

/-! ### `metadata.go` -/

/-- The struct `Processor`: it holds a connector. -/
structure Processor (σ : Type) where
  connector : σ

/-- The constructor `NewProcessor`. -/
def NewProcessor {σ : Type} (connector : σ) : Processor σ :=
  { connector := connector }

/-- The method `Processor.GetDatabases`. -/
def Processor.GetDatabases {σ DB : Type} (I : ConnectorMethods σ DB) (p : Processor σ) :
    Processor σ × Except String (List String) :=
  match I.GetDatabases p.connector with
  | (connector, result) => ({ connector := connector }, result)

/-- The method `Processor.GetTables`. -/
def Processor.GetTables {σ DB : Type} (I : ConnectorMethods σ DB) (p : Processor σ)
    (database : String) : Processor σ × Except String (List String) :=
  match I.GetTables p.connector database with
  | (connector, result) => ({ connector := connector }, result)

/-- The method `Processor.GetTableMetadata`. -/
def Processor.GetTableMetadata {σ DB : Type} (I : ConnectorMethods σ DB) (p : Processor σ)
    (database table : String) : Processor σ × Except String TableMetadata :=
  match I.GetTableMetadata p.connector database table with
  | (connector, result) => ({ connector := connector }, result)

/-- The method `Processor.Close`. -/
def Processor.Close {σ DB : Type} (I : ConnectorMethods σ DB) (p : Processor σ) :
    Processor σ × Option String :=
  match I.Close p.connector with
  | (connector, err) => ({ connector := connector }, err)

/-! ### The configuration behind the pointer `config`

The connectors above hold the configuration as a value.  In the source the field `config`
is a pointer to the `ConnectionConfig` of the caller; the cells below tell the value of the
caller from the value of the connector. -/

/-- The memory cells that hold `ConnectionConfig` values; a `*ConnectionConfig` is the
index of a cell. -/
structure ConfigStore where
  cells : List ConnectionConfig

/-- The value `*p`. -/
def ConfigStore.read (store : ConfigStore) (p : Nat) : Option ConnectionConfig :=
  store.cells[p]?

/-- A new cell with the value `v`: the store afterwards and the address `&v`. -/
def ConfigStore.alloc (store : ConfigStore) (v : ConnectionConfig) : ConfigStore × Nat :=
  ({ cells := store.cells ++ [v] }, store.cells.length)

/-- The three statements `newConfig := *c.config; newConfig.Database = database;
c.config = &newConfig` of `GetTables` and `GetTableMetadata` of PostgreSQL, for the pointer
`config` of the connector: the store and the pointer afterwards.  `none` is the read of a
pointer that points to no cell. -/
def retargetConfig (store : ConfigStore) (config : Nat) (database : String) :
    Option (ConfigStore × Nat) :=
  match store.read config with
  | none => none
  | some old =>
    let newConfig := { old with Database := database }
    some (store.alloc newConfig)

/-- The statements of `PostgreSQLConnector.GetTables` after the block that switches the
database: the table query on the handle `db` and the loop over its rows. -/
def PostgreSQLConnector.tablesFrom {DB Raw : Type} (S : Sql DB Raw)
    (c : PostgreSQLConnector DB) (db : DB) :
    PostgreSQLConnector DB × Except String (List String) :=
  match S.Query db postgresTableQuery [] with
  | (db, .error err) => ({ c with db := some db }, .error err)
  | (db, .ok rows) =>
    ({ c with db := some db },
      scanRows S.ScanName (fun tables tableName => tables ++ [tableName]) rows [])

/-- The statements of `PostgreSQLConnector.GetTableMetadata` after the block that switches
the database: the column query and the index query on the handle `db` and their loops. -/
def PostgreSQLConnector.metadataFrom {DB Raw : Type} (S : Sql DB Raw)
    (c : PostgreSQLConnector DB) (db : DB) (table : String) :
    PostgreSQLConnector DB × Except String TableMetadata :=
  match S.Query db postgresColumnQuery [table] with
  | (db, .error err) => ({ c with db := some db }, .error err)
  | (db, .ok rows) =>
    match scanRows S.ScanPostgresColumn (fun fields r => fields ++ [postgresField r])
        rows [] with
    | .error err => ({ c with db := some db }, .error err)
    | .ok fields =>
      match S.Query db postgresIndexQuery [table] with
      | (db, .error err) => ({ c with db := some db }, .error err)
      | (db, .ok indexRows) =>
        match scanRows S.ScanPostgresIndex
            (fun indexes r =>
              indexes ++ [{ Name := r.Name, Typ := r.Typ, Columns := r.columnNames }])
            indexRows [] with
        | .error err => ({ c with db := some db }, .error err)
        | .ok indexes =>
          ({ c with db := some db },
            .ok { Name := table, Fields := fields, Indexes := indexes })

/-! ### Instances for concrete runs -/

/-- The function `filepath.Base` for paths with the separator `/`: the default `.` for the
empty path, trailing separators dropped, then the part after the last separator, and the
separator itself for a path of separators only. -/
def unixBase (path : String) : String :=
  if path = "" then "."
  else
    let stripped := (path.data.reverse.dropWhile (fun c => c = '/')).reverse
    let last := (stripped.reverse.takeWhile (fun c => c ≠ '/')).reverse
    if last = [] then "/" else ⟨last⟩

/-- An operating system in which every file exists. -/
def unixOs : Os :=
  { IsNotExist := fun _ => false, Base := unixBase }

/-- A driver for concrete runs: a handle state lists, for the text of a query, the rows that
the query gives (no rows for a text that is not listed), a row is the list of its columns as
strings, and only the scans into strings are provided. -/
def tableSql : Sql (List (String × List (List String))) (List String) where
  Open := fun _ _ => .ok []
  Ping := fun db => (db, none)
  Exec := fun db _ => (db, none)
  Query := fun db query _ => (db, .ok ((db.lookup query).getD []))
  Close := fun db => (db, none)
  ScanName := fun row =>
    match row with
    | [name] => .ok name
    | _ => .error "sql: expected 1 destination arguments in Scan"
  ScanMySQLColumn := fun _ => .error "not provided"
  ScanMySQLIndex := fun row =>
    match row with
    | [indexName, indexType, columnName] => .ok ⟨indexName, indexType, columnName⟩
    | _ => .error "sql: expected 3 destination arguments in Scan"
  ScanPostgresColumn := fun _ => .error "not provided"
  ScanPostgresIndex := fun _ => .error "not provided"
  ScanSQLiteColumn := fun _ => .error "not provided"
  ScanSQLiteIndexList := fun _ => .error "not provided"
  ScanSQLiteIndexInfo := fun _ => .error "not provided"

/-- The driver `tableSql` with a server that refuses every new connection. -/
def refusingSql : Sql (List (String × List (List String))) (List String) :=
  { tableSql with Open := fun _ _ => .error "connection refused" }

/-- A configuration of a PostgreSQL connection to the database `shop`. -/
def postgresConfig : ConnectionConfig :=
  { Typ := "PostgreSQL", Host := "db.example.org", Port := "5432", Username := "app",
    Password := "secret", Database := "shop" }

/-- A MySQL server with two user databases among the system databases. -/
def exampleCatalog : List (String × List (List String)) :=
  [ ("SHOW DATABASES",
      [["information_schema"], ["shop"], ["mysql"], ["performance_schema"], ["sys"],
       ["blog"], ["shop"]]) ]

/-- The rows of the index query for a table with a primary key and the index
`idx_name_email` on `name` and `email`. -/
def exampleIndexRows : List MySQLIndexRow :=
  [ ⟨"PRIMARY", "BTREE", "id"⟩, ⟨"idx_name_email", "BTREE", "name"⟩,
    ⟨"idx_name_email", "BTREE", "email"⟩ ]

/-- A MySQL server that answers the index query with `exampleIndexRows`. -/
def exampleIndexCatalog : List (String × List (List String)) :=
  [ (mysqlIndexQuery,
      [["PRIMARY", "BTREE", "id"], ["idx_name_email", "BTREE", "name"],
       ["idx_name_email", "BTREE", "email"]]) ]

/-- The order of a map range that visits the values as they were entered. -/
def entryOrder : MapRange :=
  { order := fun l => l, perm := fun l => List.Perm.refl l }

/-- A configuration for the examples. -/
def exampleConfig : ConnectionConfig :=
  { Typ := "SQLite", Host := "/var/data/shop.db", Port := "", Username := "", Password := "",
    Database := "" }

/-- The invariant of the index loop of MySQL after the rows `p`: the map has each key once,
its keys are the index names of `p`, and the entry of a key holds that name, the columns of
the rows of that name in the order of the rows, and the type of the first row of that
name. -/
def IndexMapInv (m : IndexMap) (p : List MySQLIndexRow) : Prop :=
  (m.map Prod.fst).Nodup ∧
  (∀ n, n ∈ m.map Prod.fst ↔ n ∈ p.map (fun r => r.indexName)) ∧
  ∀ e ∈ m, e.2.Name = e.1 ∧
    e.2.Columns = (p.filter (fun r => r.indexName = e.1)).map (fun r => r.columnName) ∧
    (p.find? (fun r => r.indexName = e.1)).map (fun r => r.indexType) = some e.2.Typ

/-! ## `generator_page.go`: the generation pipeline -/

/-- The struct `ConnectionConfig` of the pages: a stored connection with its name and its
engine kind `Typ` (the field `Type`). -/
structure PageConnection where
  Name : String
  Typ : String
  Host : String
  Port : String
  Username : String
  Password : String
  Database : String

/-- The code-producing part of `GeneratorPage.generateCode`, after the metadata has been
fetched: `connectionSelected` is `p.connectionSelect.Selected`, the name of the selected
connection, and `scriptText` the text of the script editor.  The generator is built from the
default template, the script is set when the editor is not empty, and `Generate` runs.  The
guards, the logging and the widget updates are left out. -/
def generateCode {VM Val P : Type} (G : Goja VM Val P) (J : Json TemplateData P)
    (connectionSelected scriptText : String) (metadata : TableMetadata) :
    Except String (Option (String × Option String)) :=
  match NewGenerator connectionSelected DefaultTemplate with
  | .error err => .error err
  | .ok gen =>
    let gen := if scriptText ≠ "" then gen.SetScript scriptText else gen
    .ok (gen.Generate G J metadata)

/-- A stored PostgreSQL connection whose name is not an engine identifier. -/
def prodConnection : PageConnection :=
  { Name := "prod", Typ := "PostgreSQL", Host := "db.example.org", Port := "5432",
    Username := "app", Password := "secret", Database := "shop" }

/-- A PostgreSQL table `orders(id integer, paid boolean)`, as the catalog reports it. -/
def ordersTable : TableMetadata :=
  { Name := "orders"
    Fields :=
      [ { Name := "id", Typ := "integer", Length := 0, IsNullable := false, IsPrimary := true,
          IsUnique := false, Default := "", Comment := "" },
        { Name := "paid", Typ := "boolean", Length := 0, IsNullable := false,
          IsPrimary := false, IsUnique := false, Default := "", Comment := "" } ]
    Indexes := [] }

/-- The generator of `NewGenerator "MySQL" DefaultTemplate` after `SetScript` with a script
that throws. -/
def throwingGenerator : Generator :=
  { mapper := NewTypeMapper "MySQL"
    template := { Execute := fun data => execAll (execNode data) defaultNodes }
    script := "throw \"boom\";" }

/-- A generator whose template names a field that the render model does not have. -/
def brokenTemplateGenerator : Generator :=
  { mapper := NewTypeMapper "MySQL"
    template := { Execute := fun data => execAll (execNode data) [.field "Nope"] }
    script := "" }

/-! ## `validator.go` -/

/-- The sign that `strconv.Atoi` reads off the front of a text, `true` for a minus, and the
rest of the text. -/
def signOf (cs : List Char) : Bool × List Char :=
  match cs with
  | [] => (false, [])
  | c :: r => if c = '+' then (false, r) else if c = '-' then (true, r) else (false, c :: r)

/-- The value of a sequence of decimal digits after the value `n`. -/
def digitsValue : List Char → Nat → Option Nat
  | [], n => some n
  | c :: cs, n => if c.isDigit then digitsValue cs (n * 10 + (c.toNat - 48)) else none

/-- The function `strconv.Atoi` for an `int` of `bitSize` bits. -/
def Atoi (bitSize : Nat) (s : String) : Except String Int :=
  let (neg, digits) := signOf s.data
  if digits = [] then .error "invalid syntax"
  else
    match digitsValue digits 0 with
    | none => .error "invalid syntax"
    | some n =>
      if neg then
        if n ≤ 2 ^ (bitSize - 1) then .ok (-(n : Int)) else .error "value out of range"
      else
        if n < 2 ^ (bitSize - 1) then .ok (n : Int) else .error "value out of range"

/-- The function `ValidatePort`: the error, `none` for nil. -/
def ValidatePort (bitSize : Nat) (port : String) : Option String :=
  if port = "" then some "端口号不能为空"
  else
    match Atoi bitSize port with
    | .error _ => some "端口号必须是数字"
    | .ok portNum =>
      if portNum < 1 ∨ portNum > 65535 then some "端口号必须在1-65535之间" else none

/-- The number that decimal digits write. -/
def decimalValue (digits : List Char) : Nat :=
  digits.foldl (fun n c => n * 10 + (c.toNat - 48)) 0

/-- The text `p` is a base-10 integer with the value `n`: an optional sign followed by one
or more decimal digits and nothing else. -/
def IsDecimalInteger (p : String) (n : Int) : Prop :=
  ∃ sign digits, p.data = sign ++ digits ∧ (sign = [] ∨ sign = ['+'] ∨ sign = ['-']) ∧
    digits ≠ [] ∧ (∀ c ∈ digits, c.isDigit = true) ∧
    n = if sign = ['-'] then -(decimalValue digits : Int) else (decimalValue digits : Int)

/-! ## `template_manager.go` -/

/-- The calls of `SaveTemplateToFile` into `path/filepath`, `os` and `io/ioutil`, over the
states `FS` of the file system. -/
structure FileSystem (FS : Type) where
  /-- The function `filepath.Join`. -/
  Join : List String → String
  /-- The call `os.MkdirAll(path, 0755)`. -/
  MkdirAll : FS → String → FS × Option String
  /-- The call `ioutil.WriteFile(path, content, 0644)`. -/
  WriteFile : FS → String → String → FS × Option String

/-- The function `strings.HasPrefix`. -/
def HasPrefix (s pre : String) : Bool :=
  pre.data.isPrefixOf s.data

/-- The struct `TemplateManager`, without its logger. -/
structure TemplateManager where
  templateDir : String

/-- The constructor `NewTemplateManager`. -/
def NewTemplateManager (templateDir : String) : TemplateManager :=
  { templateDir := templateDir }

/-- The method `TemplateManager.SaveTemplateToFile`: the file system afterwards and the
error. -/
def TemplateManager.SaveTemplateToFile {FS : Type} (F : FileSystem FS) (tm : TemplateManager)
    (fs : FS) (filename content : String) : FS × Option String :=
  let fullPath := F.Join [tm.templateDir, filename ++ ".tpl"]
  if !HasPrefix fullPath tm.templateDir then (fs, some "无效的模板文件路径")
  else
    match F.MkdirAll fs tm.templateDir with
    | (fs, some err) => (fs, some ("创建模板目录失败: " ++ err))
    | (fs, none) =>
      match F.WriteFile fs fullPath content with
      | (fs, some err) => (fs, some ("保存模板文件失败: " ++ err))
      | (fs, none) => (fs, none)

/-- The elements of a cleaned path, for the separator `/`: empty elements and `.` are
dropped, `..` takes the element before it away, is dropped at the root and is kept at the
front of a path that is not rooted.  `out` holds the elements kept so far, newest first. -/
def cleanElements (rooted : Bool) : List String → List String → List String
  | [], out => out.reverse
  | e :: es, out =>
    if e = "" ∨ e = "." then cleanElements rooted es out
    else if e = ".." then
      match out with
      | top :: rest =>
        if top = ".." then cleanElements rooted es (".." :: out)
        else cleanElements rooted es rest
      | [] => if rooted then cleanElements rooted es [] else cleanElements rooted es [".."]
    else cleanElements rooted es (e :: out)

/-- The function `filepath.Clean` for the separator `/`. -/
def unixClean (path : String) : String :=
  if path = "" then "."
  else
    let rooted := path.data.head? == some '/'
    let elements := (path.data.splitOn '/').map String.mk
    let body := "/".intercalate (cleanElements rooted elements [])
    if rooted then "/" ++ body
    else if body = "" then "." else body

/-- The function `filepath.Join` for the separator `/`: the elements from the first one that
is not empty, joined and cleaned; the empty string when all are empty. -/
def unixJoin (elem : List String) : String :=
  match elem.dropWhile (fun e => e = "") with
  | [] => ""
  | es => unixClean ("/".intercalate es)

/-- A file system for concrete runs: its state is the list of the files written, with their
contents, and every call succeeds. -/
def recordingFs : FileSystem (List (String × String)) where
  Join := unixJoin
  MkdirAll := fun fs _ => (fs, none)
  WriteFile := fun fs path content => (fs ++ [(path, content)], none)

/-- The template manager of the application: `app.go` builds its directory with
`filepath.Join(".", "templates", "imported")`. -/
def appTemplateManager : TemplateManager :=
  NewTemplateManager (unixJoin [".", "templates", "imported"])

/-! ## The names of the render model in JSON -/

/-- The names under which `encoding/json` writes the fields of `TemplateData`, from its
struct tags. -/
def templateDataJsonNames : List String :=
  ["tableName", "fields"]

/-- The names under which `encoding/json` writes the fields of `FieldData`, from its struct
tags. -/
def fieldDataJsonNames : List String :=
  ["name", "tsType", "comment"]

/-- A render model for the examples. -/
def usersData : TemplateData :=
  { TableName := "users", Fields := [{ Name := "id", TsType := "number", Comment := "key" }] }

/-! ## `storage.go`, `encrypt.go` -/

/-- The struct `ConnectionConfig` of the package `config`: a stored connection; `Typ` is its
field `Type`. -/
structure StoredConnection where
  Name : String
  Typ : String
  Host : String
  Port : String
  Username : String
  Password : String
  Database : String
deriving DecidableEq

/-- The struct `AppConfig`. -/
structure AppConfig where
  Connections : List StoredConnection
  Templates : TypeMap
  Scripts : TypeMap

/-- The struct `Storage`. -/
structure Storage where
  config : AppConfig
  configDir : String
  configFile : String

/-- What `Storage` calls outside itself, over the states `W` of the outside world (the file
system, the source of random numbers). -/
structure StorageEnv (W : Type) where
  /-- The body of `Save`, `json.MarshalIndent` and `os.WriteFile` on the configuration
  file: the error, `none` for nil. -/
  WriteConfig : W → String → AppConfig → W × Option String
  /-- The cryptography of `EncryptPassword` on a password that is not empty: the key
  derivation, the random nonce, the sealing and the encoding. -/
  Seal : W → String → W × Except String String

/-- The method `Storage.Save`. -/
def Storage.Save {W : Type} (E : StorageEnv W) (w : W) (s : Storage) : W × Option String :=
  E.WriteConfig w s.configFile s.config

/-- The function `EncryptPassword`. -/
def EncryptPassword {W : Type} (E : StorageEnv W) (w : W) (password : String) :
    W × Except String String :=
  if password = "" then (w, .ok "") else E.Seal w password

/-- The function `EncryptConnectionPassword`: the configuration it returns and the error. -/
def EncryptConnectionPassword {W : Type} (E : StorageEnv W) (w : W)
    (config : StoredConnection) : W × StoredConnection × Option String :=
  if config.Password = "" then (w, config, none)
  else
    match EncryptPassword E w config.Password with
    | (w, .error err) => (w, config, some err)
    | (w, .ok encrypted) => (w, { config with Password := encrypted }, none)

/-- Whether a loop `for _, conn := range connections` finds a connection of the name. -/
def hasConnection (name : String) : List StoredConnection → Bool
  | [] => false
  | conn :: rest => if conn.Name = name then true else hasConnection name rest

/-- The assignment `connections[i] = replacement` at the first `i` whose connection has the
name. -/
def replaceConnection (name : String) (replacement : StoredConnection) :
    List StoredConnection → List StoredConnection
  | [] => []
  | conn :: rest =>
    if conn.Name = name then replacement :: rest
    else conn :: replaceConnection name replacement rest

/-- The slice `append(connections[:i], connections[i+1:]...)` at the first `i` whose
connection has the name. -/
def removeConnection (name : String) : List StoredConnection → List StoredConnection
  | [] => []
  | conn :: rest => if conn.Name = name then rest else conn :: removeConnection name rest

/-- The method `Storage.AddConnection`: the world and the storage afterwards, and the
error. -/
def Storage.AddConnection {W : Type} (E : StorageEnv W) (w : W) (s : Storage)
    (config : StoredConnection) : W × Storage × Option String :=
  if hasConnection config.Name s.config.Connections then
    (w, s, some ("connection name '" ++ config.Name ++ "' already exists"))
  else
    match EncryptConnectionPassword E w config with
    | (w, _, some err) => (w, s, some err)
    | (w, encryptedConfig, none) =>
      let s := { s with config :=
        { s.config with Connections := s.config.Connections ++ [encryptedConfig] } }
      ((s.Save E w).1, s, (s.Save E w).2)

/-- The method `Storage.UpdateConnection`. -/
def Storage.UpdateConnection {W : Type} (E : StorageEnv W) (w : W) (s : Storage)
    (config : StoredConnection) : W × Storage × Option String :=
  if hasConnection config.Name s.config.Connections then
    match EncryptConnectionPassword E w config with
    | (w, _, some err) => (w, s, some err)
    | (w, encryptedConfig, none) =>
      let s := { s with config :=
        { s.config with
          Connections := replaceConnection config.Name encryptedConfig s.config.Connections } }
      ((s.Save E w).1, s, (s.Save E w).2)
  else (w, s, some ("connection '" ++ config.Name ++ "' does not exist"))

/-- The method `Storage.DeleteConnection`. -/
def Storage.DeleteConnection {W : Type} (E : StorageEnv W) (w : W) (s : Storage)
    (name : String) : W × Storage × Option String :=
  if hasConnection name s.config.Connections then
    let s := { s with config :=
      { s.config with Connections := removeConnection name s.config.Connections } }
    ((s.Save E w).1, s, (s.Save E w).2)
  else (w, s, some ("connection '" ++ name ++ "' does not exist"))

/-- The statement `delete(m, k)`. -/
def TypeMap.delete (m : TypeMap) (k : String) : TypeMap :=
  m.filter (fun e => e.1 != k)

/-- The method `Storage.SetTemplate`. -/
def Storage.SetTemplate {W : Type} (E : StorageEnv W) (w : W) (s : Storage)
    (name template : String) : W × Storage × Option String :=
  let s := { s with config :=
    { s.config with Templates := s.config.Templates.assign name template } }
  ((s.Save E w).1, s, (s.Save E w).2)

/-- The method `Storage.DeleteTemplate`. -/
def Storage.DeleteTemplate {W : Type} (E : StorageEnv W) (w : W) (s : Storage)
    (name : String) : W × Storage × Option String :=
  if name = "default" then (w, s, some "cannot delete default template")
  else if (s.config.Templates.get name).isNone then
    (w, s, some ("template '" ++ name ++ "' does not exist"))
  else
    let s := { s with config := { s.config with Templates := s.config.Templates.delete name } }
    ((s.Save E w).1, s, (s.Save E w).2)

/-- The method `Storage.SetScript`. -/
def Storage.SetScript {W : Type} (E : StorageEnv W) (w : W) (s : Storage)
    (name script : String) : W × Storage × Option String :=
  let s := { s with config := { s.config with Scripts := s.config.Scripts.assign name script } }
  ((s.Save E w).1, s, (s.Save E w).2)

/-- The local `defaultScripts` of `DeleteScript`. -/
def defaultScripts : List String :=
  ["camelCase", "addHeader", "formatCode", "addImports"]

/-- The method `Storage.DeleteScript`. -/
def Storage.DeleteScript {W : Type} (E : StorageEnv W) (w : W) (s : Storage)
    (name : String) : W × Storage × Option String :=
  if defaultScripts.contains name then (w, s, some "cannot delete default script")
  else if (s.config.Scripts.get name).isNone then
    (w, s, some ("script '" ++ name ++ "' does not exist"))
  else
    let s := { s with config := { s.config with Scripts := s.config.Scripts.delete name } }
    ((s.Save E w).1, s, (s.Save E w).2)

/-- A call of `SetTemplate` or of `DeleteTemplate`. -/
inductive TemplateCall where
  | set (name template : String)
  | delete (name : String)

/-- The calls of a sequence, one after the other, whatever errors they return. -/
def runTemplateCalls {W : Type} (E : StorageEnv W) : W → Storage → List TemplateCall →
    W × Storage
  | w, s, [] => (w, s)
  | w, s, .set name template :: calls =>
    runTemplateCalls E (s.SetTemplate E w name template).1 (s.SetTemplate E w name template).2.1
      calls
  | w, s, .delete name :: calls =>
    runTemplateCalls E (s.DeleteTemplate E w name).1 (s.DeleteTemplate E w name).2.1 calls

/-- A world for concrete runs: it counts the saves, every save succeeds, and the sealed form
of a password is the password between brackets. -/
def countingEnv : StorageEnv Nat where
  WriteConfig := fun w _ _ => (w + 1, none)
  Seal := fun w password => (w, .ok ("[" ++ password ++ "]"))

/-- A storage with one connection and the built-in template. -/
def exampleStorage : Storage :=
  { config :=
      { Connections :=
          [{ Name := "prod", Typ := "PostgreSQL", Host := "db.example.org", Port := "5432",
             Username := "app", Password := "", Database := "shop" }]
        Templates := TypeMap.make [("default", "text")]
        Scripts := TypeMap.make [("camelCase", "a"), ("addHeader", "b"), ("formatCode", "c"),
          ("addImports", "d")] }
    configDir := "/home/u/.godbmodeler"
    configFile := "/home/u/.godbmodeler/config.json" }

/-! ## Lemmas on the script stage -/

theorem dropWhile_eq_nil_of_all {α : Type} (q : α → Bool) (l : List α)
    (h : ∀ x ∈ l, q x = true) : l.dropWhile q = [] := by
  induction l with
  | nil => rfl
  | cons x xs ih =>
    rw [List.dropWhile_cons, if_pos (h x (List.mem_cons_self x xs))]
    exact ih (fun y hy => h y (List.mem_cons_of_mem x hy))

theorem all_of_dropWhile_eq_nil {α : Type} (q : α → Bool) (l : List α)
    (h : l.dropWhile q = []) : ∀ x ∈ l, q x = true := by
  induction l with
  | nil => intro x hx; cases hx
  | cons y ys ih =>
    by_cases hy : q y = true
    · rw [List.dropWhile_cons, if_pos hy] at h
      intro x hx
      rcases List.mem_cons.mp hx with hx | hx
      · exact hx ▸ hy
      · exact ih h x hx
    · rw [List.dropWhile_cons, if_neg hy] at h
      cases h

theorem dropWhile_head_not {α : Type} (q : α → Bool) (l : List α) (x : α) (xs : List α)
    (h : l.dropWhile q = x :: xs) : q x = false := by
  induction l with
  | nil => cases h
  | cons y ys ih =>
    by_cases hy : q y = true
    · rw [List.dropWhile_cons, if_pos hy] at h
      exact ih h
    · rw [List.dropWhile_cons, if_neg hy] at h
      cases h
      simpa using hy

theorem TrimSpace_eq_empty_iff (script : String) :
    TrimSpace script = "" ↔ isBlank script = true := by
  unfold TrimSpace isBlank
  rw [List.all_eq_true]
  constructor
  · intro h
    have h1 : ((script.data.dropWhile isSpace).reverse.dropWhile isSpace).reverse = [] :=
      congrArg String.data h
    have h2 : (script.data.dropWhile isSpace).reverse.dropWhile isSpace = [] := by
      simpa using h1
    have h3 := all_of_dropWhile_eq_nil isSpace _ h2
    apply all_of_dropWhile_eq_nil
    cases hd : script.data.dropWhile isSpace with
    | nil => rfl
    | cons x xs =>
      have hx := dropWhile_head_not isSpace _ x xs hd
      have hx2 := h3 x (by rw [hd]; simp)
      rw [hx] at hx2
      cases hx2
  · intro h
    rw [dropWhile_eq_nil_of_all isSpace _ h]
    rfl

theorem Process_of_blank {VM Val P M : Type} (G : Goja VM Val P) (J : Json M P)
    (p : JavaScriptProcessor VM) (tsCode script : String) (metadata : Option M)
    (h : isBlank script = true) :
    p.Process G J tsCode script metadata = some ⟨tsCode, none, p⟩ := by
  unfold JavaScriptProcessor.Process
  rw [if_pos ((TrimSpace_eq_empty_iff script).mpr h)]

theorem Process_of_not_blank {VM Val P M : Type} (G : Goja VM Val P) (J : Json M P)
    (p : JavaScriptProcessor VM) (tsCode script : String) (metadata : Option M)
    (h : isBlank script = false) :
    p.Process G J tsCode script metadata =
      match inputJSONOf J metadata with
      | .error err => some ⟨"", some ("JSON序列化错误: " ++ err), p⟩
      | .ok inputJSON =>
        match G.RunString (bindInputs G J p.vm tsCode inputJSON) script with
        | .diverges => none
        | .raised vm err => some ⟨"", some ("JavaScript执行错误: " ++ err), ⟨vm⟩⟩
        | .completed vm => some ⟨readOutput G vm tsCode, none, ⟨vm⟩⟩ := by
  unfold JavaScriptProcessor.Process
  rw [if_neg]
  intro hb
  rw [(TrimSpace_eq_empty_iff script).mp hb] at h
  cases h

theorem Process_of_marshal_error {VM Val P M : Type} (G : Goja VM Val P) (J : Json M P)
    (p : JavaScriptProcessor VM) (tsCode script : String) (metadata : Option M) (e : String)
    (hb : isBlank script = false) (hj : inputJSONOf J metadata = .error e) :
    p.Process G J tsCode script metadata = some ⟨"", some ("JSON序列化错误: " ++ e), p⟩ := by
  rw [Process_of_not_blank G J p tsCode script metadata hb, hj]

theorem Process_of_completed {VM Val P M : Type} (G : Goja VM Val P) (J : Json M P)
    (p : JavaScriptProcessor VM) (tsCode script : String) (metadata : Option M)
    (inputJSON : String) (vm : VM)
    (hb : isBlank script = false) (hj : inputJSONOf J metadata = .ok inputJSON)
    (hr : G.RunString (bindInputs G J p.vm tsCode inputJSON) script = .completed vm) :
    p.Process G J tsCode script metadata = some ⟨readOutput G vm tsCode, none, ⟨vm⟩⟩ := by
  rw [Process_of_not_blank G J p tsCode script metadata hb, hj]
  simp only []
  rw [hr]

theorem Process_of_raised {VM Val P M : Type} (G : Goja VM Val P) (J : Json M P)
    (p : JavaScriptProcessor VM) (tsCode script : String) (metadata : Option M)
    (inputJSON : String) (vm : VM) (e : String)
    (hb : isBlank script = false) (hj : inputJSONOf J metadata = .ok inputJSON)
    (hr : G.RunString (bindInputs G J p.vm tsCode inputJSON) script = .raised vm e) :
    p.Process G J tsCode script metadata =
      some ⟨"", some ("JavaScript执行错误: " ++ e), ⟨vm⟩⟩ := by
  rw [Process_of_not_blank G J p tsCode script metadata hb, hj]
  simp only []
  rw [hr]

theorem Process_of_diverges {VM Val P M : Type} (G : Goja VM Val P) (J : Json M P)
    (p : JavaScriptProcessor VM) (tsCode script : String) (metadata : Option M)
    (inputJSON : String)
    (hb : isBlank script = false) (hj : inputJSONOf J metadata = .ok inputJSON)
    (hr : G.RunString (bindInputs G J p.vm tsCode inputJSON) script = .diverges) :
    p.Process G J tsCode script metadata = none := by
  rw [Process_of_not_blank G J p tsCode script metadata hb, hj]
  simp only []
  rw [hr]

/-! ## Lemmas on the type mappers -/

theorem TypeMap_get_eq_none_of_not_mem_keys (m : TypeMap) (k : String) (h : k ∉ m.keys) :
    m.get k = none := by
  unfold TypeMap.get
  rw [List.lookup_eq_none_iff]
  intro e he
  by_cases hk : e.1 = k
  · exact absurd (hk ▸ List.mem_map_of_mem Prod.fst he) h
  · simpa using fun hk2 : k = e.1 => hk hk2.symm

theorem baseTypeRunes_spec (cs : List Char) :
    ∃ rest, cs = baseTypeRunes cs ++ rest ∧
      (rest = [] ∨ rest.head? = some '(' ∨ rest.head? = some ' ') ∧
      ∀ c ∈ baseTypeRunes cs, c ≠ '(' ∧ c ≠ ' ' := by
  induction cs with
  | nil => exact ⟨[], by simp [baseTypeRunes]⟩
  | cons c cs ih =>
    by_cases hc : c = '(' ∨ c = ' '
    · refine ⟨c :: cs, by simp [baseTypeRunes, hc], ?_, by simp [baseTypeRunes, hc]⟩
      rcases hc with hc | hc
      · exact Or.inr (Or.inl (by simp [hc]))
      · exact Or.inr (Or.inr (by simp [hc]))
    · obtain ⟨rest, h1, h2, h3⟩ := ih
      refine ⟨rest, ?_, h2, ?_⟩
      · simp only [baseTypeRunes, if_neg hc, List.cons_append]
        exact congrArg (c :: ·) h1
      · intro x hx
        simp only [baseTypeRunes, if_neg hc, List.mem_cons] at hx
        rcases hx with hx | hx
        · subst hx
          exact ⟨fun h => hc (Or.inl h), fun h => hc (Or.inr h)⟩
        · exact h3 x hx

theorem baseTypeRunes_of_clean (cs : List Char) (h : ∀ c ∈ cs, c ≠ '(' ∧ c ≠ ' ') :
    baseTypeRunes cs = cs := by
  induction cs with
  | nil => rfl
  | cons c cs ih =>
    have hc : ¬ (c = '(' ∨ c = ' ') := by
      have := h c (List.mem_cons_self c cs)
      tauto
    simp only [baseTypeRunes, if_neg hc]
    rw [ih (fun x hx => h x (List.mem_cons_of_mem c hx))]

theorem baseTypeOf_idem (s : String) : baseTypeOf (baseTypeOf s) = baseTypeOf s := by
  obtain ⟨_, _, _, h⟩ := baseTypeRunes_spec s.data
  simp only [baseTypeOf]
  rw [baseTypeRunes_of_clean _ h]

theorem baseTypeOf_ne_tinyint1 (s : String) : baseTypeOf s ≠ "tinyint(1)" := by
  obtain ⟨_, _, _, h⟩ := baseTypeRunes_spec s.data
  intro hs
  have hmem : '(' ∈ (baseTypeOf s).data := by rw [hs]; decide
  exact (h '(' hmem).1 rfl

theorem MySQLMapper_Map_of_ne (m : MySQLMapper) (s : String) (hs : s ≠ "tinyint(1)") :
    m.Map s = (m.typeMap.get (baseTypeOf s)).getD "any" := by
  unfold MySQLMapper.Map
  rw [if_neg hs]
  cases m.typeMap.get (baseTypeOf s) <;> rfl

theorem SQLiteMapper_Map_of_ne (m : SQLiteMapper) (s : String) (hs : s ≠ "tinyint(1)") :
    m.Map s = (m.typeMap.get (baseTypeOf s)).getD "any" := by
  unfold SQLiteMapper.Map
  simp only []
  rw [if_neg (fun h => hs h.2)]
  cases m.typeMap.get (baseTypeOf s) <;> rfl

/-! ## Lemmas on the renderer -/

theorem foldl_append_singleton {α β : Type} (f : α → β) (l : List α) (init : List β) :
    l.foldl (fun acc x => acc ++ [f x]) init = init ++ l.map f := by
  induction l generalizing init with
  | nil => simp
  | cons x xs ih => simp [ih]

theorem templateDataOf_eq_map (mapper : TypeMapper) (metadata : TableMetadata) :
    templateDataOf mapper metadata =
      { TableName := metadata.Name
        Fields := metadata.Fields.map
          (fun field => { Name := field.Name, TsType := mapper.Map field.Typ,
                          Comment := field.Comment }) } := by
  unfold templateDataOf
  rw [foldl_append_singleton
    (fun field : FieldInfo => ({ Name := field.Name, TsType := mapper.Map field.Typ,
                                 Comment := field.Comment } : FieldData))]
  rfl

theorem join_cons_eq (x : String) (xs : List String) :
    String.join (x :: xs) = x ++ String.join xs := by
  apply String.ext
  simp [String.data_join, String.data_append]

theorem execAll_of_ok {α : Type} (exec : α → Except String String) (line : α → String)
    (hok : ∀ x, exec x = .ok (line x)) (l : List α) :
    execAll exec l = .ok (String.join (l.map line)) := by
  induction l with
  | nil => rfl
  | cons x xs ih =>
    simp only [execAll, hok x, ih, List.map_cons, join_cons_eq]

theorem execAll_cons_ok {α : Type} (exec : α → Except String String) (x : α) (xs : List α)
    (s rest : String) (hx : exec x = .ok s) (hxs : execAll exec xs = .ok rest) :
    execAll exec (x :: xs) = .ok (s ++ rest) := by
  simp only [execAll, hx, hxs]

theorem parseNodes_DefaultTemplate : parseNodes DefaultTemplate = .ok defaultNodes := by
  rfl

theorem NewGenerator_DefaultTemplate (dbType : String) :
    NewGenerator dbType DefaultTemplate =
      .ok { mapper := NewTypeMapper dbType
            template := { Execute := fun data => execAll (execNode data) defaultNodes }
            script := "" } := by
  simp only [NewGenerator, ParseTemplate, parseNodes_DefaultTemplate]

theorem execAll_defaultNodes (data : TemplateData) :
    execAll (execNode data) defaultNodes =
      .ok ("export interface " ++ data.TableName ++ " \x7b\n" ++
        String.join (data.Fields.map (fun f =>
          "  \x2f** " ++ f.Comment ++ " *\x2f\n  " ++ f.Name ++ ": " ++ f.TsType ++ ";\n")) ++
        "\n\x7d\n") := by
  have hbody : ∀ f : FieldData,
      execAll (execItem f)
        [ .text "  \x2f** ", .field "Comment", .text " *\x2f\n  ", .field "Name", .text ": ",
          .field "TsType", .text ";\n" ] =
      .ok ("  \x2f** " ++ f.Comment ++ " *\x2f\n  " ++ f.Name ++ ": " ++ f.TsType ++ ";\n") := by
    intro f
    simp [execAll, execItem, String.append_assoc]
  have htable : execNode data (.field "TableName") = .ok data.TableName := by
    simp [execNode]
  have hrange : execNode data (.range "Fields"
        [ .text "  \x2f** ", .field "Comment", .text " *\x2f\n  ", .field "Name", .text ": ",
          .field "TsType", .text ";\n" ]) =
      .ok (String.join (data.Fields.map (fun f =>
        "  \x2f** " ++ f.Comment ++ " *\x2f\n  " ++ f.Name ++ ": " ++ f.TsType ++ ";\n"))) := by
    rw [execNode, if_pos rfl]
    exact execAll_of_ok _ _ hbody _
  have htext : ∀ s, execNode data (.text s) = .ok s := fun _ => rfl
  have hnil : execAll (execNode data) [] = .ok "" := rfl
  rw [defaultNodes,
    execAll_cons_ok (execNode data) _ _ _ _ (htext _)
      (execAll_cons_ok _ _ _ _ _ htable
        (execAll_cons_ok _ _ _ _ _ (htext _)
          (execAll_cons_ok _ _ _ _ _ hrange
            (execAll_cons_ok _ _ _ _ _ (htext _) hnil))))]
  simp [String.append_assoc]

theorem Generate_default_eq {VM Val P : Type} (G : Goja VM Val P) (J : Json TemplateData P)
    (dbType : String) (metadata : TableMetadata) :
    ∃ g, NewGenerator dbType DefaultTemplate = .ok g ∧ g.script = "" ∧
      g.Generate G J metadata = some
        ("export interface " ++ metadata.Name ++ " \x7b\n" ++
          String.join (metadata.Fields.map (fun f =>
            "  \x2f** " ++ f.Comment ++ " *\x2f\n  " ++ f.Name ++ ": " ++
              (NewTypeMapper dbType).Map f.Typ ++ ";\n")) ++
          "\n\x7d\n", none) := by
  refine ⟨_, NewGenerator_DefaultTemplate dbType, rfl, ?_⟩
  simp only [Generator.Generate, templateDataOf_eq_map, execAll_defaultNodes]
  simp [List.map_map, Function.comp_def]

theorem Generate_of_exec_error {VM Val P : Type} (G : Goja VM Val P)
    (J : Json TemplateData P) (g : Generator) (metadata : TableMetadata) (e : String)
    (hexec : g.template.Execute (templateDataOf g.mapper metadata) = .error e) :
    g.Generate G J metadata = some ("", some e) := by
  simp only [Generator.Generate, hexec]

theorem Generate_of_no_script {VM Val P : Type} (G : Goja VM Val P)
    (J : Json TemplateData P) (g : Generator) (metadata : TableMetadata) (r : String)
    (hexec : g.template.Execute (templateDataOf g.mapper metadata) = .ok r)
    (hs : g.script = "") :
    g.Generate G J metadata = some (r, none) := by
  simp only [Generator.Generate, hexec, hs]
  simp

theorem Generate_of_script {VM Val P : Type} (G : Goja VM Val P)
    (J : Json TemplateData P) (g : Generator) (metadata : TableMetadata) (r : String)
    (hexec : g.template.Execute (templateDataOf g.mapper metadata) = .ok r)
    (hs : g.script ≠ "") :
    g.Generate G J metadata =
      match (NewJavaScriptProcessor G).Process G J r g.script
          (some (templateDataOf g.mapper metadata)) with
      | none => none
      | some ret =>
        match ret.err with
        | some err => some (r, some err)
        | none => some (ret.text, none) := by
  simp only [Generator.Generate, hexec]
  rw [if_pos hs]

theorem Generate_of_script_none {VM Val P : Type} (G : Goja VM Val P)
    (J : Json TemplateData P) (g : Generator) (metadata : TableMetadata) (r : String)
    (hexec : g.template.Execute (templateDataOf g.mapper metadata) = .ok r)
    (hs : g.script ≠ "")
    (hp : (NewJavaScriptProcessor G).Process G J r g.script
      (some (templateDataOf g.mapper metadata)) = none) :
    g.Generate G J metadata = none := by
  rw [Generate_of_script G J g metadata r hexec hs, hp]

theorem Generate_of_script_error {VM Val P : Type} (G : Goja VM Val P)
    (J : Json TemplateData P) (g : Generator) (metadata : TableMetadata) (r : String)
    (ret : Returned VM) (e : String)
    (hexec : g.template.Execute (templateDataOf g.mapper metadata) = .ok r)
    (hs : g.script ≠ "")
    (hp : (NewJavaScriptProcessor G).Process G J r g.script
      (some (templateDataOf g.mapper metadata)) = some ret)
    (he : ret.err = some e) :
    g.Generate G J metadata = some (r, some e) := by
  rw [Generate_of_script G J g metadata r hexec hs, hp]
  simp only [he]

theorem Generate_of_script_ok {VM Val P : Type} (G : Goja VM Val P)
    (J : Json TemplateData P) (g : Generator) (metadata : TableMetadata) (r : String)
    (ret : Returned VM)
    (hexec : g.template.Execute (templateDataOf g.mapper metadata) = .ok r)
    (hs : g.script ≠ "")
    (hp : (NewJavaScriptProcessor G).Process G J r g.script
      (some (templateDataOf g.mapper metadata)) = some ret)
    (he : ret.err = none) :
    g.Generate G J metadata = some (ret.text, none) := by
  rw [Generate_of_script G J g metadata r hexec hs, hp]
  simp only [he]

/-! ## Lemmas on the connectors -/

theorem scanRows_of_ok {Raw α β : Type} (scan : Raw → Except String α) (step : β → α → β)
    (rows : List Raw) (vals : List α) (acc : β) (h : rows.map scan = vals.map .ok) :
    scanRows scan step rows acc = .ok (vals.foldl step acc) := by
  induction rows generalizing vals acc with
  | nil =>
    cases vals with
    | nil => rfl
    | cons v vs => cases h
  | cons row rows ih =>
    cases vals with
    | nil => cases h
    | cons v vs =>
      simp only [List.map_cons, List.cons.injEq] at h
      simp only [scanRows, h.1, List.foldl_cons]
      exact ih vs (step acc v) h.2

theorem foldl_append_if {α : Type} (keep : α → Bool) (l : List α) (acc : List α) :
    l.foldl (fun xs x => if keep x then xs ++ [x] else xs) acc = acc ++ l.filter keep := by
  induction l generalizing acc with
  | nil => simp
  | cons x xs ih =>
    by_cases hx : keep x = true
    · simp [List.foldl_cons, hx, ih, List.filter_cons]
    · simp [List.foldl_cons, hx, ih, List.filter_cons]

theorem isUserDatabase_iff (n : String) :
    isUserDatabase n = true ↔
      n ≠ "information_schema" ∧ n ≠ "mysql" ∧ n ≠ "performance_schema" ∧ n ≠ "sys" := by
  simp [isUserDatabase, and_assoc]

theorem MySQL_GetDatabases_of_rows {DB Raw : Type} (S : Sql DB Raw) (c : MySQLConnector DB)
    (db db1 : DB) (rows : List Raw) (names : List String)
    (hdb : c.db = some db) (hq : S.Query db "SHOW DATABASES" [] = (db1, .ok rows))
    (hscan : rows.map S.ScanName = names.map .ok) :
    c.GetDatabases S = ({ c with db := some db1 }, .ok (names.filter isUserDatabase)) := by
  simp only [MySQLConnector.GetDatabases, hdb, hq]
  rw [scanRows_of_ok S.ScanName _ rows names [] hscan, foldl_append_if]
  simp

theorem lookup_isSome_iff_mem_keys (m : IndexMap) (k : String) :
    (m.lookup k).isSome = true ↔ k ∈ m.map Prod.fst := by
  rw [List.lookup_isSome_iff]
  constructor
  · rintro ⟨e, he, hk⟩
    have : k = e.1 := by simpa using hk
    exact this ▸ List.mem_map_of_mem Prod.fst he
  · intro h
    obtain ⟨e, he, rfl⟩ := List.mem_map.mp h
    exact ⟨e, he, by simp⟩

theorem keys_map_bump (m : IndexMap) (r : MySQLIndexRow) :
    (m.map (fun e : String × IndexInfo =>
      if e.1 = r.indexName then (e.1, { e.2 with Columns := e.2.Columns ++ [r.columnName] })
      else e)).map Prod.fst = m.map Prod.fst := by
  rw [List.map_map]
  apply List.map_congr_left
  intro e _
  by_cases h : e.1 = r.indexName <;> simp [h]

theorem find_append_of_mem (p : List MySQLIndexRow) (r : MySQLIndexRow) (k t : String)
    (h : (p.find? (fun x => x.indexName = k)).map (fun x => x.indexType) = some t) :
    ((p ++ [r]).find? (fun x => x.indexName = k)).map (fun x => x.indexType) = some t := by
  rw [List.find?_append]
  cases hf : p.find? (fun x => decide (x.indexName = k)) with
  | none => rw [hf] at h; cases h
  | some x => rw [hf] at h; simpa using h

theorem indexMapAdd_inv (m : IndexMap) (p : List MySQLIndexRow) (r : MySQLIndexRow)
    (h : IndexMapInv m p) : IndexMapInv (indexMapAdd m r) (p ++ [r]) := by
  obtain ⟨hnd, hkeys, hent⟩ := h
  by_cases hk : r.indexName ∈ m.map Prod.fst
  · have hadd : indexMapAdd m r = m.map (fun e : String × IndexInfo =>
        if e.1 = r.indexName then
          (e.1, { e.2 with Columns := e.2.Columns ++ [r.columnName] })
        else e) := by
      simp only [indexMapAdd, (lookup_isSome_iff_mem_keys m r.indexName).mpr hk, if_true]
    rw [hadd]
    refine ⟨?_, ?_, ?_⟩
    · rw [keys_map_bump]; exact hnd
    · intro n
      rw [keys_map_bump, hkeys n]
      simp only [List.map_append, List.mem_append, List.map_cons, List.map_nil,
        List.mem_singleton]
      constructor
      · exact Or.inl
      · rintro (h | h)
        · exact h
        · rw [h]; exact (hkeys _).mp hk
    · intro e' he'
      obtain ⟨e, he, rfl⟩ := List.mem_map.mp he'
      obtain ⟨h1, h2, h3⟩ := hent e he
      by_cases hek : e.1 = r.indexName
      · simp only [hek, if_true]
        refine ⟨by rw [← hek]; exact h1, ?_, ?_⟩
        · rw [h2, hek]
          simp [List.filter_append, List.filter_cons]
        · have := find_append_of_mem p r e.1 e.2.Typ h3
          rw [hek] at this
          exact this
      · simp only [hek, if_false]
        refine ⟨h1, ?_, find_append_of_mem p r e.1 e.2.Typ h3⟩
        rw [h2]
        have : ¬ r.indexName = e.1 := fun h => hek h.symm
        simp [List.filter_append, List.filter_cons, this]
  · have hnone : ¬ (m.lookup r.indexName).isSome = true := fun h =>
      hk ((lookup_isSome_iff_mem_keys m r.indexName).mp h)
    have hadd : indexMapAdd m r =
        (m ++ [(r.indexName,
            ({ Name := r.indexName, Typ := r.indexType, Columns := [] } : IndexInfo))]).map
          (fun e : String × IndexInfo =>
            if e.1 = r.indexName then
              (e.1, { e.2 with Columns := e.2.Columns ++ [r.columnName] })
            else e) := by
      simp only [indexMapAdd]
      rw [if_neg hnone]
    have hp : ∀ x ∈ p, x.indexName ≠ r.indexName := by
      intro x hx hxe
      apply hk
      rw [hkeys]
      exact hxe ▸ List.mem_map_of_mem (fun r => r.indexName) hx
    rw [hadd]
    refine ⟨?_, ?_, ?_⟩
    · rw [keys_map_bump]
      simp only [List.map_append, List.map_cons, List.map_nil]
      rw [List.nodup_append]
      refine ⟨hnd, List.nodup_singleton _, ?_⟩
      intro a ha hb
      rw [List.mem_singleton] at hb
      exact hk (hb ▸ ha)
    · intro n
      rw [keys_map_bump]
      simp only [List.map_append, List.mem_append, List.map_cons, List.map_nil,
        List.mem_singleton, hkeys n]
    · intro e' he'
      obtain ⟨e, he, rfl⟩ := List.mem_map.mp he'
      rcases List.mem_append.mp he with he | he
      · obtain ⟨h1, h2, h3⟩ := hent e he
        have hek : ¬ e.1 = r.indexName := fun h =>
          hk (h ▸ List.mem_map_of_mem Prod.fst he)
        simp only [hek, if_false]
        refine ⟨h1, ?_, find_append_of_mem p r e.1 e.2.Typ h3⟩
        rw [h2]
        have : ¬ r.indexName = e.1 := fun h => hek h.symm
        simp [List.filter_append, List.filter_cons, this]
      · rw [List.mem_singleton] at he
        subst he
        simp only [if_true]
        have hfil : p.filter (fun x => decide (x.indexName = r.indexName)) = [] := by
          rw [List.filter_eq_nil_iff]
          intro x hx
          simpa using hp x hx
        have hfind : p.find? (fun x => decide (x.indexName = r.indexName)) = none := by
          rw [List.find?_eq_none]
          intro x hx
          simpa using hp x hx
        refine ⟨?_, ?_, ?_⟩
        · first | rfl | trivial
        · simp [List.filter_append, hfil]
        · simp [List.find?_append, hfind]

theorem foldl_indexMapAdd_inv (rs : List MySQLIndexRow) (m : IndexMap)
    (p : List MySQLIndexRow) (h : IndexMapInv m p) :
    IndexMapInv (rs.foldl indexMapAdd m) (p ++ rs) := by
  induction rs generalizing m p with
  | nil => simpa using h
  | cons r rs ih =>
    have := ih (indexMapAdd m r) (p ++ [r]) (indexMapAdd_inv m p r h)
    simpa using this
theorem MySQL_GetTableMetadata_of_rows {DB Raw : Type} (S : Sql DB Raw) (R : MapRange)
    (c : MySQLConnector DB) (database table : String) (db db1 db2 db3 : DB)
    (colRows indexRows : List Raw) (cols : List MySQLColumnRow) (rs : List MySQLIndexRow)
    (hdb : c.db = some db)
    (huse : S.Exec db ("USE " ++ database) = (db1, none))
    (hcol : S.Query db1 mysqlColumnQuery [database, table] = (db2, .ok colRows))
    (hcolscan : colRows.map S.ScanMySQLColumn = cols.map .ok)
    (hidx : S.Query db2 mysqlIndexQuery [database, table] = (db3, .ok indexRows))
    (hidxscan : indexRows.map S.ScanMySQLIndex = rs.map .ok) :
    c.GetTableMetadata S R database table =
      ({ c with db := some db3 },
        .ok { Name := table, Fields := cols.map mysqlField,
              Indexes := R.order ((rs.foldl indexMapAdd []).map Prod.snd) }) := by
  simp only [MySQLConnector.GetTableMetadata, hdb, huse, hcol,
    scanRows_of_ok S.ScanMySQLColumn _ colRows cols [] hcolscan, hidx,
    scanRows_of_ok S.ScanMySQLIndex _ indexRows rs [] hidxscan]
  rw [foldl_append_singleton mysqlField]
  simp

theorem PostgreSQL_Connect_config {DB Raw : Type} (S : Sql DB Raw)
    (c : PostgreSQLConnector DB) : (c.Connect S).1.config = c.config := by
  simp only [PostgreSQLConnector.Connect]
  split
  · rfl
  · split <;> rfl

theorem PostgreSQL_Connect_error {DB Raw : Type} (S : Sql DB Raw)
    (c : PostgreSQLConnector DB) (e : String) (h : (c.Connect S).2 = .error e) :
    c.Connect S = (c, .error e) := by
  revert h
  simp only [PostgreSQLConnector.Connect]
  split
  · intro h; simp only at h; rw [h]
  · split
    · intro h; simp only at h; rw [h]
    · intro h; cases h

theorem PostgreSQL_switch_same {DB Raw : Type} (S : Sql DB Raw)
    (c : PostgreSQLConnector DB) (db : DB) (database : String)
    (h : c.config.Database = database) :
    c.switchDatabase S db database = (c, .ok db) := by
  simp only [PostgreSQLConnector.switchDatabase, h, ne_eq, not_true_eq_false, if_false]

theorem PostgreSQL_switch_other {DB Raw : Type} (S : Sql DB Raw)
    (c : PostgreSQLConnector DB) (db : DB) (database : String)
    (hdb : c.db = some db) (h : c.config.Database ≠ database) :
    c.switchDatabase S db database =
      ({ config := { c.config with Database := database }, db := some (S.Close db).1 } :
        PostgreSQLConnector DB).Connect S := by
  simp only [PostgreSQLConnector.switchDatabase, if_pos h, PostgreSQLConnector.Close, hdb]

theorem PostgreSQL_switch_config {DB Raw : Type} (S : Sql DB Raw)
    (c : PostgreSQLConnector DB) (db : DB) (database : String) (hdb : c.db = some db) :
    (c.switchDatabase S db database).1.config = { c.config with Database := database } := by
  by_cases h : c.config.Database = database
  · rw [PostgreSQL_switch_same S c db database h]
    cases hc : c.config
    rw [hc] at h
    simp only at h
    simp [h]
  · rw [PostgreSQL_switch_other S c db database hdb h, PostgreSQL_Connect_config]

theorem PostgreSQL_tablesFrom_config {DB Raw : Type} (S : Sql DB Raw)
    (c : PostgreSQLConnector DB) (db : DB) : (c.tablesFrom S db).1.config = c.config := by
  simp only [PostgreSQLConnector.tablesFrom]
  split <;> rfl

theorem PostgreSQL_GetTables_eq {DB Raw : Type} (S : Sql DB Raw)
    (c : PostgreSQLConnector DB) (db : DB) (database : String) (hdb : c.db = some db) :
    c.GetTables S database =
      match c.switchDatabase S db database with
      | (c1, .error err) => (c1, .error err)
      | (c1, .ok db1) => c1.tablesFrom S db1 := by
  simp only [PostgreSQLConnector.GetTables, hdb, PostgreSQLConnector.tablesFrom]

theorem PostgreSQL_metadataFrom_config {DB Raw : Type} (S : Sql DB Raw)
    (c : PostgreSQLConnector DB) (db : DB) (table : String) :
    (c.metadataFrom S db table).1.config = c.config := by
  simp only [PostgreSQLConnector.metadataFrom]
  repeat' split
  all_goals rfl

theorem PostgreSQL_GetTableMetadata_eq {DB Raw : Type} (S : Sql DB Raw)
    (c : PostgreSQLConnector DB) (db : DB) (database table : String) (hdb : c.db = some db) :
    c.GetTableMetadata S database table =
      match c.switchDatabase S db database with
      | (c1, .error err) => (c1, .error err)
      | (c1, .ok db1) => c1.metadataFrom S db1 table := by
  simp only [PostgreSQLConnector.GetTableMetadata, hdb, PostgreSQLConnector.metadataFrom]

theorem PostgreSQL_GetTables_config {DB Raw : Type} (S : Sql DB Raw)
    (c : PostgreSQLConnector DB) (db : DB) (database : String) (hdb : c.db = some db) :
    (c.GetTables S database).1.config = { c.config with Database := database } := by
  rw [PostgreSQL_GetTables_eq S c db database hdb, ← PostgreSQL_switch_config S c db database hdb]
  generalize c.switchDatabase S db database = sw
  obtain ⟨c1, r⟩ := sw
  cases r with
  | error e => rfl
  | ok db1 => exact PostgreSQL_tablesFrom_config S c1 db1

theorem PostgreSQL_GetTableMetadata_config {DB Raw : Type} (S : Sql DB Raw)
    (c : PostgreSQLConnector DB) (db : DB) (database table : String) (hdb : c.db = some db) :
    (c.GetTableMetadata S database table).1.config = { c.config with Database := database } := by
  rw [PostgreSQL_GetTableMetadata_eq S c db database table hdb,
    ← PostgreSQL_switch_config S c db database hdb]
  generalize c.switchDatabase S db database = sw
  obtain ⟨c1, r⟩ := sw
  cases r with
  | error e => rfl
  | ok db1 => exact PostgreSQL_metadataFrom_config S c1 db1 table

theorem ConfigStore_read_alloc_old (store : ConfigStore) (v w : ConnectionConfig) (q : Nat)
    (h : store.read q = some w) : (store.alloc v).1.read q = some w := by
  simp only [ConfigStore.read, ConfigStore.alloc] at h ⊢
  have hq : q < store.cells.length := by
    rcases Nat.lt_or_ge q store.cells.length with hlt | hge
    · exact hlt
    · rw [List.getElem?_eq_none hge] at h
      cases h
  rw [List.getElem?_append_left hq]
  exact h

theorem ConfigStore_read_alloc_new (store : ConfigStore) (v : ConnectionConfig) :
    (store.alloc v).1.read (store.alloc v).2 = some v := by
  simp [ConfigStore.read, ConfigStore.alloc]

/-! ## Lemmas on the validator -/

theorem digitsValue_eq_some (cs : List Char) (n m : Nat) :
    digitsValue cs n = some m ↔
      (∀ c ∈ cs, c.isDigit = true) ∧ m = cs.foldl (fun a c => a * 10 + (c.toNat - 48)) n := by
  induction cs generalizing n with
  | nil =>
    constructor
    · intro h
      cases h
      exact ⟨fun c hc => (by cases hc), rfl⟩
    · rintro ⟨_, rfl⟩
      rfl
  | cons c cs ih =>
    by_cases hc : c.isDigit = true
    · simp [digitsValue, hc, ih]
    · simp [digitsValue, hc]

theorem signOf_spec (cs : List Char) :
    ∃ sign, cs = sign ++ (signOf cs).2 ∧ (sign = [] ∨ sign = ['+'] ∨ sign = ['-']) ∧
      ((signOf cs).1 = true ↔ sign = ['-']) := by
  cases cs with
  | nil => exact ⟨[], rfl, Or.inl rfl, by simp [signOf]⟩
  | cons c r =>
    by_cases h1 : c = '+'
    · exact ⟨['+'], by simp [signOf, h1], Or.inr (Or.inl rfl), by simp [signOf, h1]⟩
    · by_cases h2 : c = '-'
      · exact ⟨['-'], by simp [signOf, h2], Or.inr (Or.inr rfl), by simp [signOf, h2]⟩
      · exact ⟨[], by simp [signOf, h1, h2], Or.inl rfl, by simp [signOf, h1, h2]⟩

theorem signOf_of_parts (sign digits : List Char)
    (hs : sign = [] ∨ sign = ['+'] ∨ sign = ['-']) (hne : digits ≠ [])
    (hd : ∀ c ∈ digits, c.isDigit = true) :
    signOf (sign ++ digits) = (decide (sign = ['-']), digits) := by
  rcases hs with rfl | rfl | rfl
  · cases digits with
    | nil => exact absurd rfl hne
    | cons c r =>
      have hc := hd c (List.mem_cons_self c r)
      have h1 : c ≠ '+' := by rintro rfl; exact absurd hc (by decide)
      have h2 : c ≠ '-' := by rintro rfl; exact absurd hc (by decide)
      simp [signOf, h1, h2]
  · simp [signOf]
  · simp [signOf]

theorem Atoi_ok_iff (bitSize : Nat) (p : String) (n : Int) :
    Atoi bitSize p = .ok n ↔
      IsDecimalInteger p n ∧ -(2 ^ (bitSize - 1) : Int) ≤ n ∧ n < (2 ^ (bitSize - 1) : Int) := by
  constructor
  · intro h
    obtain ⟨sign, hcs, hsign, hneg⟩ := signOf_spec p.data
    simp only [Atoi] at h
    by_cases hd : (signOf p.data).2 = []
    · simp [hd] at h
    · rw [if_neg hd] at h
      cases hv : digitsValue (signOf p.data).2 0 with
      | none => simp [hv] at h
      | some m =>
        obtain ⟨hall, hm⟩ := (digitsValue_eq_some _ 0 m).mp hv
        simp only [hv] at h
        by_cases hn : (signOf p.data).1 = true
        · rw [if_pos hn] at h
          by_cases hr : m ≤ 2 ^ (bitSize - 1)
          · rw [if_pos hr] at h
            cases h
            refine ⟨⟨sign, (signOf p.data).2, hcs, hsign, hd, hall, ?_⟩, ?_, ?_⟩
            · rw [if_pos (hneg.mp hn), decimalValue, ← hm]
            · have : ((m : Nat) : Int) ≤ (2 ^ (bitSize - 1) : Int) := by exact_mod_cast hr
              omega
            · have h2 : (0 : Int) < 2 ^ (bitSize - 1) := by positivity
              have h3 : (0 : Int) ≤ (m : Int) := Int.natCast_nonneg m
              omega
          · rw [if_neg hr] at h
            cases h
        · rw [if_neg hn] at h
          by_cases hr : m < 2 ^ (bitSize - 1)
          · rw [if_pos hr] at h
            cases h
            refine ⟨⟨sign, (signOf p.data).2, hcs, hsign, hd, hall, ?_⟩, ?_, ?_⟩
            · rw [if_neg (fun hs => hn (hneg.mpr hs)), decimalValue, ← hm]
            · have h2 : (0 : Int) < 2 ^ (bitSize - 1) := by positivity
              have h3 : (0 : Int) ≤ (m : Int) := Int.natCast_nonneg m
              omega
            · exact_mod_cast hr
          · rw [if_neg hr] at h
            cases h
  · rintro ⟨⟨sign, digits, hcs, hsign, hne, hall, hn⟩, hlo, hhi⟩
    have hso := signOf_of_parts sign digits hsign hne hall
    have hv : digitsValue digits 0 = some (decimalValue digits) :=
      (digitsValue_eq_some digits 0 _).mpr ⟨hall, rfl⟩
    simp only [Atoi, hcs, hso, if_neg hne, hv]
    by_cases hs : sign = ['-']
    · rw [if_pos hs] at hn
      have hr : decimalValue digits ≤ 2 ^ (bitSize - 1) := by
        have : -(2 ^ (bitSize - 1) : Int) ≤ -(decimalValue digits : Int) := hn ▸ hlo
        have h2 : ((decimalValue digits : Nat) : Int) ≤ (2 ^ (bitSize - 1) : Int) := by omega
        exact_mod_cast h2
      simp [hs, hr, hn]
    · rw [if_neg hs] at hn
      have hr : decimalValue digits < 2 ^ (bitSize - 1) := by
        have h2 : ((decimalValue digits : Nat) : Int) < (2 ^ (bitSize - 1) : Int) := hn ▸ hhi
        exact_mod_cast h2
      simp [hs, hr, hn]

theorem ValidatePort_none_iff (bitSize : Nat) (p : String) :
    ValidatePort bitSize p = none ↔
      p ≠ "" ∧ ∃ n : Int, IsDecimalInteger p n ∧
        -(2 ^ (bitSize - 1) : Int) ≤ n ∧ n < (2 ^ (bitSize - 1) : Int) ∧ 1 ≤ n ∧ n ≤ 65535 := by
  constructor
  · intro h
    simp only [ValidatePort] at h
    by_cases he : p = ""
    · simp [he] at h
    · rw [if_neg he] at h
      cases ha : Atoi bitSize p with
      | error e => simp [ha] at h
      | ok n =>
        obtain ⟨h1, h2, h3⟩ := (Atoi_ok_iff bitSize p n).mp ha
        simp only [ha] at h
        by_cases hr : n < 1 ∨ n > 65535
        · simp [hr] at h
        · exact ⟨he, n, h1, h2, h3, by omega, by omega⟩
  · rintro ⟨he, n, h1, h2, h3, h4, h5⟩
    have ha := (Atoi_ok_iff bitSize p n).mpr ⟨h1, h2, h3⟩
    have hr : ¬ (n < 1 ∨ n > 65535) := by omega
    simp only [ValidatePort, if_neg he, ha, if_neg hr]

/-! ## Lemmas on the storage -/

theorem hasConnection_iff (name : String) (l : List StoredConnection) :
    hasConnection name l = true ↔ name ∈ l.map (fun c => c.Name) := by
  induction l with
  | nil => simp [hasConnection]
  | cons c rest ih =>
    by_cases h : c.Name = name
    · simp [hasConnection, h]
    · have h2 : ¬ name = c.Name := fun e => h e.symm
      simp [hasConnection, h, h2, ih]

theorem names_replaceConnection (name : String) (r : StoredConnection)
    (l : List StoredConnection) (hr : r.Name = name) :
    (replaceConnection name r l).map (fun c => c.Name) = l.map (fun c => c.Name) := by
  induction l with
  | nil => rfl
  | cons c rest ih =>
    by_cases h : c.Name = name
    · simp [replaceConnection, h, hr]
    · simp [replaceConnection, h, ih]

theorem names_removeConnection_sublist (name : String) (l : List StoredConnection) :
    ((removeConnection name l).map (fun c => c.Name)).Sublist (l.map (fun c => c.Name)) := by
  induction l with
  | nil => exact List.Sublist.refl _
  | cons c rest ih =>
    by_cases h : c.Name = name
    · simp only [removeConnection, h, if_true, List.map_cons]
      exact List.sublist_cons_self _ _
    · simp only [removeConnection, h, if_false, List.map_cons]
      exact ih.cons₂ _

theorem EncryptConnectionPassword_name {W : Type} (E : StorageEnv W) (w : W)
    (config : StoredConnection) :
    (EncryptConnectionPassword E w config).2.1.Name = config.Name := by
  simp only [EncryptConnectionPassword]
  split
  · rfl
  · split <;> rfl

theorem TypeMap_mem_keys_assign (m : TypeMap) (k v key : String) (h : key ∈ m.keys) :
    key ∈ (m.assign k v).keys := by
  simp only [TypeMap.keys, TypeMap.assign, List.map_cons, List.mem_cons]
  by_cases hk : key = k
  · exact Or.inl hk
  · right
    obtain ⟨e, he, rfl⟩ := List.mem_map.mp h
    exact List.mem_map.mpr ⟨e, List.mem_filter.mpr ⟨he, by simpa using hk⟩, rfl⟩

theorem TypeMap_mem_keys_delete (m : TypeMap) (k key : String) (h : key ∈ m.keys)
    (hk : key ≠ k) : key ∈ (m.delete k).keys := by
  simp only [TypeMap.keys, TypeMap.delete]
  obtain ⟨e, he, rfl⟩ := List.mem_map.mp h
  exact List.mem_map.mpr ⟨e, List.mem_filter.mpr ⟨he, by simpa using hk⟩, rfl⟩

theorem SetTemplate_keeps_default {W : Type} (E : StorageEnv W) (w : W) (s : Storage)
    (name template : String) (h : "default" ∈ s.config.Templates.keys) :
    "default" ∈ (s.SetTemplate E w name template).2.1.config.Templates.keys :=
  TypeMap_mem_keys_assign _ _ _ _ h

theorem DeleteTemplate_keeps_default {W : Type} (E : StorageEnv W) (w : W) (s : Storage)
    (name : String) (h : "default" ∈ s.config.Templates.keys) :
    "default" ∈ (s.DeleteTemplate E w name).2.1.config.Templates.keys := by
  simp only [Storage.DeleteTemplate]
  split
  · exact h
  · rename_i hn
    split
    · exact h
    · exact TypeMap_mem_keys_delete _ _ _ h (fun e => hn e.symm)

theorem runTemplateCalls_keeps_default {W : Type} (E : StorageEnv W) (w : W) (s : Storage)
    (calls : List TemplateCall) (h : "default" ∈ s.config.Templates.keys) :
    "default" ∈ (runTemplateCalls E w s calls).2.config.Templates.keys := by
  induction calls generalizing w s with
  | nil => exact h
  | cons call calls ih =>
    cases call with
    | set name template =>
      exact ih _ _ (SetTemplate_keeps_default E w s name template h)
    | delete name =>
      exact ih _ _ (DeleteTemplate_keeps_default E w s name h)

/-! ## The claims on the type mappers -/

/-- C1: the three `Map` functions are total, and a type string other than `tinyint(1)`
whose lookup key (the part before the first `(` or space for MySQL and SQLite, the whole
string for PostgreSQL) is not a key of the mapper's table is mapped to `any`. -/
theorem Map_unrecognised_is_any (s : String) (hs : s ≠ "tinyint(1)") :
    (∃ t, NewMySQLMapper.Map s = t) ∧ (∃ t, NewPostgreSQLMapper.Map s = t) ∧
    (∃ t, NewSQLiteMapper.Map s = t) ∧
    (baseTypeOf s ∉ NewMySQLMapper.typeMap.keys → NewMySQLMapper.Map s = "any") ∧
    (s ∉ NewPostgreSQLMapper.typeMap.keys → NewPostgreSQLMapper.Map s = "any") ∧
    (baseTypeOf s ∉ NewSQLiteMapper.typeMap.keys → NewSQLiteMapper.Map s = "any") := by
  refine ⟨⟨_, rfl⟩, ⟨_, rfl⟩, ⟨_, rfl⟩, ?_, ?_, ?_⟩
  · intro h
    rw [MySQLMapper_Map_of_ne _ s hs, TypeMap_get_eq_none_of_not_mem_keys _ _ h]
    rfl
  · intro h
    unfold PostgreSQLMapper.Map
    rw [TypeMap_get_eq_none_of_not_mem_keys _ _ h]
  · intro h
    rw [SQLiteMapper_Map_of_ne _ s hs, TypeMap_get_eq_none_of_not_mem_keys _ _ h]
    rfl

/-- C1, at the type `geometry(Point,4326)`, which no table knows. -/
theorem Map_unrecognised_is_any_witness :
    NewMySQLMapper.Map "geometry(Point,4326)" = "any" ∧
    NewPostgreSQLMapper.Map "geometry(Point,4326)" = "any" ∧
    NewSQLiteMapper.Map "geometry(Point,4326)" = "any" :=
  have h := Map_unrecognised_is_any "geometry(Point,4326)" (by decide)
  ⟨h.2.2.2.1 (by decide), h.2.2.2.2.1 (by decide), h.2.2.2.2.2 (by decide)⟩

/-- C2: for the MySQL and the SQLite mapper `tinyint(1)` maps to `boolean` and `int` to
`number`; the override is tested before the table is read, and `tinyint` and `tinyint(4)`
still map to `number`. -/
theorem Map_tinyint1_boolean :
    NewMySQLMapper.Map "tinyint(1)" = "boolean" ∧ NewSQLiteMapper.Map "tinyint(1)" = "boolean" ∧
    NewMySQLMapper.Map "int" = "number" ∧ NewSQLiteMapper.Map "int" = "number" ∧
    NewMySQLMapper.Map "tinyint" = "number" ∧ NewSQLiteMapper.Map "tinyint" = "number" ∧
    NewMySQLMapper.Map "tinyint(4)" = "number" ∧ NewSQLiteMapper.Map "tinyint(4)" = "number" := by
  decide

/-- C3: for the MySQL and the SQLite mapper and every string `s` other than `tinyint(1)`,
`Map s = Map b` where `b` is `s` cut at its first `(` or space: `b` is a prefix of `s` without
`(` and space, and what follows it in `s` is nothing or starts with `(` or a space.  So
`varchar(255)` maps like `varchar`, to `string`, and for MySQL `decimal(10,2)` like `decimal`,
to `number`. -/
theorem Map_strips_qualifier (s : String) (hs : s ≠ "tinyint(1)") :
    (∃ rest, s.data = (baseTypeOf s).data ++ rest ∧
      (rest = [] ∨ rest.head? = some '(' ∨ rest.head? = some ' ') ∧
      ∀ c ∈ (baseTypeOf s).data, c ≠ '(' ∧ c ≠ ' ') ∧
    NewMySQLMapper.Map s = NewMySQLMapper.Map (baseTypeOf s) ∧
    NewSQLiteMapper.Map s = NewSQLiteMapper.Map (baseTypeOf s) ∧
    NewMySQLMapper.Map "varchar(255)" = NewMySQLMapper.Map "varchar" ∧
    NewMySQLMapper.Map "varchar" = "string" ∧
    NewSQLiteMapper.Map "varchar(255)" = NewSQLiteMapper.Map "varchar" ∧
    NewSQLiteMapper.Map "varchar" = "string" ∧
    NewMySQLMapper.Map "decimal(10,2)" = NewMySQLMapper.Map "decimal" ∧
    NewMySQLMapper.Map "decimal" = "number" := by
  refine ⟨baseTypeRunes_spec s.data, ?_, ?_, by decide, by decide, by decide, by decide,
    by decide, by decide⟩
  · rw [MySQLMapper_Map_of_ne _ s hs, MySQLMapper_Map_of_ne _ _ (baseTypeOf_ne_tinyint1 s),
      baseTypeOf_idem]
  · rw [SQLiteMapper_Map_of_ne _ s hs, SQLiteMapper_Map_of_ne _ _ (baseTypeOf_ne_tinyint1 s),
      baseTypeOf_idem]

/-- C3, at `bigint(20) unsigned`, which maps like `bigint`. -/
theorem Map_strips_qualifier_witness :
    baseTypeOf "bigint(20) unsigned" = "bigint" ∧
    NewMySQLMapper.Map "bigint(20) unsigned" = NewMySQLMapper.Map "bigint" ∧
    NewSQLiteMapper.Map "bigint(20) unsigned" = NewSQLiteMapper.Map "bigint" :=
  have h := Map_strips_qualifier "bigint(20) unsigned" (by decide)
  ⟨by decide, h.2.1, h.2.2.1⟩

/-- C4, as stated, fails: the PostgreSQL mapper gives none of the three qualified type
strings the target type of its base type. -/
theorem PostgreSQL_Map_qualified_counterexample :
    NewPostgreSQLMapper.Map "varchar(255)" ≠ "string" ∧
    NewPostgreSQLMapper.Map "character varying(100)" ≠ "string" ∧
    NewPostgreSQLMapper.Map "numeric(10,2)" ≠ "number" := by
  decide

/-- C4, amended: the PostgreSQL mapper strips no qualifier.  It looks the whole string up, no
key of its table holds a `(`, and so every type string with a `(` maps to `any`, the three
qualified strings among them, while their base types map to `string`, `string` and
`number`. -/
theorem PostgreSQL_Map_qualified_is_any (s : String) (hs : '(' ∈ s.data) :
    NewPostgreSQLMapper.Map s = "any" ∧
    NewPostgreSQLMapper.Map "varchar(255)" = "any" ∧
    NewPostgreSQLMapper.Map "character varying(100)" = "any" ∧
    NewPostgreSQLMapper.Map "numeric(10,2)" = "any" ∧
    NewPostgreSQLMapper.Map "varchar" = "string" ∧
    NewPostgreSQLMapper.Map "character varying" = "string" ∧
    NewPostgreSQLMapper.Map "numeric" = "number" := by
  refine ⟨?_, by decide, by decide, by decide, by decide, by decide, by decide⟩
  have hkeys : ∀ k ∈ NewPostgreSQLMapper.typeMap.keys, '(' ∉ k.data := by decide
  have hnot : s ∉ NewPostgreSQLMapper.typeMap.keys := fun h => hkeys s h hs
  unfold PostgreSQLMapper.Map
  rw [TypeMap_get_eq_none_of_not_mem_keys _ _ hnot]

/-- C4, amended, at `timestamp(6) with time zone`. -/
theorem PostgreSQL_Map_qualified_is_any_witness :
    NewPostgreSQLMapper.Map "timestamp(6) with time zone" = "any" :=
  (PostgreSQL_Map_qualified_is_any "timestamp(6) with time zone" (by decide)).1

/-! ## The claims on the script stage -/

/-- C5: for every text, model and script that is empty or only white space, `Process` returns
the text and no error, whatever the encoder and the interpreter would do (they may fail or
never return), and it leaves the processor as it was. -/
theorem Process_blank_script_noop {VM Val P M : Type} (G : Goja VM Val P) (J : Json M P)
    (p : JavaScriptProcessor VM) (tsCode script : String) (metadata : Option M)
    (h : ∀ c ∈ script.data, isSpace c = true) :
    p.Process G J tsCode script metadata = some ⟨tsCode, none, p⟩ :=
  Process_of_blank G J p tsCode script metadata (by simpa [isBlank] using h)

/-- C5, at a script of a space, a tab and a line feed, with a model at hand. -/
theorem Process_blank_script_noop_witness :
    (NewJavaScriptProcessor (miniGoja String)).Process (miniGoja String) goJson
        "export interface t" ⟨[' ', Char.ofNat 9, Char.ofNat 10]⟩
        (some ⟨"t", []⟩) =
      some ⟨"export interface t", none, NewJavaScriptProcessor (miniGoja String)⟩ :=
  Process_blank_script_noop (miniGoja String) goJson _ _ _ _ (by decide)

/-- C6: on a fresh processor, for a script that is not blank and runs to its end (the model
having been serialised), `Process` returns no error; the text is the original one when
`output` is absent, undefined or has the empty string form, and the string form of `output`
otherwise. -/
theorem Process_completed_reads_output {VM Val P M : Type} (G : Goja VM Val P) (J : Json M P)
    (tsCode script : String) (metadata : Option M) (inputJSON : String) (vm : VM)
    (hscript : isBlank script = false)
    (hjson : inputJSONOf J metadata = .ok inputJSON)
    (hrun : G.RunString (bindInputs G J G.New tsCode inputJSON) script = .completed vm) :
    ∃ r, (NewJavaScriptProcessor G).Process G J tsCode script metadata = some r ∧
      r.err = none ∧
      (G.Get vm "output" = none → r.text = tsCode) ∧
      (∀ v, G.Get vm "output" = some v → G.IsUndefined v = true → r.text = tsCode) ∧
      (∀ v, G.Get vm "output" = some v → G.ToString v = "" → r.text = tsCode) ∧
      (∀ v, G.Get vm "output" = some v → G.IsUndefined v = false → G.ToString v ≠ "" →
        r.text = G.ToString v) := by
  refine ⟨⟨readOutput G vm tsCode, none, ⟨vm⟩⟩, ?_, rfl, ?_, ?_, ?_, ?_⟩
  · rw [Process_of_not_blank G J _ tsCode script metadata hscript, hjson]
    simp only [NewJavaScriptProcessor]
    rw [hrun]
  · intro h
    simp only [readOutput, h]
  · intro v h hu
    simp only [readOutput, h, hu, if_true]
  · intro v h hs
    simp only [readOutput, h, hs]
    split <;> rfl
  · intro v h hu hs
    simp only [readOutput, h, hu, hs]
    simp

/-- C6, at a script that assigns `output` and at one that assigns another name. -/
theorem Process_completed_reads_output_witness :
    (∃ r, (NewJavaScriptProcessor (miniGoja String)).Process (miniGoja String) goJson
        "code" "output = \"x\";" none = some r ∧ r.err = none ∧ r.text = "x") ∧
    (∃ r, (NewJavaScriptProcessor (miniGoja String)).Process (miniGoja String) goJson
        "code" "other = \"x\";" none = some r ∧ r.err = none ∧ r.text = "code") := by
  obtain ⟨r, h1, h2, _, _, _, h6⟩ :=
    Process_completed_reads_output (miniGoja String) goJson "code" "output = \"x\";" none
      "\x7b\x7d" _ (by decide) rfl rfl
  obtain ⟨q, k1, k2, k3, _⟩ :=
    Process_completed_reads_output (miniGoja String) goJson "code" "other = \"x\";" none
      "\x7b\x7d" _ (by decide) rfl rfl
  exact ⟨⟨r, h1, h2, h6 (.str "x") rfl rfl (by decide)⟩, ⟨q, k1, k2, k3 rfl⟩⟩

/-- C7, as stated, fails: after a first call whose script assigns `output`, a second call
on the same processor with a script that never sets `output` returns the first script's
output, where the same call on a fresh processor returns its own text. -/
theorem Process_second_call_counterexample :
    ∃ r1 r2 rf,
      miniProcess miniFresh "first" "output = \"x\";" = some r1 ∧
      miniProcess r1.proc "second" "other = \"y\";" = some r2 ∧
      miniProcess miniFresh "second" "other = \"y\";" = some rf ∧
      rf.text = "second" ∧ r2.text = "x" ∧ r2.text ≠ rf.text :=
  ⟨_, _, _, rfl, rfl, rfl, by decide, by decide, by decide⟩

/-- C7, amended: a processor keeps one interpreter.  A call that returns at the blank-script
or at the serialisation exit leaves the processor as it was, so the next call on it returns
what it would have returned before; a call that runs its script leaves the processor with the
interpreter state the script left, and the next call runs on that state.  `Generate` runs
its script on a processor of its own, fresh from the constructor.  In the run of the small interpreter the second script, which never
sets `output`, returns the `x` of the first, and `leftover`, which neither script sets, is
absent for both scripts and after both calls. -/
theorem Process_keeps_interpreter {VM Val P M : Type} (G : Goja VM Val P) (J : Json M P)
    (p : JavaScriptProcessor VM) (tsCode script : String) (metadata : Option M)
    (r : Returned VM) (h : p.Process G J tsCode script metadata = some r) :
    ((isBlank script = true ∨ ∃ e, inputJSONOf J metadata = .error e) →
      r.proc = p ∧
      ∀ (t2 s2 : String) (m2 : Option M), r.proc.Process G J t2 s2 m2 = p.Process G J t2 s2 m2) ∧
    (isBlank script = false → ∀ inputJSON, inputJSONOf J metadata = .ok inputJSON →
      (G.RunString (bindInputs G J p.vm tsCode inputJSON) script = .completed r.proc.vm ∨
        ∃ e, G.RunString (bindInputs G J p.vm tsCode inputJSON) script = .raised r.proc.vm e)) ∧
    (∀ (JT : Json TemplateData P) (g : Generator) (table : TableMetadata) (rendered : String),
      g.template.Execute (templateDataOf g.mapper table) = .ok rendered → g.script ≠ "" →
      g.Generate G JT table =
        ((NewJavaScriptProcessor G).Process G JT rendered g.script
            (some (templateDataOf g.mapper table))).map
          (fun ret =>
            match ret.err with
            | some e => (rendered, some e)
            | none => (ret.text, none))) ∧
    (∃ r1 r2,
      miniProcess miniFresh "first" "output = \"x\"; a = typeof leftover;" = some r1 ∧
      miniProcess r1.proc "second" "b = typeof leftover;" = some r2 ∧
      r1.text = "x" ∧ r2.text = "x" ∧
      (miniGoja String).Get r1.proc.vm "a" = some (.str "undefined") ∧
      (miniGoja String).Get r2.proc.vm "b" = some (.str "undefined") ∧
      (miniGoja String).Get r1.proc.vm "leftover" = none ∧
      (miniGoja String).Get r2.proc.vm "leftover" = none) := by
  refine ⟨?_, ?_, ?_, ⟨_, _, rfl, rfl, by decide, by decide, by decide, by decide, by decide,
    by decide⟩⟩
  rotate_left 2
  · intro JT g table rendered hexec hs
    simp only [Generator.Generate, hexec]
    rw [if_pos hs]
    cases (NewJavaScriptProcessor G).Process G JT rendered g.script
        (some (templateDataOf g.mapper table)) with
    | none => rfl
    | some ret =>
      cases hre : ret.err with
      | none => simp [hre]
      | some e => simp [hre]
  · intro hnoop
    have hp : r.proc = p := by
      cases hb : isBlank script with
      | true =>
        rw [Process_of_blank G J p tsCode script metadata hb] at h
        cases h
        rfl
      | false =>
        rcases hnoop with hb2 | ⟨e, he⟩
        · rw [hb] at hb2
          cases hb2
        · rw [Process_of_marshal_error G J p tsCode script metadata e hb he] at h
          cases h
          rfl
    exact ⟨hp, fun t2 s2 m2 => by rw [hp]⟩
  · intro hb inputJSON hj
    have key : ∀ o, G.RunString (bindInputs G J p.vm tsCode inputJSON) script = o →
        (o = .completed r.proc.vm ∨ ∃ e, o = .raised r.proc.vm e) := by
      intro o ho
      cases o with
      | completed vm =>
        rw [Process_of_completed G J p tsCode script metadata inputJSON vm hb hj ho] at h
        cases h
        exact Or.inl rfl
      | raised vm e =>
        rw [Process_of_raised G J p tsCode script metadata inputJSON vm e hb hj ho] at h
        cases h
        exact Or.inr ⟨e, rfl⟩
      | diverges =>
        rw [Process_of_diverges G J p tsCode script metadata inputJSON hb hj ho] at h
        cases h
    exact key _ rfl

/-- C7, amended, at the first call of the run: the processor it leaves holds the binding
`output` that the script made. -/
theorem Process_keeps_interpreter_witness :
    ∃ r, miniProcess miniFresh "first" "output = \"x\";" = some r ∧
      miniRun (bindInputs (miniGoja String) goJson miniFresh.vm "first" "\x7b\x7d")
        "output = \"x\";" = .completed r.proc.vm ∧
      (miniGoja String).Get r.proc.vm "output" = some (.str "x") := by
  refine ⟨_, rfl, ?_, by decide⟩
  have h := (Process_keeps_interpreter (miniGoja String) goJson miniFresh "first"
    "output = \"x\";" none _ rfl).2.1 (by decide) "\x7b\x7d" rfl
  rcases h with h | ⟨e, h⟩
  · exact h
  · cases h

/-- C8: `Process` returns an error exactly when the script is not blank and either the model
cannot be serialised or running the script raises; the text returned with an error is empty;
and `Process` returns unless the script is run and never ends. -/
theorem Process_error_iff {VM Val P M : Type} (G : Goja VM Val P) (J : Json M P)
    (p : JavaScriptProcessor VM) (tsCode script : String) (metadata : Option M) :
    ((∃ r, p.Process G J tsCode script metadata = some r ∧ r.err ≠ none) ↔
      isBlank script = false ∧
        ((∃ m e, metadata = some m ∧ J.Marshal m = .error e) ∨
          ∃ inputJSON vm e, inputJSONOf J metadata = .ok inputJSON ∧
            G.RunString (bindInputs G J p.vm tsCode inputJSON) script = .raised vm e)) ∧
    (∀ r, p.Process G J tsCode script metadata = some r → r.err ≠ none → r.text = "") ∧
    (p.Process G J tsCode script metadata = none ↔
      isBlank script = false ∧ ∃ inputJSON, inputJSONOf J metadata = .ok inputJSON ∧
        G.RunString (bindInputs G J p.vm tsCode inputJSON) script = .diverges) := by
  cases hb : isBlank script with
  | true =>
    rw [Process_of_blank G J p tsCode script metadata hb]
    simp
  | false =>
    cases hj : inputJSONOf J metadata with
    | error e =>
      have hm : ∃ m e, metadata = some m ∧ J.Marshal m = .error e := by
        cases metadata with
        | none => cases hj
        | some m => exact ⟨m, e, rfl, hj⟩
      rw [Process_of_marshal_error G J p tsCode script metadata e hb hj]
      refine ⟨⟨fun _ => ⟨rfl, Or.inl hm⟩, fun _ => ⟨_, rfl, by simp⟩⟩, ?_, by simp⟩
      intro r hr _
      cases hr
      rfl
    | ok inputJSON =>
      have hm : ¬ ∃ m e, metadata = some m ∧ J.Marshal m = .error e := by
        rintro ⟨m, e, rfl, he⟩
        rw [inputJSONOf, he] at hj
        cases hj
      have key : ∀ o, G.RunString (bindInputs G J p.vm tsCode inputJSON) script = o →
          ((∃ r, p.Process G J tsCode script metadata = some r ∧ r.err ≠ none) ↔
            false = false ∧
              ((∃ m e, metadata = some m ∧ J.Marshal m = .error e) ∨
                ∃ j vm e, (Except.ok inputJSON : Except String String) = .ok j ∧
                  G.RunString (bindInputs G J p.vm tsCode j) script = .raised vm e)) ∧
          (∀ r, p.Process G J tsCode script metadata = some r → r.err ≠ none → r.text = "") ∧
          (p.Process G J tsCode script metadata = none ↔
            false = false ∧ ∃ j, (Except.ok inputJSON : Except String String) = .ok j ∧
              G.RunString (bindInputs G J p.vm tsCode j) script = .diverges) := by
        intro o ho
        cases o with
        | completed vm =>
          rw [Process_of_completed G J p tsCode script metadata inputJSON vm hb hj ho]
          refine ⟨⟨?_, ?_⟩, ?_, ?_⟩
          · rintro ⟨r, h1, h2⟩
            cases h1
            exact absurd rfl h2
          · rintro ⟨_, h | ⟨j, vm2, e, h1, h2⟩⟩
            · exact absurd h hm
            · cases h1
              rw [ho] at h2
              cases h2
          · intro r h1 h2
            cases h1
            exact absurd rfl h2
          · refine ⟨fun h => (by cases h), ?_⟩
            rintro ⟨_, j, h1, h2⟩
            cases h1
            rw [ho] at h2
            cases h2
        | raised vm e =>
          rw [Process_of_raised G J p tsCode script metadata inputJSON vm e hb hj ho]
          refine ⟨⟨fun _ => ⟨rfl, Or.inr ⟨inputJSON, vm, e, rfl, ho⟩⟩,
            fun _ => ⟨_, rfl, by simp⟩⟩, ?_, ?_⟩
          · intro r h1 _
            cases h1
            rfl
          · refine ⟨fun h => (by cases h), ?_⟩
            rintro ⟨_, j, h1, h2⟩
            cases h1
            rw [ho] at h2
            cases h2
        | diverges =>
          rw [Process_of_diverges G J p tsCode script metadata inputJSON hb hj ho]
          refine ⟨⟨?_, ?_⟩, ?_, ?_⟩
          · rintro ⟨r, h1, _⟩
            cases h1
          · rintro ⟨_, h | ⟨j, vm2, e, h1, h2⟩⟩
            · exact absurd h hm
            · cases h1
              rw [ho] at h2
              cases h2
          · intro r h1
            cases h1
          · exact ⟨fun _ => ⟨rfl, inputJSON, rfl, ho⟩, fun _ => rfl⟩
      exact key _ rfl

/-! ## The claims on the renderer -/

/-- C9: with the default template and no script, `Generate` returns the line
`export interface T` with an opening brace, then for each field, in the order of the
metadata, its comment line and its line `name: Map(type);`, then an empty line and the closing
brace; an empty comment still gives its comment line.  For `user_id int, created_at datetime`
there are two field lines in that order, and for `users(id int, name varchar(100),
email varchar(255))` the types are `number`, `string`, `string` (MySQL mapper). -/
theorem Generate_default_template {VM Val P : Type} (G : Goja VM Val P)
    (J : Json TemplateData P) (dbType : String) (metadata : TableMetadata) :
    (∃ g, NewGenerator dbType DefaultTemplate = .ok g ∧ g.script = "" ∧
      g.Generate G J metadata = some
        ("export interface " ++ metadata.Name ++ " \x7b\n" ++
          String.join (metadata.Fields.map (fun f =>
            "  \x2f** " ++ f.Comment ++ " *\x2f\n  " ++ f.Name ++ ": " ++
              (NewTypeMapper dbType).Map f.Typ ++ ";\n")) ++
          "\n\x7d\n", none)) ∧
    (∃ g, NewGenerator "MySQL" DefaultTemplate = .ok g ∧
      g.Generate G J eventsTable = some
        ("export interface events \x7b\n" ++
          "  \x2f**  *\x2f\n  user_id: number;\n" ++
          "  \x2f**  *\x2f\n  created_at: Date;\n" ++
          "\n\x7d\n", none)) ∧
    (∃ g, NewGenerator "MySQL" DefaultTemplate = .ok g ∧
      g.Generate G J usersTable = some
        ("export interface users \x7b\n" ++
          "  \x2f**  *\x2f\n  id: number;\n" ++
          "  \x2f**  *\x2f\n  name: string;\n" ++
          "  \x2f**  *\x2f\n  email: string;\n" ++
          "\n\x7d\n", none)) := by
  refine ⟨Generate_default_eq G J dbType metadata, ?_, ?_⟩
  · obtain ⟨g, hg, _, hgen⟩ := Generate_default_eq G J "MySQL" eventsTable
    exact ⟨g, hg, hgen.trans (congrArg (fun t => some (t, none)) (by decide))⟩
  · obtain ⟨g, hg, _, hgen⟩ := Generate_default_eq G J "MySQL" usersTable
    exact ⟨g, hg, hgen.trans (congrArg (fun t => some (t, none)) (by decide))⟩

/-- C10: when the template execution gives the text `r`, `Generate` returns `r` if no script
is configured; with a script it runs `Process` on a processor it constructs itself, and when
that returns `o` without error `Generate` returns `o` and no error; when that call never
returns, neither does `Generate`. -/
theorem Generate_returns_script_output {VM Val P : Type} (G : Goja VM Val P)
    (J : Json TemplateData P) (g : Generator) (metadata : TableMetadata) (r : String)
    (hexec : g.template.Execute (templateDataOf g.mapper metadata) = .ok r) :
    (g.script = "" → g.Generate G J metadata = some (r, none)) ∧
    (g.script ≠ "" → ∀ ret,
      (NewJavaScriptProcessor G).Process G J r g.script
          (some (templateDataOf g.mapper metadata)) = some ret →
      ret.err = none → g.Generate G J metadata = some (ret.text, none)) ∧
    (g.script ≠ "" →
      (NewJavaScriptProcessor G).Process G J r g.script
          (some (templateDataOf g.mapper metadata)) = none →
      g.Generate G J metadata = none) := by
  refine ⟨?_, ?_, ?_⟩
  · intro hs
    simp only [Generator.Generate, hexec, hs]
    simp
  · intro hs ret hret herr
    simp only [Generator.Generate, hexec, hret, herr]
    simp [hs]
  · intro hs hret
    simp only [Generator.Generate, hexec, hret]
    simp [hs]

/-- C10, on the table `users` with the default template: without a script the rendered text
comes back, with the script `output = "x";` the script's output does. -/
theorem Generate_returns_script_output_witness :
    (∃ g, NewGenerator "MySQL" DefaultTemplate = .ok g ∧
      g.SetScript "output = \"x\";" = scriptedGenerator) ∧
    scriptedGenerator.template.Execute (templateDataOf scriptedGenerator.mapper usersTable) =
      .ok usersText ∧
    scriptedGenerator.Generate (miniGoja String) goJson usersTable = some ("x", none) := by
  refine ⟨⟨_, NewGenerator_DefaultTemplate "MySQL", rfl⟩, rfl, ?_⟩
  exact (Generate_returns_script_output (miniGoja String) goJson scriptedGenerator usersTable
    usersText rfl).2.1 (by decide) ⟨"x", none, ⟨_⟩⟩ rfl rfl

/-- C11: `Generate` returns the error `e` exactly when the template execution failed with
`e`, or the template execution succeeded, a script is configured and `Process`, run on the
rendered text, returned the error `e`: the error of the script stage is handed on as it is. -/
theorem Generate_error_iff {VM Val P : Type} (G : Goja VM Val P) (J : Json TemplateData P)
    (g : Generator) (metadata : TableMetadata) (e : String) :
    (∃ t, g.Generate G J metadata = some (t, some e)) ↔
      (g.template.Execute (templateDataOf g.mapper metadata) = .error e ∨
        ∃ r ret, g.template.Execute (templateDataOf g.mapper metadata) = .ok r ∧
          g.script ≠ "" ∧
          (NewJavaScriptProcessor G).Process G J r g.script
            (some (templateDataOf g.mapper metadata)) = some ret ∧
          ret.err = some e) := by
  cases hexec : g.template.Execute (templateDataOf g.mapper metadata) with
  | error e1 =>
    rw [Generate_of_exec_error G J g metadata e1 hexec]
    constructor
    · rintro ⟨t, h⟩
      cases h
      exact Or.inl rfl
    · rintro (h | ⟨r, ret, h, _⟩)
      · cases h
        exact ⟨"", rfl⟩
      · cases h
  | ok r =>
    by_cases hs : g.script = ""
    · rw [Generate_of_no_script G J g metadata r hexec hs]
      constructor
      · rintro ⟨t, h⟩
        cases h
      · rintro (h | ⟨r1, ret, _, h, _⟩)
        · cases h
        · exact absurd hs h
    · cases hp : (NewJavaScriptProcessor G).Process G J r g.script
          (some (templateDataOf g.mapper metadata)) with
      | none =>
        rw [Generate_of_script_none G J g metadata r hexec hs hp]
        constructor
        · rintro ⟨t, h⟩
          cases h
        · rintro (h | ⟨r1, ret, h1, _, h2, _⟩)
          · cases h
          · cases h1
            rw [hp] at h2
            cases h2
      | some ret =>
        cases hre : ret.err with
        | none =>
          rw [Generate_of_script_ok G J g metadata r ret hexec hs hp hre]
          constructor
          · rintro ⟨t, h⟩
            cases h
          · rintro (h | ⟨r1, ret1, h1, _, h2, h3⟩)
            · cases h
            · cases h1
              rw [hp] at h2
              cases h2
              rw [hre] at h3
              cases h3
        | some e2 =>
          rw [Generate_of_script_error G J g metadata r ret e2 hexec hs hp hre]
          constructor
          · rintro ⟨t, h⟩
            cases h
            exact Or.inr ⟨r, ret, rfl, hs, hp, hre⟩
          · rintro (h | ⟨r1, ret1, h1, _, h2, h3⟩)
            · cases h
            · cases h1
              rw [hp] at h2
              cases h2
              rw [hre] at h3
              cases h3
              exact ⟨r, rfl⟩

/-- C12, as stated, fails: with a script that throws, `Generate` returns the error together
with the whole rendered text, which is not empty. -/
theorem Generate_script_error_text_counterexample :
    throwingGenerator.Generate (miniGoja String) goJson usersTable =
      some (usersText, some "JavaScript执行错误: boom") ∧ usersText ≠ "" :=
  ⟨rfl, by decide⟩

/-- C12, amended: when `Generate` returns an error from the template execution, the text is
empty; when it returns an error from the script stage, the text is the text the template
rendered, whole and untouched by the script. -/
theorem Generate_error_text {VM Val P : Type} (G : Goja VM Val P) (J : Json TemplateData P)
    (g : Generator) (metadata : TableMetadata) (t e : String)
    (h : g.Generate G J metadata = some (t, some e)) :
    (g.template.Execute (templateDataOf g.mapper metadata) = .error e ∧ t = "") ∨
    (g.template.Execute (templateDataOf g.mapper metadata) = .ok t ∧ g.script ≠ "" ∧
      ∃ ret, (NewJavaScriptProcessor G).Process G J t g.script
          (some (templateDataOf g.mapper metadata)) = some ret ∧ ret.err = some e) := by
  cases hexec : g.template.Execute (templateDataOf g.mapper metadata) with
  | error e1 =>
    rw [Generate_of_exec_error G J g metadata e1 hexec] at h
    cases h
    exact Or.inl ⟨rfl, rfl⟩
  | ok r =>
    by_cases hs : g.script = ""
    · rw [Generate_of_no_script G J g metadata r hexec hs] at h
      cases h
    · cases hp : (NewJavaScriptProcessor G).Process G J r g.script
          (some (templateDataOf g.mapper metadata)) with
      | none =>
        rw [Generate_of_script_none G J g metadata r hexec hs hp] at h
        cases h
      | some ret =>
        cases hre : ret.err with
        | none =>
          rw [Generate_of_script_ok G J g metadata r ret hexec hs hp hre] at h
          cases h
        | some e2 =>
          rw [Generate_of_script_error G J g metadata r ret e2 hexec hs hp hre] at h
          cases h
          exact Or.inr ⟨rfl, hs, ret, hp, hre⟩

/-- C12, amended, at a template that fails and at a script that throws. -/
theorem Generate_error_text_witness :
    (brokenTemplateGenerator.template.Execute
        (templateDataOf brokenTemplateGenerator.mapper usersTable) =
      .error "can't evaluate field Nope in type generator.TemplateData") ∧
    throwingGenerator.template.Execute (templateDataOf throwingGenerator.mapper usersTable) =
      .ok usersText := by
  have h1 := Generate_error_text (miniGoja String) goJson brokenTemplateGenerator usersTable
    "" "can't evaluate field Nope in type generator.TemplateData" rfl
  have h2 := Generate_error_text (miniGoja String) goJson throwingGenerator usersTable
    usersText "JavaScript执行错误: boom" rfl
  refine ⟨?_, ?_⟩
  · rcases h1 with h | h
    · exact h.1
    · exact absurd rfl h.2.1
  · rcases h2 with h | h
    · exact absurd h.2 (by decide)
    · exact h.1

/-! ## The claims on the choice of the mapper -/

/-- C13, at a PostgreSQL connection named `prod`: `generateCode` hands the name of the
connection to `NewGenerator`, the name is no engine identifier, and the table is rendered
with the MySQL mapper - `integer` and `boolean` become `any`, where the mapper of the
connection's engine kind gives `number` and `boolean`. -/
theorem generateCode_maps_by_connection_name :
    prodConnection.Typ = "PostgreSQL" ∧
    generateCode (miniGoja String) goJson prodConnection.Name "" ordersTable =
      .ok (some
        ("export interface orders \x7b\n" ++
          "  \x2f**  *\x2f\n  id: any;\n" ++
          "  \x2f**  *\x2f\n  paid: any;\n" ++
          "\n\x7d\n", none)) ∧
    (NewTypeMapper prodConnection.Typ).Map "integer" = "number" ∧
    (NewTypeMapper prodConnection.Typ).Map "boolean" = "boolean" ∧
    (NewTypeMapper prodConnection.Name).Map "integer" = NewMySQLMapper.Map "integer" ∧
    (NewTypeMapper prodConnection.Name).Map "boolean" = NewMySQLMapper.Map "boolean" :=
  ⟨rfl, rfl, by decide, by decide, by decide, by decide⟩

/-- C14: `NewTypeMapper` gives the MySQL, PostgreSQL and SQLite mapper for the identifiers
`MySQL`, `PostgreSQL` and `SQLite`, and for every other identifier, such as the empty string
or `mysql`, a mapper that agrees with the MySQL mapper on every type string. -/
theorem NewTypeMapper_selects_by_identifier (t : String) :
    (NewTypeMapper "MySQL").Map t = NewMySQLMapper.Map t ∧
    (NewTypeMapper "PostgreSQL").Map t = NewPostgreSQLMapper.Map t ∧
    (NewTypeMapper "SQLite").Map t = NewSQLiteMapper.Map t ∧
    (∀ dbType : String, dbType ≠ "MySQL" → dbType ≠ "PostgreSQL" → dbType ≠ "SQLite" →
      (NewTypeMapper dbType).Map t = NewMySQLMapper.Map t) ∧
    (NewTypeMapper "").Map t = NewMySQLMapper.Map t ∧
    (NewTypeMapper "mysql").Map t = NewMySQLMapper.Map t ∧
    (NewTypeMapper "Oracle").Map t = NewMySQLMapper.Map t := by
  have hother : ∀ dbType : String, dbType ≠ "MySQL" → dbType ≠ "PostgreSQL" →
      dbType ≠ "SQLite" → (NewTypeMapper dbType).Map t = NewMySQLMapper.Map t := by
    intro dbType h1 h2 h3
    simp only [NewTypeMapper, if_neg h1, if_neg h2, if_neg h3, TypeMapper.Map]
  exact ⟨rfl, rfl, rfl, hother, hother "" (by decide) (by decide) (by decide),
    hother "mysql" (by decide) (by decide) (by decide),
    hother "Oracle" (by decide) (by decide) (by decide)⟩

/-- C15: the PostgreSQL mapper looks the whole string up: for every entry of its table,
`Map` of the key is the value, the keys of several words included, although the part of such
a key before its first space is another key or none. -/
theorem PostgreSQL_Map_full_key (k v : String) (h : (k, v) ∈ NewPostgreSQLMapper.typeMap) :
    NewPostgreSQLMapper.Map k = v ∧
    NewPostgreSQLMapper.Map "timestamp with time zone" = "Date" ∧
    NewPostgreSQLMapper.Map "timestamp without time zone" = "Date" ∧
    NewPostgreSQLMapper.Map "time with time zone" = "string" ∧
    NewPostgreSQLMapper.Map "double precision" = "number" ∧
    NewPostgreSQLMapper.Map "character varying" = "string" ∧
    baseTypeOf "double precision" = "double" ∧
    NewPostgreSQLMapper.Map "double" = "any" := by
  have hall : ∀ e ∈ NewPostgreSQLMapper.typeMap, NewPostgreSQLMapper.Map e.1 = e.2 := by
    decide
  exact ⟨hall (k, v) h, by decide, by decide, by decide, by decide, by decide, by decide,
    by decide⟩

/-- C15, at the key `time without time zone`. -/
theorem PostgreSQL_Map_full_key_witness :
    NewPostgreSQLMapper.Map "time without time zone" = "string" :=
  (PostgreSQL_Map_full_key "time without time zone" "string" (by decide)).1

/-! ## The claims on the connectors -/

/-- C17: on a connector of any of the three engines whose handle is nil, `GetDatabases`,
`GetTables` and `GetTableMetadata` return the error and no result, for all arguments, and
leave the connector as it was.  A new connector has a nil handle and a `Connect` that fails
leaves the connector as it was, so this is every instance on which `Connect` has never
succeeded. -/
theorem not_connected_is_error {DB Raw : Type} (S : Sql DB Raw) (O : Os) (R : MapRange)
    (m : MySQLConnector DB) (pg : PostgreSQLConnector DB) (sq : SQLiteConnector DB)
    (database table : String) (hm : m.db = none) (hpg : pg.db = none) (hsq : sq.db = none) :
    (m.GetDatabases S = (m, .error "数据库未连接") ∧
      m.GetTables S database = (m, .error "数据库未连接") ∧
      m.GetTableMetadata S R database table = (m, .error "数据库未连接")) ∧
    (pg.GetDatabases S = (pg, .error "数据库未连接") ∧
      pg.GetTables S database = (pg, .error "数据库未连接") ∧
      pg.GetTableMetadata S database table = (pg, .error "数据库未连接")) ∧
    (sq.GetDatabases O = (sq, .error "数据库未连接") ∧
      sq.GetTables S database = (sq, .error "数据库未连接") ∧
      sq.GetTableMetadata S database table = (sq, .error "数据库未连接")) ∧
    ((∀ config, (NewMySQLConnector config : MySQLConnector DB).db = none) ∧
      (∀ config, (NewPostgreSQLConnector config : PostgreSQLConnector DB).db = none) ∧
      (∀ config, (NewSQLiteConnector config : SQLiteConnector DB).db = none)) ∧
    ((∀ e, (m.Connect S).2 = .error e → (m.Connect S).1 = m) ∧
      (∀ e, (pg.Connect S).2 = .error e → (pg.Connect S).1 = pg) ∧
      (∀ e, (sq.Connect S O).2 = .error e → (sq.Connect S O).1 = sq)) := by
  refine ⟨⟨?_, ?_, ?_⟩, ⟨?_, ?_, ?_⟩, ⟨?_, ?_, ?_⟩, ⟨fun _ => rfl, fun _ => rfl, fun _ => rfl⟩,
    ⟨?_, ?_, ?_⟩⟩
  · simp only [MySQLConnector.GetDatabases, hm]
  · simp only [MySQLConnector.GetTables, hm]
  · simp only [MySQLConnector.GetTableMetadata, hm]
  · simp only [PostgreSQLConnector.GetDatabases, hpg]
  · simp only [PostgreSQLConnector.GetTables, hpg]
  · simp only [PostgreSQLConnector.GetTableMetadata, hpg]
  · simp only [SQLiteConnector.GetDatabases, hsq]
  · simp only [SQLiteConnector.GetTables, hsq]
  · simp only [SQLiteConnector.GetTableMetadata, hsq]
  · intro e
    simp only [MySQLConnector.Connect]
    split
    · intro _; rfl
    · split
      · intro _; rfl
      · intro h; cases h
  · intro e
    simp only [PostgreSQLConnector.Connect]
    split
    · intro _; rfl
    · split
      · intro _; rfl
      · intro h; cases h
  · intro e
    simp only [SQLiteConnector.Connect]
    split
    · intro _; rfl
    · split
      · intro _; rfl
      · split
        · intro _; rfl
        · intro h; cases h

/-- C17, at new connectors of the three engines. -/
theorem not_connected_is_error_witness :
    (NewMySQLConnector exampleConfig).GetDatabases tableSql =
      (NewMySQLConnector exampleConfig, .error "数据库未连接") ∧
    (NewPostgreSQLConnector exampleConfig).GetTables tableSql "shop" =
      (NewPostgreSQLConnector exampleConfig, .error "数据库未连接") ∧
    (NewSQLiteConnector exampleConfig).GetTableMetadata tableSql "shop" "users" =
      (NewSQLiteConnector exampleConfig, .error "数据库未连接") :=
  have h := not_connected_is_error tableSql unixOs entryOrder (NewMySQLConnector exampleConfig)
    (NewPostgreSQLConnector exampleConfig) (NewSQLiteConnector exampleConfig) "shop" "users"
    rfl rfl rfl
  ⟨h.1.1, h.2.1.2.1, h.2.2.1.2.2⟩

/-- C18: `Close` on a connector of any of the three engines whose handle is nil returns no
error and leaves the connector as it was. -/
theorem Close_not_connected_noop {DB Raw : Type} (S : Sql DB Raw)
    (m : MySQLConnector DB) (pg : PostgreSQLConnector DB) (sq : SQLiteConnector DB)
    (hm : m.db = none) (hpg : pg.db = none) (hsq : sq.db = none) :
    m.Close S = (m, none) ∧ pg.Close S = (pg, none) ∧ sq.Close S = (sq, none) := by
  refine ⟨?_, ?_, ?_⟩
  · simp only [MySQLConnector.Close, hm]
  · simp only [PostgreSQLConnector.Close, hpg]
  · simp only [SQLiteConnector.Close, hsq]

/-- C18, at new connectors of the three engines. -/
theorem Close_not_connected_noop_witness :
    (NewMySQLConnector exampleConfig).Close tableSql = (NewMySQLConnector exampleConfig, none) ∧
    (NewPostgreSQLConnector exampleConfig).Close tableSql =
      (NewPostgreSQLConnector exampleConfig, none) ∧
    (NewSQLiteConnector exampleConfig).Close tableSql =
      (NewSQLiteConnector exampleConfig, none) :=
  Close_not_connected_noop tableSql (NewMySQLConnector exampleConfig)
    (NewPostgreSQLConnector exampleConfig) (NewSQLiteConnector exampleConfig) rfl rfl rfl

/-- C19: when the query `SHOW DATABASES` of a connected MySQL connector gives rows that scan
to the names `names`, `GetDatabases` returns, without error, the names other than
`information_schema`, `mysql`, `performance_schema` and `sys`, in the order of the rows: a
subsequence of `names` that holds none of the four and every other name as often as `names`
does. -/
theorem MySQL_GetDatabases_filters {DB Raw : Type} (S : Sql DB Raw) (c : MySQLConnector DB)
    (db db1 : DB) (rows : List Raw) (names : List String)
    (hdb : c.db = some db) (hq : S.Query db "SHOW DATABASES" [] = (db1, .ok rows))
    (hscan : rows.map S.ScanName = names.map .ok) :
    ∃ result, (c.GetDatabases S).2 = .ok result ∧
      result = names.filter (fun n => decide (n ≠ "information_schema" ∧ n ≠ "mysql" ∧
        n ≠ "performance_schema" ∧ n ≠ "sys")) ∧
      result.Sublist names ∧
      "information_schema" ∉ result ∧ "mysql" ∉ result ∧ "performance_schema" ∉ result ∧
      "sys" ∉ result ∧
      ∀ n, n ≠ "information_schema" → n ≠ "mysql" → n ≠ "performance_schema" → n ≠ "sys" →
        result.count n = names.count n := by
  have hfilter : names.filter isUserDatabase =
      names.filter (fun n => decide (n ≠ "information_schema" ∧ n ≠ "mysql" ∧
        n ≠ "performance_schema" ∧ n ≠ "sys")) := by
    apply List.filter_congr
    intro n _
    rw [Bool.eq_iff_iff, isUserDatabase_iff]
    simp
  refine ⟨names.filter isUserDatabase, ?_, hfilter, List.filter_sublist names,
    ?_, ?_, ?_, ?_, ?_⟩
  · rw [MySQL_GetDatabases_of_rows S c db db1 rows names hdb hq hscan]
  · intro h
    exact absurd (List.mem_filter.mp h).2 (by decide)
  · intro h
    exact absurd (List.mem_filter.mp h).2 (by decide)
  · intro h
    exact absurd (List.mem_filter.mp h).2 (by decide)
  · intro h
    exact absurd (List.mem_filter.mp h).2 (by decide)
  · intro n h1 h2 h3 h4
    exact List.count_filter ((isUserDatabase_iff n).mpr ⟨h1, h2, h3, h4⟩)

/-- C19, at a server with the four system databases, `shop` (twice) and `blog`. -/
theorem MySQL_GetDatabases_filters_witness :
    ((⟨exampleConfig, some exampleCatalog⟩ : MySQLConnector _).GetDatabases tableSql).2 =
      .ok ["shop", "blog", "shop"] := by
  obtain ⟨result, h1, h2, _⟩ := MySQL_GetDatabases_filters tableSql
    ⟨exampleConfig, some exampleCatalog⟩ exampleCatalog exampleCatalog
    [["information_schema"], ["shop"], ["mysql"], ["performance_schema"], ["sys"],
      ["blog"], ["shop"]]
    ["information_schema", "shop", "mysql", "performance_schema", "sys", "blog", "shop"]
    rfl rfl rfl
  rw [h1, h2]
  exact congrArg Except.ok (by decide)

/-- C20: on a connected SQLite connector `GetDatabases` returns, without error, the list of
one entry `filepath.Base(config.Host)`, and leaves the connector as it was; with the
separator `/` the base name of `/var/data/shop.db` is `shop.db`. -/
theorem SQLite_GetDatabases_base_name {DB : Type} (O : Os) (c : SQLiteConnector DB) (db : DB)
    (hdb : c.db = some db) :
    c.GetDatabases O = (c, .ok [O.Base c.config.Host]) ∧
    unixBase "/var/data/shop.db" = "shop.db" ∧ unixBase "shop.db" = "shop.db" ∧
    unixBase "data/shop.db/" = "shop.db" := by
  refine ⟨?_, by decide, by decide, by decide⟩
  simp only [SQLiteConnector.GetDatabases, hdb]

/-- C20, at a connector that `Connect` has connected to the file `/var/data/shop.db`. -/
theorem SQLite_GetDatabases_base_name_witness :
    (((NewSQLiteConnector exampleConfig).Connect tableSql unixOs).1.GetDatabases unixOs).2 =
      .ok ["shop.db"] := by
  have h := (SQLite_GetDatabases_base_name unixOs
    ((NewSQLiteConnector exampleConfig).Connect tableSql unixOs).1 [] rfl).1
  rw [h]
  exact congrArg Except.ok (by decide)

/-- C16: when the statements of `GetTableMetadata` of a connected MySQL connector succeed and
the rows of the index query scan to `rs`, the `Indexes` of the result hold exactly one
`IndexInfo` for each index name of `rs`; its `Columns` are the column names of the rows of
that name, in the order of the rows, and its type is the type of the first row of that name.
Two rows of `idx_name_email` with `name` and then `email` give the one `IndexInfo` with the
columns `name`, `email`, whatever the order of the map range. -/
theorem MySQL_index_correlation {DB Raw : Type} (S : Sql DB Raw) (R : MapRange)
    (c : MySQLConnector DB) (database table : String) (db db1 db2 db3 : DB)
    (colRows indexRows : List Raw) (cols : List MySQLColumnRow) (rs : List MySQLIndexRow)
    (hdb : c.db = some db)
    (huse : S.Exec db ("USE " ++ database) = (db1, none))
    (hcol : S.Query db1 mysqlColumnQuery [database, table] = (db2, .ok colRows))
    (hcolscan : colRows.map S.ScanMySQLColumn = cols.map .ok)
    (hidx : S.Query db2 mysqlIndexQuery [database, table] = (db3, .ok indexRows))
    (hidxscan : indexRows.map S.ScanMySQLIndex = rs.map .ok) :
    (∃ md, (c.GetTableMetadata S R database table).2 = .ok md ∧
      (md.Indexes.map (fun idx => idx.Name)).Nodup ∧
      (∀ n, n ∈ md.Indexes.map (fun idx => idx.Name) ↔ n ∈ rs.map (fun r => r.indexName)) ∧
      ∀ idx ∈ md.Indexes,
        idx.Columns =
          (rs.filter (fun r => r.indexName = idx.Name)).map (fun r => r.columnName) ∧
        (rs.find? (fun r => r.indexName = idx.Name)).map (fun r => r.indexType) =
          some idx.Typ) ∧
    ∀ R1 : MapRange,
      R1.order
        (([⟨"idx_name_email", "BTREE", "name"⟩, ⟨"idx_name_email", "BTREE", "email"⟩].foldl
          indexMapAdd []).map Prod.snd) =
        [{ Name := "idx_name_email", Typ := "BTREE", Columns := ["name", "email"] }] := by
  constructor
  · have hinv : IndexMapInv (rs.foldl indexMapAdd []) rs := by
      have h0 : IndexMapInv [] [] :=
        ⟨List.nodup_nil, fun n => by simp, fun e he => by cases he⟩
      simpa using foldl_indexMapAdd_inv rs [] [] h0
    obtain ⟨hnd, hkeys, hent⟩ := hinv
    have hnames : ((rs.foldl indexMapAdd []).map Prod.snd).map (fun idx => idx.Name) =
        (rs.foldl indexMapAdd []).map Prod.fst := by
      rw [List.map_map]
      apply List.map_congr_left
      intro e he
      exact (hent e he).1
    have hperm := R.perm ((rs.foldl indexMapAdd []).map Prod.snd)
    refine ⟨_, by rw [MySQL_GetTableMetadata_of_rows S R c database table db db1 db2 db3
      colRows indexRows cols rs hdb huse hcol hcolscan hidx hidxscan], ?_, ?_, ?_⟩
    · exact ((hperm.map (fun idx => idx.Name)).nodup_iff).mpr (hnames ▸ hnd)
    · intro n
      rw [(hperm.map (fun idx => idx.Name)).mem_iff, hnames]
      exact hkeys n
    · intro idx hidxmem
      have hmem := hperm.mem_iff.mp hidxmem
      obtain ⟨e, he, rfl⟩ := List.mem_map.mp hmem
      obtain ⟨h1, h2, h3⟩ := hent e he
      rw [h1]
      exact ⟨h2, h3⟩
  · intro R1
    exact List.perm_singleton.mp (R1.perm _)

set_option maxRecDepth 100000 in
/-- C16, at a table with a primary key and the index `idx_name_email`, the map range taken
in the order of entry. -/
theorem MySQL_index_correlation_witness :
    ((⟨exampleConfig, some exampleIndexCatalog⟩ : MySQLConnector _).GetTableMetadata tableSql
        entryOrder "shop" "users").2 =
      .ok { Name := "users", Fields := [],
            Indexes :=
              [ { Name := "PRIMARY", Typ := "BTREE", Columns := ["id"] },
                { Name := "idx_name_email", Typ := "BTREE", Columns := ["name", "email"] } ] } ∧
    ∃ md, ((⟨exampleConfig, some exampleIndexCatalog⟩ : MySQLConnector _).GetTableMetadata
        tableSql entryOrder "shop" "users").2 = .ok md ∧
      (md.Indexes.map (fun idx => idx.Name)).Nodup ∧
      (∀ n, n ∈ md.Indexes.map (fun idx => idx.Name) ↔
        n ∈ exampleIndexRows.map (fun r => r.indexName)) ∧
      ∀ idx ∈ md.Indexes,
        idx.Columns =
          (exampleIndexRows.filter (fun r => r.indexName = idx.Name)).map
            (fun r => r.columnName) ∧
        (exampleIndexRows.find? (fun r => r.indexName = idx.Name)).map (fun r => r.indexType) =
          some idx.Typ :=
  ⟨rfl, (MySQL_index_correlation tableSql entryOrder
    ⟨exampleConfig, some exampleIndexCatalog⟩ "shop" "users" exampleIndexCatalog
    exampleIndexCatalog exampleIndexCatalog exampleIndexCatalog [] _ [] exampleIndexRows
    rfl rfl rfl rfl rfl rfl).1⟩

/-- C21: when `GetTables` or `GetTableMetadata` of a connected PostgreSQL connector is called
for another database than the one of its configuration, the three statements that re-target
the configuration leave the cell of the caller, and every other cell, as it was and give the
connector a new cell, whose value is the value of the connector's configuration after the
call: the old value with `Database` set to the requested name and `Type`, `Host`, `Port`,
`Username` and `Password` unchanged.  For the database of the configuration the block that
switches does nothing, the configuration stays and the calls only run their queries on the
handle. -/
theorem PostgreSQL_switch_copies_config {DB Raw : Type} (S : Sql DB Raw)
    (c : PostgreSQLConnector DB) (db : DB) (database table : String) (store : ConfigStore)
    (ptr : Nat) (hdb : c.db = some db) (hptr : store.read ptr = some c.config) :
    (∃ store1 ptr1, retargetConfig store ptr database = some (store1, ptr1) ∧
      store1.read ptr = some c.config ∧
      (∀ q v, store.read q = some v → store1.read q = some v) ∧
      ptr1 ≠ ptr ∧
      (c.config.Database ≠ database →
        store1.read ptr1 = some (c.GetTables S database).1.config ∧
        store1.read ptr1 = some (c.GetTableMetadata S database table).1.config)) ∧
    (c.GetTables S database).1.config = { c.config with Database := database } ∧
    (c.GetTableMetadata S database table).1.config = { c.config with Database := database } ∧
    ((c.GetTables S database).1.config.Database = database ∧
      (c.GetTables S database).1.config.Typ = c.config.Typ ∧
      (c.GetTables S database).1.config.Host = c.config.Host ∧
      (c.GetTables S database).1.config.Port = c.config.Port ∧
      (c.GetTables S database).1.config.Username = c.config.Username ∧
      (c.GetTables S database).1.config.Password = c.config.Password) ∧
    (c.config.Database = database →
      c.switchDatabase S db database = (c, .ok db) ∧
      c.GetTables S database = c.tablesFrom S db ∧
      c.GetTableMetadata S database table = c.metadataFrom S db table ∧
      (c.GetTables S database).1.config = c.config ∧
      (c.GetTableMetadata S database table).1.config = c.config) := by
  have hgt := PostgreSQL_GetTables_config S c db database hdb
  have hgm := PostgreSQL_GetTableMetadata_config S c db database table hdb
  refine ⟨?_, hgt, hgm, ?_, ?_⟩
  · refine ⟨(store.alloc { c.config with Database := database }).1,
      (store.alloc { c.config with Database := database }).2,
      by simp only [retargetConfig, hptr], ?_, ?_, ?_, ?_⟩
    · exact ConfigStore_read_alloc_old store _ _ ptr hptr
    · intro q v hq
      exact ConfigStore_read_alloc_old store _ _ q hq
    · intro h
      have hlt : ptr < store.cells.length := by
        rcases Nat.lt_or_ge ptr store.cells.length with hlt | hge
        · exact hlt
        · simp only [ConfigStore.read] at hptr
          rw [List.getElem?_eq_none hge] at hptr
          cases hptr
      simp only [ConfigStore.alloc] at h
      omega
    · intro _
      rw [hgt, hgm]
      exact ⟨ConfigStore_read_alloc_new store _, ConfigStore_read_alloc_new store _⟩
  · rw [hgt]
    exact ⟨rfl, rfl, rfl, rfl, rfl, rfl⟩
  · intro hsame
    have hsw := PostgreSQL_switch_same S c db database hsame
    refine ⟨hsw, ?_, ?_, ?_, ?_⟩
    · rw [PostgreSQL_GetTables_eq S c db database hdb, hsw]
    · rw [PostgreSQL_GetTableMetadata_eq S c db database table hdb, hsw]
    · rw [PostgreSQL_GetTables_eq S c db database hdb, hsw]
      exact PostgreSQL_tablesFrom_config S c db
    · rw [PostgreSQL_GetTableMetadata_eq S c db database table hdb, hsw]
      exact PostgreSQL_metadataFrom_config S c db table

/-- C21, at a connector on the database `shop` that is asked for the tables of `blog`. -/
theorem PostgreSQL_switch_copies_config_witness :
    ((⟨postgresConfig, some []⟩ : PostgreSQLConnector _).GetTables tableSql "blog").1.config =
      { postgresConfig with Database := "blog" } ∧
    ∃ store1 ptr1, retargetConfig ⟨[postgresConfig]⟩ 0 "blog" = some (store1, ptr1) ∧
      store1.read 0 = some postgresConfig :=
  have h := PostgreSQL_switch_copies_config tableSql ⟨postgresConfig, some []⟩ [] "blog"
    "users" ⟨[postgresConfig]⟩ 0 rfl rfl
  ⟨h.2.1, h.1.choose, h.1.choose_spec.choose, h.1.choose_spec.choose_spec.1,
    h.1.choose_spec.choose_spec.2.1⟩

/-- C22: `GetTables` and `GetTableMetadata` of the SQLite connector do not read the database
argument: on the same connector and driver they return the same for any two database
names. -/
theorem SQLite_ignores_database {DB Raw : Type} (S : Sql DB Raw) (c : SQLiteConnector DB)
    (d1 d2 t : String) :
    c.GetTables S d1 = c.GetTables S d2 ∧
    c.GetTableMetadata S d1 t = c.GetTableMetadata S d2 t :=
  ⟨rfl, rfl⟩

/-- C23: each of the four methods of `Processor` makes one call of the method of the same
name on the connector it holds: it returns what that call returns, error included, and the
connector it holds afterwards is the connector after that one call. -/
theorem Processor_forwards {σ DB : Type} (I : ConnectorMethods σ DB) (p : Processor σ)
    (d t : String) :
    p.GetDatabases I =
      ({ connector := (I.GetDatabases p.connector).1 }, (I.GetDatabases p.connector).2) ∧
    p.GetTables I d =
      ({ connector := (I.GetTables p.connector d).1 }, (I.GetTables p.connector d).2) ∧
    p.GetTableMetadata I d t =
      ({ connector := (I.GetTableMetadata p.connector d t).1 },
        (I.GetTableMetadata p.connector d t).2) ∧
    p.Close I = ({ connector := (I.Close p.connector).1 }, (I.Close p.connector).2) ∧
    (NewProcessor p.connector).connector = p.connector :=
  ⟨rfl, rfl, rfl, rfl, rfl⟩

/-- C27: when the reconnect of `GetTables` or `GetTableMetadata` of PostgreSQL for another
database fails, the call returns the error of `Connect` and no result, and the connector it
leaves has the configuration with the requested database and the old handle, closed and not
nil; a later call for that database finds the database of the configuration equal to the
requested one, does not connect and runs its queries on that closed handle. -/
theorem PostgreSQL_failed_reconnect {DB Raw : Type} (S : Sql DB Raw)
    (c : PostgreSQLConnector DB) (db : DB) (database table e : String)
    (hdb : c.db = some db) (hne : c.config.Database ≠ database)
    (hfail : (({ config := { c.config with Database := database },
                 db := some (S.Close db).1 } : PostgreSQLConnector DB).Connect S).2 =
      .error e) :
    c.GetTables S database =
      ({ config := { c.config with Database := database }, db := some (S.Close db).1 },
        .error e) ∧
    c.GetTableMetadata S database table =
      ({ config := { c.config with Database := database }, db := some (S.Close db).1 },
        .error e) ∧
    ({ config := { c.config with Database := database }, db := some (S.Close db).1 } :
      PostgreSQLConnector DB).GetTables S database =
      ({ config := { c.config with Database := database }, db := some (S.Close db).1 } :
        PostgreSQLConnector DB).tablesFrom S (S.Close db).1 ∧
    ({ config := { c.config with Database := database }, db := some (S.Close db).1 } :
      PostgreSQLConnector DB).GetTableMetadata S database table =
      ({ config := { c.config with Database := database }, db := some (S.Close db).1 } :
        PostgreSQLConnector DB).metadataFrom S (S.Close db).1 table := by
  have hsw : c.switchDatabase S db database =
      ({ config := { c.config with Database := database }, db := some (S.Close db).1 },
        .error e) := by
    rw [PostgreSQL_switch_other S c db database hdb hne]
    exact PostgreSQL_Connect_error S _ e hfail
  refine ⟨?_, ?_, ?_, ?_⟩
  · rw [PostgreSQL_GetTables_eq S c db database hdb, hsw]
  · rw [PostgreSQL_GetTableMetadata_eq S c db database table hdb, hsw]
  · rw [PostgreSQL_GetTables_eq S _ (S.Close db).1 database rfl,
      PostgreSQL_switch_same S _ (S.Close db).1 database rfl]
  · rw [PostgreSQL_GetTableMetadata_eq S _ (S.Close db).1 database table rfl,
      PostgreSQL_switch_same S _ (S.Close db).1 database rfl]

/-- C27, at a connector on `shop` that is asked for `blog` while the server refuses new
connections: the call fails, and the next call for `blog` answers from the old handle. -/
theorem PostgreSQL_failed_reconnect_witness :
    (⟨postgresConfig, some []⟩ : PostgreSQLConnector _).GetTables refusingSql "blog" =
      (⟨{ postgresConfig with Database := "blog" }, some []⟩,
        .error "连接PostgreSQL失败: connection refused") ∧
    (⟨{ postgresConfig with Database := "blog" }, some []⟩ :
      PostgreSQLConnector _).GetTables refusingSql "blog" =
      (⟨{ postgresConfig with Database := "blog" }, some []⟩, .ok []) :=
  have h := PostgreSQL_failed_reconnect refusingSql ⟨postgresConfig, some []⟩ [] "blog"
    "users" "连接PostgreSQL失败: connection refused" rfl (by decide) rfl
  ⟨h.1, h.2.2.1.trans rfl⟩

/-- C28: `NewConnector` returns, without error, the MySQL, PostgreSQL or SQLite connector for
the `Type` of that name, holding the given configuration and a nil handle, and for every
other `Type` neither a connector nor an error. -/
theorem NewConnector_by_type {DB : Type} (config : ConnectionConfig) :
    (config.Typ = "MySQL" →
      (NewConnector config : Option (Connector DB) × Option String) =
        (some (.mysql { config := config, db := none }), none)) ∧
    (config.Typ = "PostgreSQL" →
      (NewConnector config : Option (Connector DB) × Option String) =
        (some (.postgres { config := config, db := none }), none)) ∧
    (config.Typ = "SQLite" →
      (NewConnector config : Option (Connector DB) × Option String) =
        (some (.sqlite { config := config, db := none }), none)) ∧
    (config.Typ ≠ "MySQL" → config.Typ ≠ "PostgreSQL" → config.Typ ≠ "SQLite" →
      (NewConnector config : Option (Connector DB) × Option String) = (none, none)) := by
  refine ⟨?_, ?_, ?_, ?_⟩
  · intro h
    simp only [NewConnector, h, if_true, NewMySQLConnector]
  · intro h
    have h1 : config.Typ ≠ "MySQL" := by rw [h]; decide
    rw [NewConnector, if_neg h1, if_pos h]
    rfl
  · intro h
    have h1 : config.Typ ≠ "MySQL" := by rw [h]; decide
    have h2 : config.Typ ≠ "PostgreSQL" := by rw [h]; decide
    rw [NewConnector, if_neg h1, if_neg h2, if_pos h]
    rfl
  · intro h1 h2 h3
    simp only [NewConnector, if_neg h1, if_neg h2, if_neg h3]

/-! ## The claim on the validator -/

/-- C26: `ValidatePort p` returns no error exactly when `p` is not empty and is a base-10
integer `n` - an optional sign, then decimal digits and nothing else - within the range of
`int` with `1 ≤ n ≤ 65535`, whatever the size of `int`; `1` and `65535` are accepted, the
empty string, `0`, `65536`, `-1`, `80a` and ` 80` are rejected. -/
theorem ValidatePort_accepts_iff (bitSize : Nat) (p : String) :
    (ValidatePort bitSize p = none ↔
      p ≠ "" ∧ ∃ n : Int, IsDecimalInteger p n ∧
        -(2 ^ (bitSize - 1) : Int) ≤ n ∧ n < (2 ^ (bitSize - 1) : Int) ∧ 1 ≤ n ∧ n ≤ 65535) ∧
    (ValidatePort 64 "1" = none ∧ ValidatePort 64 "65535" = none ∧
      ValidatePort 32 "1" = none ∧ ValidatePort 32 "65535" = none) ∧
    (ValidatePort 64 "" ≠ none ∧ ValidatePort 64 "0" ≠ none ∧ ValidatePort 64 "65536" ≠ none ∧
      ValidatePort 64 "-1" ≠ none ∧ ValidatePort 64 "80a" ≠ none ∧
      ValidatePort 64 " 80" ≠ none) ∧
    (ValidatePort 32 "" ≠ none ∧ ValidatePort 32 "0" ≠ none ∧ ValidatePort 32 "65536" ≠ none ∧
      ValidatePort 32 "-1" ≠ none ∧ ValidatePort 32 "80a" ≠ none ∧
      ValidatePort 32 " 80" ≠ none) :=
  ⟨ValidatePort_none_iff bitSize p, by decide, by decide, by decide⟩

/-! ## The claims on the template manager and on the names of the render model -/

/-- C24, at the template directory of the application and the file name
`../imported_evil/x`: the joined path is `templates/imported_evil/x.tpl`, which starts with
the characters of `templates/imported` and so passes the test, and the file is written into
the sibling directory `templates/imported_evil`, outside the template directory.  The name
`../x` is rejected, and `default` is written inside the directory. -/
theorem SaveTemplateToFile_writes_sibling :
    appTemplateManager.templateDir = "templates/imported" ∧
    appTemplateManager.SaveTemplateToFile recordingFs [] "../imported_evil/x" "data" =
      ([("templates/imported_evil/x.tpl", "data")], none) ∧
    HasPrefix "templates/imported_evil/x.tpl" "templates/imported" = true ∧
    HasPrefix "templates/imported_evil/x.tpl" "templates/imported/" = false ∧
    appTemplateManager.SaveTemplateToFile recordingFs [] "../x" "data" =
      ([], some "无效的模板文件路径") ∧
    appTemplateManager.SaveTemplateToFile recordingFs [] "default" "data" =
      ([("templates/imported/default.tpl", "data")], none) :=
  ⟨by decide, rfl, by decide, by decide, rfl, rfl⟩

/-- C25, at the render model of a table `users` with one field: the text from which the
value of `input` is parsed names the table `tableName`, the field list `fields` and the
properties of a field `name`, `tsType` and `comment`; none of the names of the guide -
`TableName`, `Fields`, `Name`, `TsType`, `Comment` - is among the names the encoder
writes. -/
theorem Process_input_json_names :
    inputJSONOf goJson (some usersData) =
      .ok ("\x7b\"tableName\":\"users\",\"fields\":[" ++
        "\x7b\"name\":\"id\",\"tsType\":\"number\",\"comment\":\"key\"\x7d]\x7d") ∧
    marshalTemplateData usersData =
      "\x7b" ++ jsonMember (templateDataJsonNames.getD 0 "") "users" ++ "," ++
        jsonString (templateDataJsonNames.getD 1 "") ++ ":[" ++
        "\x7b" ++ jsonMember (fieldDataJsonNames.getD 0 "") "id" ++ "," ++
        jsonMember (fieldDataJsonNames.getD 1 "") "number" ++ "," ++
        jsonMember (fieldDataJsonNames.getD 2 "") "key" ++ "\x7d" ++ "]\x7d" ∧
    "TableName" ∉ templateDataJsonNames ∧ "Fields" ∉ templateDataJsonNames ∧
    "Name" ∉ fieldDataJsonNames ∧ "TsType" ∉ fieldDataJsonNames ∧
    "Comment" ∉ fieldDataJsonNames :=
  ⟨rfl, by decide, by decide, by decide, by decide, by decide, by decide⟩

/-! ## The claims on the storage -/

/-- C29: when the stored connections have pairwise distinct names, they still have after
`AddConnection`, `UpdateConnection` and `DeleteConnection`, whatever the call returns; and
`AddConnection` with a name that is already stored returns an error and leaves the storage,
its connection list included, and the world as they were. -/
theorem Storage_connection_names_distinct {W : Type} (E : StorageEnv W) (w : W) (s : Storage)
    (config : StoredConnection) (name : String)
    (h : (s.config.Connections.map (fun c => c.Name)).Nodup) :
    ((s.AddConnection E w config).2.1.config.Connections.map (fun c => c.Name)).Nodup ∧
    ((s.UpdateConnection E w config).2.1.config.Connections.map (fun c => c.Name)).Nodup ∧
    ((s.DeleteConnection E w name).2.1.config.Connections.map (fun c => c.Name)).Nodup ∧
    (config.Name ∈ s.config.Connections.map (fun c => c.Name) →
      s.AddConnection E w config =
        (w, s, some ("connection name '" ++ config.Name ++ "' already exists"))) := by
  refine ⟨?_, ?_, ?_, ?_⟩
  · simp only [Storage.AddConnection]
    split
    · exact h
    · rename_i hnot
      have hname := EncryptConnectionPassword_name E w config
      have hnew : config.Name ∉ s.config.Connections.map (fun c => c.Name) := fun hm =>
        hnot ((hasConnection_iff _ _).mpr hm)
      split
      · exact h
      · rename_i w1 enc heq
        rw [heq] at hname
        simp only [List.map_append, List.map_cons, List.map_nil]
        rw [List.nodup_append]
        refine ⟨h, List.nodup_singleton _, ?_⟩
        intro a ha hb
        rw [List.mem_singleton] at hb
        simp only at hname
        exact hnew (hname ▸ hb ▸ ha)
  · simp only [Storage.UpdateConnection]
    split
    · have hname := EncryptConnectionPassword_name E w config
      split
      · exact h
      · rename_i w1 enc heq
        rw [heq] at hname
        simp only at hname
        simp only []
        rw [names_replaceConnection _ _ _ hname]
        exact h
    · exact h
  · simp only [Storage.DeleteConnection]
    split
    · exact (names_removeConnection_sublist name _).nodup h
    · exact h
  · intro hm
    simp only [Storage.AddConnection, (hasConnection_iff _ _).mpr hm, if_true]

/-- C29, at a storage with the connection `prod`: a second `prod` is refused, a connection
`test` is added with its password sealed. -/
theorem Storage_connection_names_distinct_witness :
    exampleStorage.AddConnection countingEnv 0
        { Name := "prod", Typ := "MySQL", Host := "h", Port := "3306", Username := "u",
          Password := "p", Database := "" } =
      (0, exampleStorage, some "connection name 'prod' already exists") ∧
    ((exampleStorage.AddConnection countingEnv 0
        { Name := "test", Typ := "MySQL", Host := "h", Port := "3306", Username := "u",
          Password := "p", Database := "" }).2.1.config.Connections.map
      (fun c => (c.Name, c.Password))) = [("prod", ""), ("test", "[p]")] ∧
    ((exampleStorage.AddConnection countingEnv 0
        { Name := "test", Typ := "MySQL", Host := "h", Port := "3306", Username := "u",
          Password := "p", Database := "" }).2.1.config.Connections.map
      (fun c => c.Name)).Nodup :=
  have h1 := Storage_connection_names_distinct countingEnv 0 exampleStorage
    { Name := "prod", Typ := "MySQL", Host := "h", Port := "3306", Username := "u",
      Password := "p", Database := "" } "prod" (by decide)
  have h2 := Storage_connection_names_distinct countingEnv 0 exampleStorage
    { Name := "test", Typ := "MySQL", Host := "h", Port := "3306", Username := "u",
      Password := "p", Database := "" } "prod" (by decide)
  ⟨h1.2.2.2 (by decide), by decide, h2.1⟩

/-- C30: `DeleteTemplate` of `default` and `DeleteScript` of `camelCase`, `addHeader`,
`formatCode` and `addImports` return an error and leave the storage, its two maps included,
and the world as they were; so does the deletion of a name that is not stored; and a storage
whose templates hold `default` still holds it after any sequence of `SetTemplate` and
`DeleteTemplate` calls. -/
theorem Storage_builtin_not_deletable {W : Type} (E : StorageEnv W) (w : W) (s : Storage)
    (name : String) (calls : List TemplateCall) :
    s.DeleteTemplate E w "default" = (w, s, some "cannot delete default template") ∧
    s.DeleteScript E w "camelCase" = (w, s, some "cannot delete default script") ∧
    s.DeleteScript E w "addHeader" = (w, s, some "cannot delete default script") ∧
    s.DeleteScript E w "formatCode" = (w, s, some "cannot delete default script") ∧
    s.DeleteScript E w "addImports" = (w, s, some "cannot delete default script") ∧
    (name ∉ s.config.Templates.keys →
      (s.DeleteTemplate E w name).1 = w ∧ (s.DeleteTemplate E w name).2.1 = s ∧
      (s.DeleteTemplate E w name).2.2 ≠ none) ∧
    (name ∉ s.config.Scripts.keys →
      (s.DeleteScript E w name).1 = w ∧ (s.DeleteScript E w name).2.1 = s ∧
      (s.DeleteScript E w name).2.2 ≠ none) ∧
    ("default" ∈ s.config.Templates.keys →
      "default" ∈ (runTemplateCalls E w s calls).2.config.Templates.keys) := by
  refine ⟨rfl, rfl, rfl, rfl, rfl, ?_, ?_, runTemplateCalls_keeps_default E w s calls⟩
  · intro hn
    have hget := TypeMap_get_eq_none_of_not_mem_keys _ _ hn
    simp only [Storage.DeleteTemplate, hget]
    split
    · exact ⟨rfl, rfl, by simp⟩
    · exact ⟨rfl, rfl, by simp⟩
  · intro hn
    have hget := TypeMap_get_eq_none_of_not_mem_keys _ _ hn
    simp only [Storage.DeleteScript, hget]
    split
    · exact ⟨rfl, rfl, by simp⟩
    · exact ⟨rfl, rfl, by simp⟩

end DBModeler
